import Mathlib

/-! habana-ai-operator: the DeviceConfig reconciliation engine.

A shallow embedding of the Go sources

* `internal/conditions/conditions.go` (the Ready / Errored condition updater),
* `controllers/nodeselector.go` (the node-selector conflict validator),
* `controllers/deviceconfig_controller.go` (the reconcile pass),
* `internal/settings/settings.go` (the settings loader),
* `internal/module/module.go`, `internal/node/metrics/metrics.go` and
  `internal/node/labeler/labeler.go` (the child reconcilers),

followed by the theorems that relate them to the specification.

Conventions of the embedding.

* A Go method that receives `cr *DeviceConfig` and talks to the cluster is a
  function `DeviceConfig → σ → ... × DeviceConfig × σ`: it returns the object
  as the pointer leaves it and the next state of the world `σ` (the cluster,
  the clock, whatever a test double keeps).
* A Go `error` result is `Option GoError`, `none` being `nil`.
* Go interfaces are structures of functions, so a test double and the real
  implementation are both values of the same type.
* `map[string]string` is `Option (List (String × String))`, `none` being the
  nil map.
* Logger calls are not part of the embedding.
-/

namespace HabanaOperator

/-! ## Go values -/

/-- A Go error: `base` is an error made by `errors.New`, by `fmt.Errorf` without
`%w`, or an API status error (`notFound` tells whether its status reason is
NotFound); `wrap` is an error made by `fmt.Errorf` with one `%w` verb, holding
the formatted text and the wrapped error. -/
inductive GoError where
  | base (text : String) (notFound : Bool)
  | wrap (text : String) (inner : GoError)
deriving DecidableEq, Repr

/-- The method `Error()`: the text of the error. -/
def GoError.Error : GoError → String
  | .base text _ => text
  | .wrap text _ => text

/-- The function `errors.New`. -/
def errorsNew (text : String) : GoError := .base text false

/-- The function `errors.Unwrap`. -/
def GoError.Unwrap : GoError → Option GoError
  | .base _ _ => none
  | .wrap _ inner => some inner

/-- The predicate `errors.Is(err, target)` for the comparable errors of the
embedding: `target` is `err` or occurs in its chain of wrapped errors. -/
def GoError.Is : GoError → GoError → Bool
  | .base text nf, target => decide (GoError.base text nf = target)
  | .wrap text inner, target =>
    decide (GoError.wrap text inner = target) || GoError.Is inner target

/-- The predicate `apierrors.IsNotFound`: the error, or one it wraps, is a
NotFound status error. -/
def IsNotFound : GoError → Bool
  | .base _ notFound => notFound
  | .wrap _ inner => IsNotFound inner

/-- A point in time (`metav1.Time`), counted from the zero instant. -/
abbrev Time := Nat

/-- The method `(*metav1.Time).IsZero`: a nil pointer and the zero instant are
both zero. -/
def IsZero : Option Time → Bool
  | none => true
  | some t => t == 0

/-- The substring test of `strings.Contains`, on the characters of the two
strings. -/
def Contains (s substr : String) : Prop := substr.data <:+: s.data

/-- The substring test is decidable. -/
instance Contains.decidable (s substr : String) : Decidable (Contains s substr) := by
  unfold Contains
  infer_instance

/-! ## The API types the engine reads and writes -/

/-- The type `metav1.Condition`; `Status` is a `metav1.ConditionStatus`, a
string type. -/
structure Condition where
  Type_ : String
  Status : String
  ObservedGeneration : Int := 0
  LastTransitionTime : Time := 0
  Reason : String := ""
  Message : String := ""
deriving DecidableEq, Repr

/-- The constant `metav1.ConditionTrue`. -/
def ConditionTrue : String := "True"

/-- The constant `metav1.ConditionFalse`. -/
def ConditionFalse : String := "False"

/-- The type `hlaiv1alpha1.DeviceConfigSpec`. -/
structure DeviceConfigSpec where
  DriverImage : String := ""
  DriverVersion : String := ""
  NodeSelector : Option (List (String × String)) := none
deriving DecidableEq, Repr

/-- The type `hlaiv1alpha1.DeviceConfigStatus`. -/
structure DeviceConfigStatus where
  Conditions : List Condition := []
deriving DecidableEq, Repr

/-- The type `hlaiv1alpha1.DeviceConfig`, with the fields of its `ObjectMeta`
that the engine reads. -/
structure DeviceConfig where
  Name : String := ""
  Namespace : String := ""
  UID : String := ""
  DeletionTimestamp : Option Time := none
  Finalizers : List String := []
  Spec : DeviceConfigSpec := {}
  Status : DeviceConfigStatus := {}
deriving DecidableEq, Repr

/-- The type `v1.Node`, with its name and labels. -/
structure Node where
  Name : String
  Labels : List (String × String) := []
deriving DecidableEq, Repr

/-- The type `types.NamespacedName`. -/
structure NamespacedName where
  Namespace : String := ""
  Name : String := ""
deriving DecidableEq, Repr

/-! ## internal/conditions/conditions.go -/

namespace conditions

/-- The constant `Ready`. -/
def Ready : String := "Ready"

/-- The constant `Errored`. -/
def Errored : String := "Errored"

/-- The constant `ReasonModuleFailed`. -/
def ReasonModuleFailed : String := "ModuleFailed"

/-- The constant `ReasonNodeLabelerFailed`. -/
def ReasonNodeLabelerFailed : String := "NodeLabelerFailed"

/-- The constant `ReasonNodeMetricsFailed`. -/
def ReasonNodeMetricsFailed : String := "NodeMetricsFailed"

/-- The constant `ReasonConflictingNodeSelector`. -/
def ReasonConflictingNodeSelector : String := "ConflictingNodeSelector"

end conditions

/-- Modelled from the spec: `meta.FindStatusCondition` of k8s.io/apimachinery,
a library whose source is not part of the repository. "Conditions are keyed by
type": the condition of a type is the first entry of the list with that type. -/
def FindStatusCondition (conds : List Condition) (conditionType : String) : Option Condition :=
  conds.find? (fun c => c.Type_ == conditionType)

/-- Modelled from the spec: `meta.IsStatusConditionTrue` of k8s.io/apimachinery:
the condition of that type is present and its status is `True`. -/
def IsStatusConditionTrue (conds : List Condition) (conditionType : String) : Bool :=
  match FindStatusCondition conds conditionType with
  | some c => c.Status == ConditionTrue
  | none => false

/-- Modelled from the spec: `meta.IsStatusConditionFalse` of k8s.io/apimachinery:
the condition of that type is present and its status is `False`. -/
def IsStatusConditionFalse (conds : List Condition) (conditionType : String) : Bool :=
  match FindStatusCondition conds conditionType with
  | some c => c.Status == ConditionFalse
  | none => false

/-- The update that `meta.SetStatusCondition` applies to the entry it found:
the status (with the transition time, when the status changes), the reason,
the message and the observed generation are taken from the new condition. -/
def mergeCondition (now : Time) (existing newCondition : Condition) : Condition :=
  { Type_ := existing.Type_
    Status := newCondition.Status
    LastTransitionTime :=
      if existing.Status != newCondition.Status then
        (if newCondition.LastTransitionTime != 0 then newCondition.LastTransitionTime else now)
      else existing.LastTransitionTime
    Reason := newCondition.Reason
    Message := newCondition.Message
    ObservedGeneration := newCondition.ObservedGeneration }

/-- Modelled from the spec: `meta.SetStatusCondition` of k8s.io/apimachinery, a
library whose source is not part of the repository. "Setting a condition
updates-in-place if the type already exists, otherwise appends": the first
entry with the type of the new condition is updated where it stands; when
there is none the new condition is appended, stamped with the current time
`now` unless it carries a transition time. -/
def SetStatusCondition (now : Time) : List Condition → Condition → List Condition
  | [], newCondition =>
    [{ newCondition with
        LastTransitionTime :=
          if newCondition.LastTransitionTime == 0 then now else newCondition.LastTransitionTime }]
  | c :: rest, newCondition =>
    if c.Type_ == newCondition.Type_ then
      mergeCondition now c newCondition :: rest
    else
      c :: SetStatusCondition now rest newCondition

namespace conditions

/-- The interface `conditions.Updater`. -/
structure Updater (σ : Type) where
  SetConditionsReady :
    DeviceConfig → (reason message : String) → σ → Option GoError × DeviceConfig × σ
  SetConditionsErrored :
    DeviceConfig → (reason message : String) → σ → Option GoError × DeviceConfig × σ

/-- The struct `updater`: its `client`, of which only `Status().Update` is
called, and the wall clock `time.Now` that `meta.SetStatusCondition` reads. -/
structure updater (σ : Type) where
  StatusUpdate : DeviceConfig → σ → Option GoError × σ
  Now : σ → Time × σ

/-- The two `meta.SetStatusCondition` calls of `SetConditionsReady` on a
condition list. -/
def readyConditions (t1 t2 : Time) (conds : List Condition) (reason message : String) :
    List Condition :=
  SetStatusCondition t2
    (SetStatusCondition t1 conds
      { Type_ := Ready, Status := ConditionTrue, Reason := reason, Message := message })
    { Type_ := Errored, Status := ConditionFalse, Reason := Ready }

/-- The two `meta.SetStatusCondition` calls of `SetConditionsErrored` on a
condition list. -/
def erroredConditions (t1 t2 : Time) (conds : List Condition) (reason message : String) :
    List Condition :=
  SetStatusCondition t2
    (SetStatusCondition t1 conds
      { Type_ := Ready, Status := ConditionFalse, Reason := Errored })
    { Type_ := Errored, Status := ConditionTrue, Reason := reason, Message := message }

/-- The method `(*updater).SetConditionsReady`. -/
def updater.SetConditionsReady {σ : Type} (u : updater σ) (cr : DeviceConfig)
    (reason message : String) (w : σ) : Option GoError × DeviceConfig × σ :=
  let (t1, w1) := u.Now w
  let (t2, w2) := u.Now w1
  let cr1 : DeviceConfig :=
    { cr with Status := { Conditions := readyConditions t1 t2 cr.Status.Conditions reason message } }
  let (err, w3) := u.StatusUpdate cr1 w2
  (err, cr1, w3)

/-- The method `(*updater).SetConditionsErrored`. -/
def updater.SetConditionsErrored {σ : Type} (u : updater σ) (cr : DeviceConfig)
    (reason message : String) (w : σ) : Option GoError × DeviceConfig × σ :=
  let (t1, w1) := u.Now w
  let (t2, w2) := u.Now w1
  let cr1 : DeviceConfig :=
    { cr with Status := { Conditions := erroredConditions t1 t2 cr.Status.Conditions reason message } }
  let (err, w3) := u.StatusUpdate cr1 w2
  (err, cr1, w3)

/-- The function `NewUpdater`: the struct seen through the interface. -/
def NewUpdater {σ : Type} (u : updater σ) : Updater σ :=
  { SetConditionsReady := u.SetConditionsReady
    SetConditionsErrored := u.SetConditionsErrored }

/-- One call of the condition state machine, with its two string arguments. -/
inductive Op where
  | SetReady (reason message : String)
  | SetErrored (reason message : String)
deriving DecidableEq, Repr

/-- Runs one call of the updater. -/
def runOp {σ : Type} (u : updater σ) (cr : DeviceConfig) (w : σ) : Op → DeviceConfig × σ
  | .SetReady reason message =>
    let r := u.SetConditionsReady cr reason message w
    (r.2.1, r.2.2)
  | .SetErrored reason message =>
    let r := u.SetConditionsErrored cr reason message w
    (r.2.1, r.2.2)

/-- Runs a sequence of calls of the updater on the same object, first to
last, whatever the status update of each call returns. -/
def runOps {σ : Type} (u : updater σ) : DeviceConfig → σ → List Op → DeviceConfig × σ
  | cr, w, [] => (cr, w)
  | cr, w, op :: ops =>
    let r := runOp u cr w op
    runOps u r.1 r.2 ops

end conditions

/-! ## controllers/nodeselector.go -/

/-- The name of the default device-presence label, as the tests of the node
daemons spell it. -/
def DefaultNodeSelectorKey : String := "feature.node.kubernetes.io/pci-1da3.present"

/-- Modelled from the spec: the method `(*DeviceConfig).GetNodeSelector` of
api/v1alpha1, which is not among the sources. "If the selector is empty, a
default selector (a feature-discovery label indicating device presence) is
substituted": the explicit selector when it has an entry, otherwise the
default one. -/
def DeviceConfig.GetNodeSelector (cr : DeviceConfig) : List (String × String) :=
  match cr.Spec.NodeSelector with
  | some (kv :: rest) => kv :: rest
  | _ => [(DefaultNodeSelectorKey, "true")]

/-- A label selector (`labels.Selector`) made of equality requirements; the
empty list is the selector that matches everything. -/
abbrev Selector := List (String × String)

/-- The conversion `labels.Set(m).AsSelector()`: one equality requirement per
entry of the map; a nil or empty map gives the selector of everything. -/
def AsSelector : Option (List (String × String)) → Selector
  | none => []
  | some m => m

namespace controllers

/-- The two `List` calls that the validator makes on its `client.Client`: the
list of all DeviceConfig instances, and the list of the nodes that match a
label selector. -/
structure ListClient (σ : Type) where
  ListDeviceConfigs : σ → Except GoError (List DeviceConfig) × σ
  ListNodes : Selector → σ → Except GoError (List Node) × σ

/-- The interface `NodeSelectorValidator`. -/
structure NodeSelectorValidator (σ : Type) where
  CheckDeviceConfigForConflictingNodeSelector :
    DeviceConfig → σ → Option GoError × DeviceConfig × σ

/-- The struct `nodeSelectorValidator`. -/
structure nodeSelectorValidator (σ : Type) where
  client : ListClient σ

/-- The loop of `containsDuplicates`; `visited` holds the keys of the map. -/
def containsDuplicatesFrom (visited : List String) : List String → Bool
  | [] => false
  | e :: arr => if visited.contains e then true else containsDuplicatesFrom (e :: visited) arr

/-- The function `containsDuplicates`. -/
def containsDuplicates (arr : List String) : Bool :=
  containsDuplicatesFrom [] arr

/-- The method `getDeviceConfigSelectedNodes`; it fills a nil selector of the
object it is given with the default one. -/
def nodeSelectorValidator.getDeviceConfigSelectedNodes {σ : Type} (nsv : nodeSelectorValidator σ)
    (cr : DeviceConfig) (w : σ) : Except GoError (List Node) × DeviceConfig × σ :=
  let cr1 : DeviceConfig :=
    if cr.Spec.NodeSelector = none then
      { cr with Spec := { cr.Spec with NodeSelector := some cr.GetNodeSelector } }
    else cr
  let selector := AsSelector cr1.Spec.NodeSelector
  let (res, w1) := nsv.client.ListNodes selector w
  (res, cr1, w1)

/-- The loop of `CheckDeviceConfigForConflictingNodeSelector` over
`dcs.Items`: each iteration works on a copy `dc` of the item and appends the
names of the nodes listed for it; the first list error ends the loop. -/
def nodeSelectorValidator.collectNames {σ : Type} (nsv : nodeSelectorValidator σ) :
    List DeviceConfig → List String → σ → Except GoError (List String) × σ
  | [], names, w => (.ok names, w)
  | dc :: items, names, w =>
    match nsv.getDeviceConfigSelectedNodes dc w with
    | (.error err, _, w1) => (.error err, w1)
    | (.ok nodeList, _, w1) =>
      nodeSelectorValidator.collectNames nsv items (names ++ nodeList.map (fun n => n.Name)) w1

/-- The method `CheckDeviceConfigForConflictingNodeSelector`. -/
def nodeSelectorValidator.CheckDeviceConfigForConflictingNodeSelector {σ : Type}
    (nsv : nodeSelectorValidator σ) (cr : DeviceConfig) (w : σ) :
    Option GoError × DeviceConfig × σ :=
  match nsv.client.ListDeviceConfigs w with
  | (.error err, w1) => (some err, cr, w1)
  | (.ok items, w1) =>
    match nsv.collectNames items [] w1 with
    | (.error err, w2) => (some err, cr, w2)
    | (.ok names, w2) =>
      if containsDuplicates names then
        (some (.base ("conflicting DeviceConfig NodeSelectors found for resource: " ++ cr.Name)
          false), cr, w2)
      else
        (none, cr, w2)

/-- The function `NewNodeSelectorValidator`: the struct seen through the
interface. -/
def NewNodeSelectorValidator {σ : Type} (c : ListClient σ) : NodeSelectorValidator σ :=
  { CheckDeviceConfigForConflictingNodeSelector :=
      (nodeSelectorValidator.mk c).CheckDeviceConfigForConflictingNodeSelector }

/-- The node lists that the validator is answered with: `NodeListsReturned c
items w nodeLists w1` says that, starting in world `w`, the node list call for
each instance of `items` in turn, made with its effective selector (the default
one for a nil selector), succeeds, that the answers are `nodeLists`, one per
instance, and that the world is `w1` afterwards. -/
inductive NodeListsReturned {σ : Type} (c : ListClient σ) :
    List DeviceConfig → σ → List (List Node) → σ → Prop where
  | nil (w : σ) : NodeListsReturned c [] w [] w
  | cons (dc : DeviceConfig) (items : List DeviceConfig) (w w1 w2 : σ)
      (nodes : List Node) (nodeLists : List (List Node))
      (hlist : c.ListNodes
        (match dc.Spec.NodeSelector with
         | none => dc.GetNodeSelector
         | some m => m) w = (.ok nodes, w1))
      (hrest : NodeListsReturned c items w1 nodeLists w2) :
      NodeListsReturned c (dc :: items) w (nodes :: nodeLists) w2

/-- The names of the nodes of the node lists, concatenated in order. -/
def nodeNames (nodeLists : List (List Node)) : List String :=
  (nodeLists.map (fun l => l.map (fun n => n.Name))).flatten

end controllers

/-! ## The collaborators of the reconcile pass -/

namespace finalizers

/-- The interface `finalizers.Updater`; the package is not among the sources,
the controller reaches it only through these three methods. -/
structure Updater (σ : Type) where
  ContainsDeletionFinalizer : DeviceConfig → σ → Bool × DeviceConfig × σ
  AddDeletionFinalizer : DeviceConfig → σ → Option GoError × DeviceConfig × σ
  RemoveDeletionFinalizer : DeviceConfig → σ → Option GoError × DeviceConfig × σ

end finalizers

namespace module

/-- The methods of the interface `module.Reconciler` that take part in a
reconcile pass. -/
structure Reconciler (σ : Type) where
  ReconcileModule : DeviceConfig → σ → Option GoError × DeviceConfig × σ
  DeleteModule : DeviceConfig → σ → Option GoError × DeviceConfig × σ

end module

namespace nodeMetrics

/-- The methods of the node-metrics interface `Reconciler` that reconcile or
delete the node-metrics children of an owner. -/
structure Reconciler (σ : Type) where
  ReconcileNodeMetrics : DeviceConfig → σ → Option GoError × DeviceConfig × σ
  DeleteNodeMetrics : DeviceConfig → σ → Option GoError × DeviceConfig × σ
  DeleteNodeMetricsDaemonSet : DeviceConfig → σ → Option GoError × DeviceConfig × σ
  DeleteNodeMetricsService : DeviceConfig → σ → Option GoError × DeviceConfig × σ

end nodeMetrics

/-! ## controllers/deviceconfig_controller.go -/

namespace controllers

/-- The constant `v1.EventTypeNormal`. -/
def EventTypeNormal : String := "Normal"

/-- The constant `v1.EventTypeWarning`. -/
def EventTypeWarning : String := "Warning"

/-- The type `ctrl.Result`. -/
structure Result where
  Requeue : Bool := false
  RequeueAfter : Nat := 0
deriving DecidableEq, Repr

/-- The type `ctrl.Request`. -/
structure Request where
  NamespacedName : NamespacedName := {}
deriving DecidableEq, Repr

/-- What a reconcile pass does to the outside, one entry per call, each with
the arguments of the call: the calls on the client, on the five injected
collaborators and on the event recorder, and the writes of the gauge
`metrics.ReconciliationFailed`. -/
inductive Call where
  | Get (key : NamespacedName)
  | ReconciliationFailedSet (name : String) (value : Nat)
  | ContainsDeletionFinalizer (cr : DeviceConfig)
  | AddDeletionFinalizer (cr : DeviceConfig)
  | RemoveDeletionFinalizer (cr : DeviceConfig)
  | CheckDeviceConfigForConflictingNodeSelector (cr : DeviceConfig)
  | ReconcileModule (cr : DeviceConfig)
  | DeleteModule (cr : DeviceConfig)
  | ReconcileNodeMetrics (cr : DeviceConfig)
  | DeleteNodeMetrics (cr : DeviceConfig)
  | DeleteNodeMetricsDaemonSet (cr : DeviceConfig)
  | DeleteNodeMetricsService (cr : DeviceConfig)
  | SetConditionsReady (cr : DeviceConfig) (reason message : String)
  | SetConditionsErrored (cr : DeviceConfig) (reason message : String)
  | Event (object : DeviceConfig) (eventtype reason message : String)
deriving DecidableEq, Repr

/-- The struct `Reconciler`: the client (of which the pass calls `Get`), the
event recorder and the five collaborators. -/
structure Reconciler (σ : Type) where
  Get : NamespacedName → σ → Except GoError DeviceConfig × σ
  RecorderEvent : DeviceConfig → (eventtype reason message : String) → σ → σ
  mr : module.Reconciler σ
  nmr : nodeMetrics.Reconciler σ
  fu : finalizers.Updater σ
  cu : conditions.Updater σ
  nsv : NodeSelectorValidator σ

/-- What a reconcile pass returns (`result`, `err`) and leaves behind: the
calls it made in order, the object `deviceConfig` as the pass leaves it in
memory, and the world. -/
structure Outcome (σ : Type) where
  result : Result
  err : Option GoError
  calls : List Call
  cr : DeviceConfig
  world : σ

/-- The method `(*Reconciler).deleteDeviceConfigResources`, with the calls it
makes. -/
def Reconciler.deleteDeviceConfigResources {σ : Type} (r : Reconciler σ) (cr : DeviceConfig)
    (w : σ) : (Option GoError × DeviceConfig × σ) × List Call :=
  match r.mr.DeleteModule cr w with
  | (some err, cr1, w1) => ((some err, cr1, w1), [.DeleteModule cr])
  | (none, cr1, w1) => ((none, cr1, w1), [.DeleteModule cr])

/-- The method `(*Reconciler).Reconcile`. -/
def Reconciler.Reconcile {σ : Type} (r : Reconciler σ) (req : Request) (w : σ) : Outcome σ :=
  match r.Get req.NamespacedName w with
  | (.error err, w1) =>
    if IsNotFound err then
      { result := {}, err := none, cr := {}, world := w1
        calls := [.Get req.NamespacedName, .ReconciliationFailedSet req.NamespacedName.Name 0] }
    else
      { result := {}, err := some err, cr := {}, world := w1
        calls := [.Get req.NamespacedName] }
  | (.ok deviceConfig, w1) =>
    if !IsZero deviceConfig.DeletionTimestamp then
      let calls1 : List Call :=
        [.Get req.NamespacedName, .ReconciliationFailedSet deviceConfig.Name 0]
      match r.fu.ContainsDeletionFinalizer deviceConfig w1 with
      | (true, dc2, w2) =>
        let calls2 := calls1 ++ [.ContainsDeletionFinalizer deviceConfig]
        match r.deleteDeviceConfigResources dc2 w2 with
        | ((some err, dc3, w3), deleted) =>
          { result := {}, cr := dc3, world := w3, calls := calls2 ++ deleted
            err := some (.wrap ("failed to delete DeviceConfig resources: " ++ err.Error) err) }
        | ((none, dc3, w3), deleted) =>
          match r.fu.RemoveDeletionFinalizer dc3 w3 with
          | (some err, dc4, w4) =>
            { result := {}, err := some err, cr := dc4, world := w4
              calls := calls2 ++ deleted ++ [.RemoveDeletionFinalizer dc3] }
          | (none, dc4, w4) =>
            { result := {}, err := none, cr := dc4, world := w4
              calls := calls2 ++ deleted ++ [.RemoveDeletionFinalizer dc3] }
      | (false, dc2, w2) =>
        { result := {}, err := none, cr := dc2, world := w2
          calls := calls1 ++ [.ContainsDeletionFinalizer deviceConfig] }
    else
      let calls1 : List Call :=
        [.Get req.NamespacedName, .CheckDeviceConfigForConflictingNodeSelector deviceConfig]
      match r.nsv.CheckDeviceConfigForConflictingNodeSelector deviceConfig w1 with
      | (some _, dc2, w2) =>
        let message :=
          "Conflicting DeviceConfig NodeSelectors found. Please add or update this DeviceConfig's NodeSelector accordingly."
        { result := {}, err := none, cr := dc2
          world := r.RecorderEvent dc2 EventTypeWarning "Error" message w2
          calls := calls1 ++ [.Event dc2 EventTypeWarning "Error" message,
            .ReconciliationFailedSet dc2.Name 1] }
      | (none, dc2, w2) =>
        -- the finalizer is ensured
        let ensured : Option GoError × DeviceConfig × σ × List Call :=
          match r.fu.ContainsDeletionFinalizer dc2 w2 with
          | (true, dc3, w3) => (none, dc3, w3, calls1 ++ [.ContainsDeletionFinalizer dc2])
          | (false, dc3, w3) =>
            match r.fu.AddDeletionFinalizer dc3 w3 with
            | (e, dc4, w4) =>
              (e, dc4, w4, calls1 ++ [.ContainsDeletionFinalizer dc2, .AddDeletionFinalizer dc3])
        match ensured with
        | (some err, dc4, w4, calls2) =>
          { result := {}, err := some err, cr := dc4, world := w4, calls := calls2 }
        | (none, dc4, w4, calls2) =>
          match r.mr.ReconcileModule dc4 w4 with
          | (some err, dc5, w5) =>
            match r.cu.SetConditionsErrored dc5 conditions.ReasonModuleFailed err.Error w5 with
            | (cerr, dc6, w6) =>
              { result := {}, cr := dc6, world := w6
                err := match cerr with
                  | some cerr => some (.wrap (err.Error ++ ": " ++ cerr.Error) cerr)
                  | none => some err
                calls := calls2 ++ [.ReconcileModule dc4,
                  .SetConditionsErrored dc5 conditions.ReasonModuleFailed err.Error,
                  .ReconciliationFailedSet dc6.Name 1] }
          | (none, dc5, w5) =>
            match r.nmr.ReconcileNodeMetrics dc5 w5 with
            | (some err, dc6, w6) =>
              match r.cu.SetConditionsErrored dc6 conditions.ReasonNodeMetricsFailed err.Error w6 with
              | (cerr, dc7, w7) =>
                { result := {}, cr := dc7, world := w7
                  err := match cerr with
                    | some cerr => some (.wrap (err.Error ++ ": " ++ cerr.Error) cerr)
                    | none => some err
                  calls := calls2 ++ [.ReconcileModule dc4, .ReconcileNodeMetrics dc5,
                    .SetConditionsErrored dc6 conditions.ReasonNodeMetricsFailed err.Error,
                    .ReconciliationFailedSet dc7.Name 1] }
            | (none, dc6, w6) =>
              let message :=
                "Succesfully reconciled DeviceConfig " ++ dc6.Namespace ++ "/" ++ dc6.Name
              let w7 := r.RecorderEvent dc6 EventTypeNormal "Reconciled" message w6
              match r.cu.SetConditionsReady dc6 "Reconciled"
                  "All resources have been successfully reconciled" w7 with
              | (err, dc8, w8) =>
                { result := {}, err := err, cr := dc8, world := w8
                  calls := calls2 ++ [.ReconcileModule dc4, .ReconcileNodeMetrics dc5,
                    .ReconciliationFailedSet dc6.Name 0,
                    .Event dc6 EventTypeNormal "Reconciled" message,
                    .SetConditionsReady dc6 "Reconciled"
                      "All resources have been successfully reconciled"] }

/-- Tells whether a call is a call on one of the five injected collaborators
(validator, finalizer updater, module reconciler, node-metrics reconciler,
conditions updater), as opposed to the client, the event recorder and the
gauge. -/
def Call.onCollaborator : Call → Bool
  | .Get _ => false
  | .ReconciliationFailedSet _ _ => false
  | .Event _ _ _ _ => false
  | _ => true

/-- The name of the method of a call, without its arguments. -/
def Call.method : Call → String
  | .Get _ => "Get"
  | .ReconciliationFailedSet _ _ => "ReconciliationFailed.Set"
  | .ContainsDeletionFinalizer _ => "ContainsDeletionFinalizer"
  | .AddDeletionFinalizer _ => "AddDeletionFinalizer"
  | .RemoveDeletionFinalizer _ => "RemoveDeletionFinalizer"
  | .CheckDeviceConfigForConflictingNodeSelector _ => "CheckDeviceConfigForConflictingNodeSelector"
  | .ReconcileModule _ => "ReconcileModule"
  | .DeleteModule _ => "DeleteModule"
  | .ReconcileNodeMetrics _ => "ReconcileNodeMetrics"
  | .DeleteNodeMetrics _ => "DeleteNodeMetrics"
  | .DeleteNodeMetricsDaemonSet _ => "DeleteNodeMetricsDaemonSet"
  | .DeleteNodeMetricsService _ => "DeleteNodeMetricsService"
  | .SetConditionsReady _ _ _ => "SetConditionsReady"
  | .SetConditionsErrored _ _ _ => "SetConditionsErrored"
  | .Event _ _ _ _ => "Event"

end controllers

/-! ## internal/settings/settings.go -/

namespace settings

/-- The constant `DevicePluginImageEnvVar`. -/
def DevicePluginImageEnvVar : String := "DEVICE_PLUGIN_IMAGE"

/-- The constant `DriverHabanaImageBasenameEnvVar`. -/
def DriverHabanaImageBasenameEnvVar : String := "DRIVER_HABANA_IMAGE_BASENAME"

/-- The constant `NodeMetricsImageEnvVar`. -/
def NodeMetricsImageEnvVar : String := "NODE_METRICS_IMAGE"

/-- The variable `errEnvVarNotSet`. -/
def errEnvVarNotSet : GoError := errorsNew "environment variable is not set"

/-- The struct `ControllerSettings`. -/
structure ControllerSettings where
  DevicePluginImage : String := ""
  DriverHabanaImageBasename : String := ""
  NodeMetricsImage : String := ""
deriving DecidableEq, Repr

/-- The environment of the process: the variables that are set, with their
values. -/
abbrev Environment := List (String × String)

/-- The function `os.LookupEnv`: the value of the variable and whether it is
set; the value is empty when it is not. -/
def LookupEnv (env : Environment) (key : String) : String × Bool :=
  match env.lookup key with
  | some value => (value, true)
  | none => ("", false)

/-- The text that the verb `%v` prints for a slice of errors: the texts of the
errors, separated by one space, between square brackets. -/
def formatErrors (errs : List GoError) : String :=
  "[" ++ " ".intercalate (errs.map GoError.Error) ++ "]"

/-- The method `(*ControllerSettings).Load`: the error it returns and the
settings it leaves in the receiver. -/
def ControllerSettings.Load (r : ControllerSettings) (env : Environment) :
    Option GoError × ControllerSettings :=
  let errs : List GoError := []
  let (v1, found1) := LookupEnv env DevicePluginImageEnvVar
  let r := { r with DevicePluginImage := v1 }
  let errs :=
    if !found1 then
      errs ++ [.wrap (DevicePluginImageEnvVar ++ ": " ++ errEnvVarNotSet.Error) errEnvVarNotSet]
    else errs
  let (v2, found2) := LookupEnv env DriverHabanaImageBasenameEnvVar
  let r := { r with DriverHabanaImageBasename := v2 }
  let errs :=
    if !found2 then
      errs ++ [.wrap (DriverHabanaImageBasenameEnvVar ++ ": " ++ errEnvVarNotSet.Error)
        errEnvVarNotSet]
    else errs
  let (v3, found3) := LookupEnv env NodeMetricsImageEnvVar
  let r := { r with NodeMetricsImage := v3 }
  let errs :=
    if !found3 then
      errs ++ [.wrap (NodeMetricsImageEnvVar ++ ": " ++ errEnvVarNotSet.Error) errEnvVarNotSet]
    else errs
  if errs.length > 0 then
    (some (.base ("the following errors were detected: " ++ formatErrors errs) false), r)
  else
    (none, r)

end settings

/-! ## The API types of the child resources -/

/-- The type `metav1.OwnerReference`; its `APIVersion` is held as the group
and the version that it parses to. -/
structure OwnerReference where
  Group : String := ""
  Version : String := ""
  Kind : String := ""
  Name : String := ""
  UID : String := ""
  Controller : Option Bool := none
  BlockOwnerDeletion : Option Bool := none
deriving DecidableEq, Repr

/-- The type `metav1.ObjectMeta`, with the fields that the engine or the
server sets. -/
structure ObjectMeta where
  Name : String := ""
  Namespace : String := ""
  UID : String := ""
  ResourceVersion : String := ""
  Labels : Option (List (String × String)) := none
  Annotations : Option (List (String × String)) := none
  OwnerReferences : List OwnerReference := []
deriving DecidableEq, Repr

/-- The type `corev1.EnvVar`. -/
structure EnvVar where
  Name : String
  Value : String := ""
deriving DecidableEq, Repr

/-- The type `corev1.SELinuxOptions`. -/
structure SELinuxOptions where
  Level : String := ""
deriving DecidableEq, Repr

/-- The type `corev1.SecurityContext`. -/
structure SecurityContext where
  Privileged : Option Bool := none
  RunAsUser : Option Int := none
  SELinuxOptions : Option SELinuxOptions := none
deriving DecidableEq, Repr

/-- The type `corev1.ExecAction`. -/
structure ExecAction where
  Command : List String := []
deriving DecidableEq, Repr

/-- The type `corev1.LifecycleHandler`. -/
structure LifecycleHandler where
  Exec : Option ExecAction := none
deriving DecidableEq, Repr

/-- The type `corev1.Lifecycle`. -/
structure Lifecycle where
  PostStart : Option LifecycleHandler := none
  PreStop : Option LifecycleHandler := none
deriving DecidableEq, Repr

/-- The type `corev1.Probe`, with the `Exec` action of its `ProbeHandler`. -/
structure Probe where
  Exec : Option ExecAction := none
deriving DecidableEq, Repr

set_option linter.dupNamespace false in
/-- The type `corev1.ContainerPort`. -/
structure ContainerPort where
  Name : String := ""
  HostPort : Int := 0
  ContainerPort : Int := 0
  Protocol : String := ""
deriving DecidableEq, Repr

/-- The type `corev1.ResourceRequirements`; a quantity is held as the text
that `resource.MustParse` is given. -/
structure ResourceRequirements where
  Limits : Option (List (String × String)) := none
  Requests : Option (List (String × String)) := none
deriving DecidableEq, Repr

/-- The type `corev1.VolumeMount`. -/
structure VolumeMount where
  Name : String := ""
  ReadOnly : Bool := false
  MountPath : String := ""
  MountPropagation : Option String := none
deriving DecidableEq, Repr

/-- The type `corev1.Container`. -/
structure Container where
  Name : String := ""
  Image : String := ""
  Ports : List ContainerPort := []
  Env : List EnvVar := []
  Resources : ResourceRequirements := {}
  VolumeMounts : List VolumeMount := []
  LivenessProbe : Option Probe := none
  ReadinessProbe : Option Probe := none
  Lifecycle : Option Lifecycle := none
  TerminationMessagePath : String := ""
  ImagePullPolicy : String := ""
  SecurityContext : Option SecurityContext := none
deriving DecidableEq, Repr

/-- The type `corev1.HostPathVolumeSource`. -/
structure HostPathVolumeSource where
  Path : String := ""
  Type_ : Option String := none
deriving DecidableEq, Repr

/-- The type `corev1.Volume`, with the host-path member of its source. -/
structure Volume where
  Name : String := ""
  HostPath : Option HostPathVolumeSource := none
deriving DecidableEq, Repr

/-- The type `corev1.PodSpec`. -/
structure PodSpec where
  Volumes : List Volume := []
  Containers : List Container := []
  RestartPolicy : String := ""
  DNSPolicy : String := ""
  NodeSelector : Option (List (String × String)) := none
  ServiceAccountName : String := ""
  HostPID : Bool := false
  PriorityClassName : String := ""
deriving DecidableEq, Repr

/-- The type `corev1.PodTemplateSpec`. -/
structure PodTemplateSpec where
  ObjectMeta : ObjectMeta := {}
  Spec : PodSpec := {}
deriving DecidableEq, Repr

/-- The type `metav1.LabelSelector`. -/
structure LabelSelector where
  MatchLabels : Option (List (String × String)) := none
deriving DecidableEq, Repr

/-- The type `appsv1.DaemonSetSpec`. -/
structure DaemonSetSpec where
  Selector : Option LabelSelector := none
  Template : PodTemplateSpec := {}
  MinReadySeconds : Int := 0
  RevisionHistoryLimit : Option Int := none
deriving DecidableEq, Repr

/-- The type `appsv1.DaemonSet`; its status, which the engine never sets, is
left out. -/
structure DaemonSet where
  ObjectMeta : ObjectMeta := {}
  Spec : DaemonSetSpec := {}
deriving DecidableEq, Repr

/-- The type `intstr.IntOrString`. -/
inductive IntOrString where
  | Int (IntVal : Int)
  | String (StrVal : String)
deriving DecidableEq, Repr

/-- The type `corev1.ServicePort`. -/
structure ServicePort where
  Name : String := ""
  Protocol : String := ""
  Port : Int := 0
  TargetPort : IntOrString := .Int 0
  NodePort : Int := 0
deriving DecidableEq, Repr

/-- The type `corev1.ServiceSpec`. -/
structure ServiceSpec where
  Ports : List ServicePort := []
  Selector : Option (List (String × String)) := none
  ClusterIP : String := ""
  Type_ : String := ""
deriving DecidableEq, Repr

/-- The type `corev1.Service`; its status, which the engine never sets, is
left out. -/
structure Service where
  ObjectMeta : ObjectMeta := {}
  Spec : ServiceSpec := {}
deriving DecidableEq, Repr

/-- The type `KernelMapping` of the kernel-module-management API. -/
structure KernelMapping where
  ContainerImage : String := ""
  Literal : String := ""
  Regexp : String := ""
deriving DecidableEq, Repr

/-- The type `ModuleSpec` of the kernel-module-management API. -/
structure ModuleSpec where
  AdditionalVolumes : List Volume := []
  DevicePlugin : Option Container := none
  DriverContainer : Container := {}
  ImagePullSecret : Option String := none
  KernelMappings : List KernelMapping := []
  Selector : Option (List (String × String)) := none
  ServiceAccountName : String := ""
deriving DecidableEq, Repr

/-- The type `Module` of the kernel-module-management API; its status, which
the engine never sets, is left out. -/
structure Module where
  ObjectMeta : ObjectMeta := {}
  Spec : ModuleSpec := {}
deriving DecidableEq, Repr

/-- The constant `corev1.PullAlways`. -/
def PullAlways : String := "Always"

/-- The constant `corev1.ProtocolTCP`. -/
def ProtocolTCP : String := "TCP"

/-- The constant `corev1.HostPathDirectory`. -/
def HostPathDirectory : String := "Directory"

/-- The constant `corev1.HostPathDirectoryOrCreate`. -/
def HostPathDirectoryOrCreate : String := "DirectoryOrCreate"

/-- The constant `corev1.MountPropagationBidirectional`. -/
def MountPropagationBidirectional : String := "Bidirectional"

/-- An object of the cluster API as the engine handles it: the name of its
kind and access to its metadata (`client.Object`). -/
class KubeObject (α : Type) where
  Kind : String
  GetObjectMeta : α → ObjectMeta
  SetObjectMeta : α → ObjectMeta → α

instance : KubeObject Module :=
  { Kind := "Module", GetObjectMeta := fun m => m.ObjectMeta
    SetObjectMeta := fun m meta => { m with ObjectMeta := meta } }

instance : KubeObject DaemonSet :=
  { Kind := "DaemonSet", GetObjectMeta := fun d => d.ObjectMeta
    SetObjectMeta := fun d meta => { d with ObjectMeta := meta } }

instance : KubeObject Service :=
  { Kind := "Service", GetObjectMeta := fun s => s.ObjectMeta
    SetObjectMeta := fun s meta => { s with ObjectMeta := meta } }

/-- The function `client.ObjectKeyFromObject`. -/
def ObjectKeyFromObject {α : Type} [KubeObject α] (obj : α) : NamespacedName :=
  { Namespace := (KubeObject.GetObjectMeta obj).Namespace
    Name := (KubeObject.GetObjectMeta obj).Name }

/-! ## Owner references (controller-runtime) -/

/-- The type `schema.GroupVersionKind`. -/
structure GroupVersionKind where
  Group : String := ""
  Version : String := ""
  Kind : String := ""
deriving DecidableEq, Repr

/-- What the engine asks of a `runtime.Scheme`: the group, version and kind
registered for the type DeviceConfig, if any. -/
structure Scheme where
  DeviceConfig : Option GroupVersionKind := none
deriving DecidableEq, Repr

/-- The function `apiutil.GVKForObject` for an owner of type DeviceConfig. -/
def GVKForObject (scheme : Scheme) : Except GoError GroupVersionKind :=
  match scheme.DeviceConfig with
  | some gvk => .ok gvk
  | none => .error (.base "no kind is registered for the type v1alpha1.DeviceConfig" false)

/-- The function `validateOwner` of controllerutil: a namespaced owner cannot
own a cluster-scoped object or an object of another namespace. -/
def validateOwner (owner : DeviceConfig) (object : ObjectMeta) : Option GoError :=
  if owner.Namespace != "" then
    if object.Namespace == "" then
      some (.base ("cluster-scoped resource must not have a namespace-scoped owner, owner's namespace "
        ++ owner.Namespace) false)
    else if owner.Namespace != object.Namespace then
      some (.base ("cross-namespace owner references are disallowed, owner's namespace "
        ++ owner.Namespace ++ ", obj's namespace " ++ object.Namespace) false)
    else none
  else none

/-- The function `referSameObject` of controllerutil: same group, kind and
name. -/
def referSameObject (a b : OwnerReference) : Bool :=
  a.Group == b.Group && a.Kind == b.Kind && a.Name == b.Name

/-- The function `metav1.GetControllerOf`: the first owner reference that is
marked as controller. -/
def GetControllerOf (object : ObjectMeta) : Option OwnerReference :=
  object.OwnerReferences.find? (fun ref => ref.Controller == some true)

/-- The function `validateControllerRef` of controllerutil: an object that has
a controller can only get a reference to that same controller. -/
def validateControllerRef (ref : OwnerReference) (object : ObjectMeta) : Option GoError :=
  match GetControllerOf object with
  | some existing =>
    if !referSameObject existing ref then
      some (.base ("Object " ++ object.Namespace ++ "/" ++ object.Name ++
        " is already owned by another " ++ existing.Kind ++ " controller " ++ existing.Name) false)
    else none
  | none => none

/-- The loop of `upsertOwnerRef`: the first reference to the same object is
replaced where it stands, and the reference is appended when there is none. -/
def upsertOwnerRef (ref : OwnerReference) : List OwnerReference → List OwnerReference
  | [] => [ref]
  | r :: owners =>
    if referSameObject r ref then ref :: owners else r :: upsertOwnerRef ref owners

/-- Modelled from the spec: `controllerutil.SetControllerReference` of
controller-runtime, a library whose source is not part of the repository.
"Always sets the owner reference for cascade-delete": after the owner and the
object pass the checks of the library, the metadata of the object holds one
controller reference to the owner, replacing an earlier reference to it. -/
def SetControllerReference (owner : DeviceConfig) (controlled : ObjectMeta) (scheme : Scheme) :
    Except GoError ObjectMeta :=
  match validateOwner owner controlled with
  | some err => .error err
  | none =>
    match GVKForObject scheme with
    | .error err => .error err
    | .ok gvk =>
      let ref : OwnerReference :=
        { Group := gvk.Group, Version := gvk.Version, Kind := gvk.Kind
          Name := owner.Name, UID := owner.UID
          BlockOwnerDeletion := some true, Controller := some true }
      match validateControllerRef ref controlled with
      | some err => .error err
      | none =>
        .ok { controlled with OwnerReferences := upsertOwnerRef ref controlled.OwnerReferences }

/-- The process-wide values that the child reconcilers read: the variable
`settings.Settings`; the constant `constants.HabanaAIOperatorName`, whose
package is not among the sources; and the two names that labeler.go reads and
no source declares, the field `NodeLabelerImage` of the settings and the
constant `nodeLabelerPort`. -/
structure Globals where
  Settings : settings.ControllerSettings := {}
  HabanaAIOperatorName : String := ""
  NodeLabelerImage : String := ""
  nodeLabelerPort : Int := 0
deriving DecidableEq, Repr

/-- Modelled from the spec: the call `cr.GetNodeSelector("gaudi")` of
metrics.go, whose method is not among the sources. The spec knows one
effective node selector per owner, "the effective node selector merged with
any default device-presence label": the explicit selector when it has an
entry, otherwise the default one, whatever the device type asked for. -/
def DeviceConfig.GetNodeSelectorFor (cr : DeviceConfig) (_hpuType : String) :
    List (String × String) :=
  cr.GetNodeSelector

/-! ## The cluster client and create-or-patch (controller-runtime) -/

/-- The calls of `client.Client` on the objects of one kind: `Get` fills the
object it is given, `Create` and `Patch` return the object as the server
answers, `Patch` is given the object and the base of the merge patch. -/
structure ObjectClient (σ α : Type) where
  Get : NamespacedName → σ → Except GoError α × σ
  Create : α → σ → Option GoError × α × σ
  Patch : α → α → σ → Option GoError × α × σ
  Delete : α → σ → Option GoError × σ

/-- The `client.Client` of the child reconcilers, by the kind of object. -/
structure KubeClient (σ : Type) where
  Modules : ObjectClient σ Module
  DaemonSets : ObjectClient σ DaemonSet
  Services : ObjectClient σ Service

/-- One call on the cluster client, with the kind and the key of the object. -/
inductive ClientCall where
  | Get (kind : String) (key : NamespacedName)
  | Create (kind : String) (key : NamespacedName)
  | Patch (kind : String) (key : NamespacedName)
  | Delete (kind : String) (key : NamespacedName)
deriving DecidableEq, Repr

/-- The type `controllerutil.OperationResult`. -/
inductive OperationResult where
  | None
  | Created
  | Updated
deriving DecidableEq, Repr

/-- What `CreateOrPatch` returns and leaves behind: the result, the error, the
object as the pointer leaves it, the world, and the client calls it made. -/
structure Applied (σ α : Type) where
  result : OperationResult
  err : Option GoError
  obj : α
  world : σ
  calls : List ClientCall

/-- The function `mutate` of controllerutil: runs the mutate function and
refuses a change of the name or the namespace of the object. -/
def mutate {α : Type} [KubeObject α] (f : α → Option GoError × α) (key : NamespacedName)
    (obj : α) : Option GoError × α :=
  match f obj with
  | (some err, obj1) => (some err, obj1)
  | (none, obj1) =>
    if ObjectKeyFromObject obj1 != key then
      (some (.base "MutateFn cannot mutate object name and/or object namespace" false), obj1)
    else (none, obj1)

/-- Modelled from the spec: `controllerutil.CreateOrPatch` of
controller-runtime, a library whose source is not part of the repository.
"Read-existing (tolerating not-found), apply desired-state mutation, diff
against stored, create-if-absent or patch-if-changed": the object is fetched by
its key; when it is absent the mutated object is created; when it is present
the stored object is mutated and a patch is issued only if the mutation
changed it; any other fetch error, a mutation error and a create or patch
error are returned. The separate patch of the status, which is issued only
when the mutation changes the status, has no counterpart here since no
mutation of the engine touches a status. -/
def CreateOrPatch {σ α : Type} [KubeObject α] [DecidableEq α] (c : ObjectClient σ α) (obj : α)
    (f : α → Option GoError × α) (w : σ) : Applied σ α :=
  let key := ObjectKeyFromObject obj
  let kind := KubeObject.Kind α
  match c.Get key w with
  | (.error err, w1) =>
    if !IsNotFound err then
      { result := .None, err := some err, obj := obj, world := w1, calls := [.Get kind key] }
    else
      match mutate f key obj with
      | (some ferr, obj1) =>
        { result := .None, err := some ferr, obj := obj1, world := w1, calls := [.Get kind key] }
      | (none, obj1) =>
        match c.Create obj1 w1 with
        | (some cerr, obj2, w2) =>
          { result := .None, err := some cerr, obj := obj2, world := w2
            calls := [.Get kind key, .Create kind key] }
        | (none, obj2, w2) =>
          { result := .Created, err := none, obj := obj2, world := w2
            calls := [.Get kind key, .Create kind key] }
  | (.ok stored, w1) =>
    match mutate f key stored with
    | (some ferr, obj1) =>
      { result := .None, err := some ferr, obj := obj1, world := w1, calls := [.Get kind key] }
    | (none, obj1) =>
      if stored ≠ obj1 then
        match c.Patch obj1 stored w1 with
        | (some perr, obj2, w2) =>
          { result := .None, err := some perr, obj := obj2, world := w2
            calls := [.Get kind key, .Patch kind key] }
        | (none, obj2, w2) =>
          { result := .Updated, err := none, obj := obj2, world := w2
            calls := [.Get kind key, .Patch kind key] }
      else
        { result := .None, err := none, obj := obj1, world := w1, calls := [.Get kind key] }

/-- What a child reconciler returns and leaves behind: the error, the world,
and the client calls it made. -/
structure Effect (σ : Type) where
  err : Option GoError
  world : σ
  calls : List ClientCall

/-! ## internal/module/module.go -/

namespace module

/-- The constant `moduleSuffix`. -/
def moduleSuffix : String := "module"

/-- The constant `driverHabanaServiceAccount`. -/
def driverHabanaServiceAccount : String := "driver-habana"

/-- The constant `driverHabanaSuffix`. -/
def driverHabanaSuffix : String := "driver-habana"

/-- The constant `driverHabanaLimitsCpu`. -/
def driverHabanaLimitsCpu : String := "100m"

/-- The constant `driverHabanaLimitsMemory`. -/
def driverHabanaLimitsMemory : String := "100Mi"

/-- The constant `driverHabanaRequestsCpu`. -/
def driverHabanaRequestsCpu : String := "100m"

/-- The constant `driverHabanaRequestsMemory`. -/
def driverHabanaRequestsMemory : String := "50Mi"

/-- The constant `devicePluginSuffix`. -/
def devicePluginSuffix : String := "device-plugin"

/-- The constant `devicePluginLimitsCpu`. -/
def devicePluginLimitsCpu : String := "200m"

/-- The constant `devicePluginLimitsMemory`. -/
def devicePluginLimitsMemory : String := "100Mi"

/-- The constant `devicePluginRequestsCpu`. -/
def devicePluginRequestsCpu : String := "100m"

/-- The constant `devicePluginRequestsMemory`. -/
def devicePluginRequestsMemory : String := "50Mi"

/-- The struct `moduleReconciler`. -/
structure moduleReconciler (σ : Type) where
  client : KubeClient σ
  scheme : Scheme

/-- The function `GetModuleName`. -/
def GetModuleName (cr : DeviceConfig) : String :=
  cr.Name ++ "-" ++ moduleSuffix

/-- The function `getDriverHabanaName`. -/
def getDriverHabanaName (cr : DeviceConfig) : String :=
  cr.Name ++ "-" ++ driverHabanaSuffix

/-- The function `getDevicePluginName`. -/
def getDevicePluginName (cr : DeviceConfig) : String :=
  cr.Name ++ "-" ++ devicePluginSuffix

/-- The method `makeDriverHabanaContainer`. -/
def makeDriverHabanaContainer (cr : DeviceConfig) : Container :=
  { Name := getDriverHabanaName cr
    Env := [{ Name := "DRIVER_VERSION", Value := cr.Spec.DriverVersion }]
    ImagePullPolicy := PullAlways
    SecurityContext := some
      { Privileged := some true, RunAsUser := some 0, SELinuxOptions := some { Level := "s0" } }
    Lifecycle := some { PreStop := some { Exec := some { Command := ["/usr/bin/exitpoint"] } } }
    ReadinessProbe := some { Exec := some { Command := ["sh", "-c", "lsmod | grep habanalabs"] } }
    LivenessProbe := some { Exec := some { Command := ["sh", "-c", "lsmod | grep habanalabs"] } }
    Resources :=
      { Limits := some [("cpu", driverHabanaLimitsCpu), ("memory", driverHabanaLimitsMemory)]
        Requests := some [("cpu", driverHabanaRequestsCpu), ("memory", driverHabanaRequestsMemory)] }
    VolumeMounts :=
      [{ Name := "host-firmware", MountPath := "/var/lib/firmware"
         MountPropagation := some MountPropagationBidirectional }] }

/-- The method `makeDevicePluginContainer`. -/
def makeDevicePluginContainer (g : Globals) (cr : DeviceConfig) : Container :=
  { Name := getDevicePluginName cr
    Env := [{ Name := "LD_LIBRARY_PATH", Value := "/usr/lib/habanalabs" }]
    Image := g.Settings.DevicePluginImage
    ImagePullPolicy := PullAlways
    Resources :=
      { Limits := some [("cpu", devicePluginLimitsCpu), ("memory", devicePluginLimitsMemory)]
        Requests := some [("cpu", devicePluginRequestsCpu), ("memory", devicePluginRequestsMemory)] } }

/-- The method `makeAdditionalVolumes`. -/
def makeAdditionalVolumes (_cr : DeviceConfig) : List Volume :=
  [{ Name := "host-firmware"
     HostPath := some { Path := "/var/lib/firmware", Type_ := some HostPathDirectoryOrCreate } }]

/-- The method `SetDesiredModule`: the error it returns and the object as the
pointer leaves it (`none` is the nil pointer). -/
def moduleReconciler.SetDesiredModule {σ : Type} (r : moduleReconciler σ) (g : Globals)
    (m : Option Module) (cr : DeviceConfig) : Option GoError × Option Module :=
  match m with
  | none => (some (errorsNew "module cannot be nil"), none)
  | some m =>
    let kernelMappings : List KernelMapping :=
      [{ ContainerImage :=
           cr.Spec.DriverImage ++ ":" ++ cr.Spec.DriverVersion ++ "-$\x7bKERNEL_FULL_VERSION\x7d"
         Regexp := "^.*\\.el\\d_?\\d?\\..*$" }]
    let driver := makeDriverHabanaContainer cr
    let devicePlugin := makeDevicePluginContainer g cr
    let volumes := makeAdditionalVolumes cr
    let m1 : Module :=
      { m with Spec :=
          { KernelMappings := kernelMappings, DriverContainer := driver
            DevicePlugin := some devicePlugin, AdditionalVolumes := volumes } }
    let m2 : Module := { m1 with Spec := { m1.Spec with Selector := some cr.GetNodeSelector } }
    let m3 : Module :=
      { m2 with Spec := { m2.Spec with ServiceAccountName := driverHabanaServiceAccount } }
    match SetControllerReference cr m3.ObjectMeta r.scheme with
    | .error err => (some err, some m3)
    | .ok meta => (none, some { m3 with ObjectMeta := meta })

/-- The mutate function that `ReconcileModule` hands to `CreateOrPatch`. -/
def moduleReconciler.mutateModule {σ : Type} (r : moduleReconciler σ) (g : Globals)
    (cr : DeviceConfig) (m : Module) : Option GoError × Module :=
  match r.SetDesiredModule g (some m) cr with
  | (err, some m1) => (err, m1)
  | (err, none) => (err, m)

/-- The method `ReconcileModule`. -/
def moduleReconciler.ReconcileModule {σ : Type} (r : moduleReconciler σ) (g : Globals)
    (cr : DeviceConfig) (w : σ) : Effect σ :=
  let key : NamespacedName := { Namespace := cr.Namespace, Name := GetModuleName cr }
  match r.client.Modules.Get key w with
  | (.error err, w1) =>
    if !IsNotFound err then
      { err := some err, world := w1, calls := [.Get "Module" key] }
    else
      let m : Module := { ObjectMeta := { Name := GetModuleName cr, Namespace := cr.Namespace } }
      let res := CreateOrPatch r.client.Modules m (r.mutateModule g cr) w1
      match res.err with
      | some err =>
        { err := some (.base ("could not create or patch Module: " ++ err.Error) false)
          world := res.world, calls := .Get "Module" key :: res.calls }
      | none => { err := none, world := res.world, calls := .Get "Module" key :: res.calls }
  | (.ok existingModule, w1) =>
    let res := CreateOrPatch r.client.Modules existingModule (r.mutateModule g cr) w1
    match res.err with
    | some err =>
      { err := some (.base ("could not create or patch Module: " ++ err.Error) false)
        world := res.world, calls := .Get "Module" key :: res.calls }
    | none => { err := none, world := res.world, calls := .Get "Module" key :: res.calls }

/-- The method `DeleteModule`. -/
def moduleReconciler.DeleteModule {σ : Type} (r : moduleReconciler σ) (cr : DeviceConfig)
    (w : σ) : Effect σ :=
  let m : Module := { ObjectMeta := { Name := GetModuleName cr, Namespace := cr.Namespace } }
  match r.client.Modules.Delete m w with
  | (some err, w1) =>
    if !IsNotFound err then
      { err := some (.wrap ("failed to delete Module " ++ m.ObjectMeta.Name ++ ": " ++ err.Error)
          err)
        world := w1, calls := [.Delete "Module" (ObjectKeyFromObject m)] }
    else { err := none, world := w1, calls := [.Delete "Module" (ObjectKeyFromObject m)] }
  | (none, w1) => { err := none, world := w1, calls := [.Delete "Module" (ObjectKeyFromObject m)] }

/-- The function `NewReconciler`: the struct seen through the interface of the
methods that take part in a reconcile pass. -/
def NewReconciler {σ : Type} (g : Globals) (c : KubeClient σ) (s : Scheme) : Reconciler σ :=
  { ReconcileModule := fun cr w =>
      (((moduleReconciler.mk c s).ReconcileModule g cr w).err, cr,
        ((moduleReconciler.mk c s).ReconcileModule g cr w).world)
    DeleteModule := fun cr w =>
      (((moduleReconciler.mk c s).DeleteModule cr w).err, cr,
        ((moduleReconciler.mk c s).DeleteModule cr w).world) }

end module

/-! ## internal/node/metrics/metrics.go -/

namespace metrics

/-- The constant `nodeMetricsServiceAccount`. -/
def nodeMetricsServiceAccount : String := "node-metrics"

/-- The constant `nodeMetricsSuffix`. -/
def nodeMetricsSuffix : String := "node-metrics"

/-- The constant `nodeMetricsPort`. -/
def nodeMetricsPort : Int := 41611

/-- The constant `nodeMetricsLimitsCpu`. -/
def nodeMetricsLimitsCpu : String := "1"

/-- The constant `nodeMetricsLimitsMemory`. -/
def nodeMetricsLimitsMemory : String := "200Mi"

/-- The constant `nodeMetricsRequestsCpu`. -/
def nodeMetricsRequestsCpu : String := "100m"

/-- The constant `nodeMetricsRequestsMemory`. -/
def nodeMetricsRequestsMemory : String := "200Mi"

/-- The struct `NodeMetricsReconciler`. -/
structure NodeMetricsReconciler (σ : Type) where
  client : KubeClient σ
  scheme : Scheme

/-- The function `GetNodeMetricsName`. -/
def GetNodeMetricsName (cr : DeviceConfig) : String :=
  cr.Name ++ "-" ++ nodeMetricsSuffix

/-- The function `labelsForNodeMetricsDaemonSet`. -/
def labelsForNodeMetricsDaemonSet (g : Globals) (_cr : DeviceConfig) : List (String × String) :=
  [("app.kubernetes.io/name", g.HabanaAIOperatorName),
    ("app.kubernetes.io/component", nodeMetricsSuffix)]

/-- The method `makeNodeMetricsContainer`. -/
def makeNodeMetricsContainer (g : Globals) (_cr : DeviceConfig) : Container :=
  { Name := nodeMetricsSuffix
    Image := g.Settings.NodeMetricsImage
    ImagePullPolicy := PullAlways
    SecurityContext := some { Privileged := some true, RunAsUser := some 0 }
    Ports :=
      [{ ContainerPort := nodeMetricsPort, HostPort := nodeMetricsPort
         Name := nodeMetricsSuffix, Protocol := ProtocolTCP }]
    Resources :=
      { Limits := some [("cpu", nodeMetricsLimitsCpu), ("memory", nodeMetricsLimitsMemory)]
        Requests := some [("cpu", nodeMetricsRequestsCpu), ("memory", nodeMetricsRequestsMemory)] }
    VolumeMounts :=
      [{ Name := "pod-resources", MountPath := "/var/lib/kubelet/pod-resources"
         ReadOnly := true }] }

/-- The method `SetDesiredNodeMetricsDaemonSet`: the error it returns and the
object as the pointer leaves it (`none` is the nil pointer). -/
def NodeMetricsReconciler.SetDesiredNodeMetricsDaemonSet {σ : Type}
    (r : NodeMetricsReconciler σ) (g : Globals) (ds : Option DaemonSet) (cr : DeviceConfig) :
    Option GoError × Option DaemonSet :=
  match ds with
  | none => (some (errorsNew "daemonset cannot be nil"), none)
  | some ds =>
    let labels := labelsForNodeMetricsDaemonSet g cr
    let ds1 : DaemonSet :=
      { ds with Spec := { ds.Spec with Selector := some { MatchLabels := some labels } } }
    let ds2 : DaemonSet :=
      { ds1 with Spec := { ds1.Spec with Template := { ObjectMeta := { Labels := some labels } } } }
    let volumes : List Volume :=
      [{ Name := "pod-resources"
         HostPath := some
           { Path := "/var/lib/kubelet/pod-resources", Type_ := some HostPathDirectory } }]
    let containers : List Container := [makeNodeMetricsContainer g cr]
    let nodeSelector : List (String × String) := cr.GetNodeSelectorFor "gaudi"
    let ds3 : DaemonSet :=
      { ds2 with Spec := { ds2.Spec with Template := { ds2.Spec.Template with Spec :=
          { Containers := containers
            HostPID := true
            NodeSelector := some nodeSelector
            PriorityClassName := "system-node-critical"
            ServiceAccountName := nodeMetricsServiceAccount
            Volumes := volumes } } } }
    match SetControllerReference cr ds3.ObjectMeta r.scheme with
    | .error err => (some err, some ds3)
    | .ok meta => (none, some { ds3 with ObjectMeta := meta })

/-- The method `SetDesiredNodeMetricsService`: the error it returns and the
object as the pointer leaves it (`none` is the nil pointer). -/
def NodeMetricsReconciler.SetDesiredNodeMetricsService {σ : Type}
    (r : NodeMetricsReconciler σ) (g : Globals) (s : Option Service) (cr : DeviceConfig) :
    Option GoError × Option Service :=
  match s with
  | none => (some (errorsNew "service cannot be nil"), none)
  | some s =>
    let s1 : Service :=
      { s with ObjectMeta := { s.ObjectMeta with
          Labels := some (labelsForNodeMetricsDaemonSet g cr) } }
    let s2 : Service :=
      { s1 with ObjectMeta := { s1.ObjectMeta with
          Annotations := some [("prometheus.io/scrape", "true")] } }
    let s3 : Service :=
      { s2 with Spec :=
          { Selector := some (labelsForNodeMetricsDaemonSet g cr)
            Ports :=
              [{ Name := nodeMetricsSuffix, Port := nodeMetricsPort
                 TargetPort := .Int nodeMetricsPort, Protocol := ProtocolTCP }] } }
    match SetControllerReference cr s3.ObjectMeta r.scheme with
    | .error err => (some err, some s3)
    | .ok meta => (none, some { s3 with ObjectMeta := meta })

/-- The mutate function that `ReconcileNodeMetricsDaemonSet` hands to
`CreateOrPatch`. -/
def NodeMetricsReconciler.mutateDaemonSet {σ : Type} (r : NodeMetricsReconciler σ) (g : Globals)
    (cr : DeviceConfig) (ds : DaemonSet) : Option GoError × DaemonSet :=
  match r.SetDesiredNodeMetricsDaemonSet g (some ds) cr with
  | (err, some ds1) => (err, ds1)
  | (err, none) => (err, ds)

/-- The mutate function that `ReconcileNodeMetricsService` hands to
`CreateOrPatch`. -/
def NodeMetricsReconciler.mutateService {σ : Type} (r : NodeMetricsReconciler σ) (g : Globals)
    (cr : DeviceConfig) (s : Service) : Option GoError × Service :=
  match r.SetDesiredNodeMetricsService g (some s) cr with
  | (err, some s1) => (err, s1)
  | (err, none) => (err, s)

/-- The method `ReconcileNodeMetricsDaemonSet`. -/
def NodeMetricsReconciler.ReconcileNodeMetricsDaemonSet {σ : Type}
    (r : NodeMetricsReconciler σ) (g : Globals) (cr : DeviceConfig) (w : σ) : Effect σ :=
  let key : NamespacedName := { Namespace := cr.Namespace, Name := GetNodeMetricsName cr }
  match r.client.DaemonSets.Get key w with
  | (.error err, w1) =>
    if !IsNotFound err then
      { err := some err, world := w1, calls := [.Get "DaemonSet" key] }
    else
      let ds : DaemonSet :=
        { ObjectMeta := { Name := GetNodeMetricsName cr, Namespace := cr.Namespace } }
      let res := CreateOrPatch r.client.DaemonSets ds (r.mutateDaemonSet g cr) w1
      match res.err with
      | some err =>
        { err := some (.base ("could not create or patch DaemonSet: " ++ err.Error) false)
          world := res.world, calls := .Get "DaemonSet" key :: res.calls }
      | none => { err := none, world := res.world, calls := .Get "DaemonSet" key :: res.calls }
  | (.ok existingDS, w1) =>
    let res := CreateOrPatch r.client.DaemonSets existingDS (r.mutateDaemonSet g cr) w1
    match res.err with
    | some err =>
      { err := some (.base ("could not create or patch DaemonSet: " ++ err.Error) false)
        world := res.world, calls := .Get "DaemonSet" key :: res.calls }
    | none => { err := none, world := res.world, calls := .Get "DaemonSet" key :: res.calls }

/-- The method `ReconcileNodeMetricsService`. -/
def NodeMetricsReconciler.ReconcileNodeMetricsService {σ : Type}
    (r : NodeMetricsReconciler σ) (g : Globals) (cr : DeviceConfig) (w : σ) : Effect σ :=
  let key : NamespacedName := { Namespace := cr.Namespace, Name := GetNodeMetricsName cr }
  match r.client.Services.Get key w with
  | (.error err, w1) =>
    if !IsNotFound err then
      { err := some err, world := w1, calls := [.Get "Service" key] }
    else
      let s : Service :=
        { ObjectMeta := { Name := GetNodeMetricsName cr, Namespace := cr.Namespace } }
      let res := CreateOrPatch r.client.Services s (r.mutateService g cr) w1
      match res.err with
      | some err =>
        { err := some (.base ("could not create or patch Service: " ++ err.Error) false)
          world := res.world, calls := .Get "Service" key :: res.calls }
      | none => { err := none, world := res.world, calls := .Get "Service" key :: res.calls }
  | (.ok existingService, w1) =>
    let res := CreateOrPatch r.client.Services existingService (r.mutateService g cr) w1
    match res.err with
    | some err =>
      { err := some (.base ("could not create or patch Service: " ++ err.Error) false)
        world := res.world, calls := .Get "Service" key :: res.calls }
    | none => { err := none, world := res.world, calls := .Get "Service" key :: res.calls }

/-- The function `setNodeMetricsConditions`, which returns nil. -/
def setNodeMetricsConditions {σ : Type} (_r : NodeMetricsReconciler σ) : Option GoError :=
  none

/-- The method `ReconcileNodeMetrics`. -/
def NodeMetricsReconciler.ReconcileNodeMetrics {σ : Type} (r : NodeMetricsReconciler σ)
    (g : Globals) (cr : DeviceConfig) (w : σ) : Effect σ :=
  let e1 := r.ReconcileNodeMetricsDaemonSet g cr w
  match e1.err with
  | some err => { err := some err, world := e1.world, calls := e1.calls }
  | none =>
    let e2 := r.ReconcileNodeMetricsService g cr e1.world
    match e2.err with
    | some err => { err := some err, world := e2.world, calls := e1.calls ++ e2.calls }
    | none =>
      { err := setNodeMetricsConditions r, world := e2.world, calls := e1.calls ++ e2.calls }

/-- The method `DeleteNodeMetricsDaemonSet`. -/
def NodeMetricsReconciler.DeleteNodeMetricsDaemonSet {σ : Type} (r : NodeMetricsReconciler σ)
    (cr : DeviceConfig) (w : σ) : Effect σ :=
  let ds : DaemonSet :=
    { ObjectMeta := { Name := GetNodeMetricsName cr, Namespace := cr.Namespace } }
  match r.client.DaemonSets.Delete ds w with
  | (some err, w1) =>
    if !IsNotFound err then
      { err := some (.wrap ("failed to delete DaemonSet " ++ ds.ObjectMeta.Name ++ ": " ++
          err.Error) err)
        world := w1, calls := [.Delete "DaemonSet" (ObjectKeyFromObject ds)] }
    else { err := none, world := w1, calls := [.Delete "DaemonSet" (ObjectKeyFromObject ds)] }
  | (none, w1) =>
    { err := none, world := w1, calls := [.Delete "DaemonSet" (ObjectKeyFromObject ds)] }

/-- The method `DeleteNodeMetricsService`. -/
def NodeMetricsReconciler.DeleteNodeMetricsService {σ : Type} (r : NodeMetricsReconciler σ)
    (cr : DeviceConfig) (w : σ) : Effect σ :=
  let s : Service :=
    { ObjectMeta := { Name := GetNodeMetricsName cr, Namespace := cr.Namespace } }
  match r.client.Services.Delete s w with
  | (some err, w1) =>
    if !IsNotFound err then
      { err := some (.wrap ("failed to delete Service " ++ s.ObjectMeta.Name ++ ": " ++
          err.Error) err)
        world := w1, calls := [.Delete "Service" (ObjectKeyFromObject s)] }
    else { err := none, world := w1, calls := [.Delete "Service" (ObjectKeyFromObject s)] }
  | (none, w1) =>
    { err := none, world := w1, calls := [.Delete "Service" (ObjectKeyFromObject s)] }

/-- The method `DeleteNodeMetrics`. -/
def NodeMetricsReconciler.DeleteNodeMetrics {σ : Type} (r : NodeMetricsReconciler σ)
    (cr : DeviceConfig) (w : σ) : Effect σ :=
  let e1 := r.DeleteNodeMetricsDaemonSet cr w
  match e1.err with
  | some err => { err := some err, world := e1.world, calls := e1.calls }
  | none =>
    let e2 := r.DeleteNodeMetricsService cr e1.world
    match e2.err with
    | some err => { err := some err, world := e2.world, calls := e1.calls ++ e2.calls }
    | none => { err := none, world := e2.world, calls := e1.calls ++ e2.calls }

/-- The function `NewReconciler`: the struct seen through the interface of the
methods that reconcile or delete the node-metrics children. -/
def NewReconciler {σ : Type} (g : Globals) (c : KubeClient σ) (s : Scheme) :
    nodeMetrics.Reconciler σ :=
  { ReconcileNodeMetrics := fun cr w =>
      (((NodeMetricsReconciler.mk c s).ReconcileNodeMetrics g cr w).err, cr,
        ((NodeMetricsReconciler.mk c s).ReconcileNodeMetrics g cr w).world)
    DeleteNodeMetrics := fun cr w =>
      (((NodeMetricsReconciler.mk c s).DeleteNodeMetrics cr w).err, cr,
        ((NodeMetricsReconciler.mk c s).DeleteNodeMetrics cr w).world)
    DeleteNodeMetricsDaemonSet := fun cr w =>
      (((NodeMetricsReconciler.mk c s).DeleteNodeMetricsDaemonSet cr w).err, cr,
        ((NodeMetricsReconciler.mk c s).DeleteNodeMetricsDaemonSet cr w).world)
    DeleteNodeMetricsService := fun cr w =>
      (((NodeMetricsReconciler.mk c s).DeleteNodeMetricsService cr w).err, cr,
        ((NodeMetricsReconciler.mk c s).DeleteNodeMetricsService cr w).world) }

end metrics

/-! ## internal/node/labeler/labeler.go -/

namespace labeler

/-- The constant `nodeLabelerServiceAccount`. -/
def nodeLabelerServiceAccount : String := "node-labeler"

/-- The constant `nodeLabelerSuffix`. -/
def nodeLabelerSuffix : String := "node-labeler"

/-- The constant `nodeLabelerLimitsCpu`. -/
def nodeLabelerLimitsCpu : String := "1"

/-- The constant `nodeLabelerLimitsMemory`. -/
def nodeLabelerLimitsMemory : String := "200Mi"

/-- The constant `nodeLabelerRequestsCpu`. -/
def nodeLabelerRequestsCpu : String := "100m"

/-- The constant `nodeLabelerRequestsMemory`. -/
def nodeLabelerRequestsMemory : String := "200Mi"

/-- The struct `NodeLabelerReconciler`. -/
structure NodeLabelerReconciler (σ : Type) where
  client : KubeClient σ
  scheme : Scheme

/-- The function `GetNodeLabelerName`. -/
def GetNodeLabelerName (cr : DeviceConfig) : String :=
  cr.Name ++ "-" ++ nodeLabelerSuffix

/-- The function `labelsForNodeLabelerDaemonSet`. -/
def labelsForNodeLabelerDaemonSet (g : Globals) (_cr : DeviceConfig) : List (String × String) :=
  [("app.kubernetes.io/name", g.HabanaAIOperatorName),
    ("app.kubernetes.io/component", nodeLabelerSuffix)]

/-- The method `makeNodeLabelerContainer`. -/
def makeNodeLabelerContainer (g : Globals) (_cr : DeviceConfig) : Container :=
  { Name := nodeLabelerSuffix
    Image := g.NodeLabelerImage
    ImagePullPolicy := PullAlways
    SecurityContext := some { Privileged := some true, RunAsUser := some 0 }
    Ports :=
      [{ ContainerPort := g.nodeLabelerPort, HostPort := g.nodeLabelerPort
         Name := nodeLabelerSuffix, Protocol := ProtocolTCP }]
    Resources :=
      { Limits := some [("cpu", nodeLabelerLimitsCpu), ("memory", nodeLabelerLimitsMemory)]
        Requests := some [("cpu", nodeLabelerRequestsCpu), ("memory", nodeLabelerRequestsMemory)] }
    VolumeMounts :=
      [{ Name := "pod-resources"
         MountPath := "/etc/kubernetes/node-feature-discovery/features.d"
         ReadOnly := false }] }

/-- The method `SetDesiredNodeLabelerDaemonSet`: the error it returns and the
object as the pointer leaves it (`none` is the nil pointer). -/
def NodeLabelerReconciler.SetDesiredNodeLabelerDaemonSet {σ : Type}
    (r : NodeLabelerReconciler σ) (g : Globals) (ds : Option DaemonSet) (cr : DeviceConfig) :
    Option GoError × Option DaemonSet :=
  match ds with
  | none => (some (errorsNew "daemonset cannot be nil"), none)
  | some ds =>
    let labels := labelsForNodeLabelerDaemonSet g cr
    let ds1 : DaemonSet :=
      { ds with Spec := { ds.Spec with Selector := some { MatchLabels := some labels } } }
    let ds2 : DaemonSet :=
      { ds1 with Spec := { ds1.Spec with Template := { ObjectMeta := { Labels := some labels } } } }
    let volumes : List Volume :=
      [{ Name := "pod-resources"
         HostPath := some
           { Path := "/etc/kubernetes/node-feature-discovery/features.d"
             Type_ := some HostPathDirectory } }]
    let containers : List Container := [makeNodeLabelerContainer g cr]
    let nodeSelector : List (String × String) := cr.GetNodeSelector
    let ds3 : DaemonSet :=
      { ds2 with Spec := { ds2.Spec with Template := { ds2.Spec.Template with Spec :=
          { Containers := containers
            HostPID := true
            NodeSelector := some nodeSelector
            PriorityClassName := "system-node-critical"
            ServiceAccountName := nodeLabelerServiceAccount
            Volumes := volumes } } } }
    match SetControllerReference cr ds3.ObjectMeta r.scheme with
    | .error err => (some err, some ds3)
    | .ok meta => (none, some { ds3 with ObjectMeta := meta })

/-- The method `DeleteNodeLabelerDaemonSet`; its last statement is read as
`return nil`. -/
def NodeLabelerReconciler.DeleteNodeLabelerDaemonSet {σ : Type} (r : NodeLabelerReconciler σ)
    (cr : DeviceConfig) (w : σ) : Effect σ :=
  let ds : DaemonSet :=
    { ObjectMeta := { Name := GetNodeLabelerName cr, Namespace := cr.Namespace } }
  match r.client.DaemonSets.Delete ds w with
  | (some err, w1) =>
    if !IsNotFound err then
      { err := some (.wrap ("failed to delete DaemonSet " ++ ds.ObjectMeta.Name ++ ": " ++
          err.Error) err)
        world := w1, calls := [.Delete "DaemonSet" (ObjectKeyFromObject ds)] }
    else { err := none, world := w1, calls := [.Delete "DaemonSet" (ObjectKeyFromObject ds)] }
  | (none, w1) =>
    { err := none, world := w1, calls := [.Delete "DaemonSet" (ObjectKeyFromObject ds)] }

/-- The method `DeleteNodeLabeler`. -/
def NodeLabelerReconciler.DeleteNodeLabeler {σ : Type} (r : NodeLabelerReconciler σ)
    (cr : DeviceConfig) (w : σ) : Effect σ :=
  let e1 := r.DeleteNodeLabelerDaemonSet cr w
  match e1.err with
  | some err => { err := some err, world := e1.world, calls := e1.calls }
  | none => { err := none, world := e1.world, calls := e1.calls }

end labeler

/-- The kind of object of a client call. -/
def ClientCall.kind : ClientCall → String
  | .Get kind _ => kind
  | .Create kind _ => kind
  | .Patch kind _ => kind
  | .Delete kind _ => kind

/-- The verb of a client call. -/
def ClientCall.verb : ClientCall → String
  | .Get _ _ => "Get"
  | .Create _ _ => "Create"
  | .Patch _ _ => "Patch"
  | .Delete _ _ => "Delete"

/-- The key of the object of a client call. -/
def ClientCall.key : ClientCall → NamespacedName
  | .Get _ key => key
  | .Create _ key => key
  | .Patch _ key => key
  | .Delete _ key => key

/-! ## Contracts of the child operations, as the specification words them -/

/-- The contract of a delete operation of a child, given what the delete call
of the cluster client answers (its error and the world it leaves): the
operation makes one call, the delete of the object of that kind and key, and
leaves the world as that call left it; it returns nil exactly when the answer
is nil or a NotFound error; and for any other answer it returns an error that
wraps the answer and quotes its text. -/
def DeletesChild {σ : Type} (answer : Option GoError × σ) (effect : Effect σ) (kind : String)
    (key : NamespacedName) : Prop :=
  effect.calls = [.Delete kind key] ∧
  effect.world = answer.2 ∧
  (effect.err = none ↔ (answer.1 = none ∨ ∃ e, answer.1 = some e ∧ IsNotFound e = true)) ∧
  (∀ e, answer.1 = some e → IsNotFound e = false →
    ∃ err, effect.err = some err ∧ err.Unwrap = some e ∧ Contains err.Error e.Error)

/-- The contract of a reconcile operation of a child around its fetch: when
the fetch fails with an error other than NotFound the operation returns that
error after that one call and leaves the world as the fetch left it; when the
fetch, and the fetch that create-or-patch repeats, report NotFound, the
operation creates the desired object, leaving the world as the create call for
that object left it, and it returns nil when the create succeeds and an error
whose text contains the text of the create error when it fails. -/
def FetchThenCreate {σ α : Type} (client : ObjectClient σ α) (kind : String)
    (key : NamespacedName) (desired : Option α) (reconcile : σ → Effect σ) : Prop :=
  (∀ w w1 e, client.Get key w = (.error e, w1) → IsNotFound e = false →
    (reconcile w).err = some e ∧ (reconcile w).calls = [.Get kind key] ∧
      (reconcile w).world = w1) ∧
  (∀ w w1 w2 e1 e2, client.Get key w = (.error e1, w1) → IsNotFound e1 = true →
    client.Get key w1 = (.error e2, w2) → IsNotFound e2 = true →
    ∃ obj, desired = some obj ∧
      (reconcile w).calls = [.Get kind key, .Get kind key, .Create kind key] ∧
      ((client.Create obj w2).1 = none → (reconcile w).err = none) ∧
      (∀ ce, (client.Create obj w2).1 = some ce →
        ∃ err, (reconcile w).err = some err ∧ Contains err.Error ce.Error) ∧
      (reconcile w).world = (client.Create obj w2).2.2)

/-! ## The regular expression of the kernel mapping (Go `regexp`, RE2 syntax) -/

namespace regexp

/-- A pattern for one character, of the part of the syntax of Go's `regexp`
package (RE2) that the kernel mapping uses: `.` is any character except the
newline, `\d` is a decimal digit, and any other character, escaped or not, is
itself. -/
inductive Atom where
  | anyCharNotNL
  | digit
  | literal (c : Char)
deriving DecidableEq, Repr

/-- How often a one-character pattern may match: once, `?` zero times or once,
`*` any number of times. -/
inductive Repeat where
  | one
  | quest
  | star
deriving DecidableEq, Repr

/-- A one-character pattern with its repetition. -/
structure Piece where
  atom : Atom
  rep : Repeat
deriving DecidableEq, Repr

/-- The lexical elements of a pattern. -/
inductive Token where
  | atom (a : Atom)
  | star
  | quest
  | caret
  | dollar
deriving DecidableEq, Repr

/-- A compiled pattern: a sequence of pieces, with `^` in front when the match
must start at the beginning of the text and `$` behind when it must end at the
end of the text. -/
structure Regexp where
  anchoredStart : Bool
  pieces : List Piece
  anchoredEnd : Bool
deriving DecidableEq, Repr

/-- The characters that the supported syntax has no use for: groups, classes,
counted repetitions, alternatives and `+`. -/
def unsupported : List Char :=
  [ '+', '(', ')', '[', ']', Char.ofNat 123, Char.ofNat 125, '|']

/-- Splits a pattern into its lexical elements; `none` for a pattern outside
the supported syntax. -/
def tokens : List Char → Option (List Token)
  | [] => some []
  | c :: rest =>
    if c = '\\' then
      match rest with
      | [] => none
      | e :: rest2 =>
        if e = 'd' then (tokens rest2).map (fun ts => Token.atom .digit :: ts)
        else if e.isAlphanum then none
        else (tokens rest2).map (fun ts => Token.atom (.literal e) :: ts)
    else if c = '.' then (tokens rest).map (fun ts => Token.atom .anyCharNotNL :: ts)
    else if c = '*' then (tokens rest).map (fun ts => Token.star :: ts)
    else if c = '?' then (tokens rest).map (fun ts => Token.quest :: ts)
    else if c = '^' then (tokens rest).map (fun ts => Token.caret :: ts)
    else if c = '$' then (tokens rest).map (fun ts => Token.dollar :: ts)
    else if c ∈ unsupported then none
    else (tokens rest).map (fun ts => Token.atom (.literal c) :: ts)

/-- Groups the lexical elements into pieces: each one-character pattern with
the repetition mark that follows it. -/
def parsePieces : List Token → Option (List Piece)
  | [] => some []
  | .atom a :: .star :: rest => (parsePieces rest).map (fun ps => { atom := a, rep := .star } :: ps)
  | .atom a :: .quest :: rest =>
    (parsePieces rest).map (fun ps => { atom := a, rep := .quest } :: ps)
  | .atom a :: rest => (parsePieces rest).map (fun ps => { atom := a, rep := .one } :: ps)
  | _ => none

/-- Modelled from the spec: the function `regexp.Compile` of Go's standard
library, whose source is not part of the repository, for the part of the
syntax that the "fixed regular expression pattern" of the kernel mapping uses:
an optional `^`, pieces, an optional `$`; `none` for any other pattern. -/
def Compile (expr : String) : Option Regexp :=
  match tokens expr.data with
  | none => none
  | some ts =>
    let anchoredStart := ts.head? == some Token.caret
    let ts1 := if anchoredStart then ts.drop 1 else ts
    let anchoredEnd := ts1.getLast? == some Token.dollar
    let ts2 := if anchoredEnd then ts1.dropLast else ts1
    (parsePieces ts2).map
      (fun ps => { anchoredStart := anchoredStart, pieces := ps, anchoredEnd := anchoredEnd })

/-- Tells whether a one-character pattern matches a character. -/
def Atom.matches : Atom → Char → Bool
  | .anyCharNotNL, c => c != '\n'
  | .digit, c => c.isDigit
  | .literal a, c => a == c

/-- The match of `a*` followed by the rest of the pattern `k`: the rest
matches here, or `a` matches one character and the loop goes on. -/
def starLoop (a : Atom) (k : List Char → Bool) : List Char → Bool
  | [] => k []
  | c :: s => k (c :: s) || (a.matches c && starLoop a k s)

/-- Tells whether the pieces match a text from its first character on; with
`anchoredEnd` the match must take the whole text. -/
def matchPieces (anchoredEnd : Bool) : List Piece → List Char → Bool
  | [], s => !anchoredEnd || s.isEmpty
  | { atom := a, rep := .one } :: ps, s =>
    match s with
    | [] => false
    | c :: s1 => a.matches c && matchPieces anchoredEnd ps s1
  | { atom := a, rep := .quest } :: ps, s =>
    matchPieces anchoredEnd ps s ||
      (match s with
       | [] => false
       | c :: s1 => a.matches c && matchPieces anchoredEnd ps s1)
  | { atom := a, rep := .star } :: ps, s => starLoop a (matchPieces anchoredEnd ps) s

/-- Tries a match at every position of the text, first to last. -/
def searchFrom (k : List Char → Bool) : List Char → Bool
  | [] => k []
  | c :: s => k (c :: s) || searchFrom k s

/-- The method `(*Regexp).MatchString`: the text contains a match of the
pattern. -/
def Regexp.MatchString (re : Regexp) (s : String) : Bool :=
  if re.anchoredStart then matchPieces re.anchoredEnd re.pieces s.data
  else searchFrom (matchPieces re.anchoredEnd re.pieces) s.data

/-- Modelled from the spec: the function `regexp.MatchString` of Go's standard
library, with which a kernel mapping "matches kernel release strings":
compiles the pattern and reports whether the text contains a match; `none`
when the pattern does not compile. -/
def MatchString (pattern s : String) : Option Bool :=
  (Compile pattern).map (fun re => re.MatchString s)

end regexp

/-! ## Test doubles and sample inputs -/

namespace fake

/-- The objects held by an in-memory cluster, as the fake client of the tests
holds them. -/
structure Cluster where
  DeviceConfigs : List DeviceConfig := []
  Nodes : List Node := []
deriving DecidableEq, Repr

/-- Tells whether a set of labels satisfies every equality requirement of a
selector. -/
def Matches (selector : Selector) (labels : List (String × String)) : Bool :=
  selector.all (fun kv => labels.lookup kv.1 == some kv.2)

/-- The list calls of the in-memory cluster: they never fail and never change
the cluster. -/
def listClient : controllers.ListClient Cluster :=
  { ListDeviceConfigs := fun w => (.ok w.DeviceConfigs, w)
    ListNodes := fun selector w => (.ok (w.Nodes.filter (fun n => Matches selector n.Labels)), w) }

/-- A node with a device, in zone a. -/
def node1 : Node :=
  { Name := "node-1", Labels := [(DefaultNodeSelectorKey, "true"), ("zone", "a")] }

/-- A node with a device, in zone b. -/
def node2 : Node :=
  { Name := "node-2", Labels := [(DefaultNodeSelectorKey, "true"), ("zone", "b")] }

/-- An instance without a node selector. -/
def dcDefault : DeviceConfig := { Name := "test" }

/-- An instance that selects zone a. -/
def dcZoneA : DeviceConfig :=
  { Name := "zone-a", Spec := { NodeSelector := some [("zone", "a")] } }

/-- An instance that selects zone b. -/
def dcZoneB : DeviceConfig :=
  { Name := "zone-b", Spec := { NodeSelector := some [("zone", "b")] } }

/-- A cluster in which two instances both match the node of zone a. -/
def overlapping : Cluster :=
  { DeviceConfigs := [dcDefault, dcZoneA], Nodes := [node1, node2] }

/-- A cluster in which the two instances match one node each. -/
def partitioned : Cluster :=
  { DeviceConfigs := [dcZoneA, dcZoneB], Nodes := [node1, node2] }

/-- What each collaborator of a scripted reconciler answers. -/
structure Script where
  Get : Except GoError DeviceConfig
  Check : Option GoError := none
  ContainsFinalizer : Bool := false
  AddFinalizer : Option GoError := none
  RemoveFinalizer : Option GoError := none
  ReconcileModule : Option GoError := none
  DeleteModule : Option GoError := none
  ReconcileNodeMetrics : Option GoError := none
  StatusUpdate : Option GoError := none

/-- The updater of `internal/conditions` over a status client that answers as
scripted and a clock that always reads 1. -/
def scriptedUpdater (s : Script) : conditions.updater Unit :=
  { StatusUpdate := fun _ w => (s.StatusUpdate, w)
    Now := fun w => (1, w) }

/-- A reconciler whose client, validator, finalizer updater and child
reconcilers answer as scripted and leave the object alone, composed with the
updater of `internal/conditions`. -/
def scripted (s : Script) : controllers.Reconciler Unit :=
  { Get := fun _ w => (s.Get, w)
    RecorderEvent := fun _ _ _ _ w => w
    mr :=
      { ReconcileModule := fun cr w => (s.ReconcileModule, cr, w)
        DeleteModule := fun cr w => (s.DeleteModule, cr, w) }
    nmr :=
      { ReconcileNodeMetrics := fun cr w => (s.ReconcileNodeMetrics, cr, w)
        DeleteNodeMetrics := fun cr w => (none, cr, w)
        DeleteNodeMetricsDaemonSet := fun cr w => (none, cr, w)
        DeleteNodeMetricsService := fun cr w => (none, cr, w) }
    fu :=
      { ContainsDeletionFinalizer := fun cr w => (s.ContainsFinalizer, cr, w)
        AddDeletionFinalizer := fun cr w => (s.AddFinalizer, cr, w)
        RemoveDeletionFinalizer := fun cr w => (s.RemoveFinalizer, cr, w) }
    cu := conditions.NewUpdater (scriptedUpdater s)
    nsv := { CheckDeviceConfigForConflictingNodeSelector := fun cr w => (s.Check, cr, w) } }

/-- The request of the tests, for the object named "test". -/
def req : controllers.Request := { NamespacedName := { Name := "test" } }

/-- The object of the tests marked for deletion. -/
def dcDeleted : DeviceConfig := { Name := "test", DeletionTimestamp := some 1700000000 }

/-- A reconciler over the in-memory cluster: the object is fetched by name,
the validator and the conditions updater are those of the repository (a
status update stores the status of the object), and the finalizer updater and
the child reconcilers succeed without touching anything. -/
def onCluster : controllers.Reconciler Cluster :=
  { Get := fun key w =>
      match w.DeviceConfigs.find? (fun d => d.Name == key.Name && d.Namespace == key.Namespace) with
      | some d => (.ok d, w)
      | none => (.error (.base "deviceconfigs.habana.ai not found" true), w)
    RecorderEvent := fun _ _ _ _ w => w
    mr :=
      { ReconcileModule := fun cr w => (none, cr, w)
        DeleteModule := fun cr w => (none, cr, w) }
    nmr :=
      { ReconcileNodeMetrics := fun cr w => (none, cr, w)
        DeleteNodeMetrics := fun cr w => (none, cr, w)
        DeleteNodeMetricsDaemonSet := fun cr w => (none, cr, w)
        DeleteNodeMetricsService := fun cr w => (none, cr, w) }
    fu :=
      { ContainsDeletionFinalizer := fun cr w => (false, cr, w)
        AddDeletionFinalizer := fun cr w => (none, cr, w)
        RemoveDeletionFinalizer := fun cr w => (none, cr, w) }
    cu := conditions.NewUpdater
      { StatusUpdate := fun cr w =>
          (none, { w with DeviceConfigs := w.DeviceConfigs.map (fun d =>
            if d.Name == cr.Name && d.Namespace == cr.Namespace then
              { d with Status := cr.Status } else d) })
        Now := fun w => (1, w) }
    nsv := controllers.NewNodeSelectorValidator listClient }

end fake

namespace fake

/-- A node without the device-presence label, in zone c. -/
def node3 : Node := { Name := "node-3", Labels := [("zone", "c")] }

/-- An instance whose node selector is a present map with zero entries. -/
def dcEmptySelector : DeviceConfig := { Name := "empty", Spec := { NodeSelector := some [] } }

/-- An instance that selects zone c. -/
def dcZoneC : DeviceConfig :=
  { Name := "zone-c", Spec := { NodeSelector := some [("zone", "c")] } }

/-- A cluster with one device node and one node without a device; the default
device-presence selector matches the first node only. -/
def mixed : Cluster :=
  { DeviceConfigs := [dcEmptySelector, dcZoneC], Nodes := [node1, node3] }

/-- An environment in which only the device-plugin image is set. -/
def envOnlyDevicePlugin : settings.Environment :=
  [("DEVICE_PLUGIN_IMAGE", "device plugin image")]

end fake

namespace fake

/-- The calls on one kind of object of a cluster that holds no object of that
kind and accepts every create, patch and delete. -/
def emptyObjects (α : Type) : ObjectClient Unit α :=
  { Get := fun _ w => (.error (.base "not found" true), w)
    Create := fun obj w => (none, obj, w)
    Patch := fun obj _ w => (none, obj, w)
    Delete := fun _ w => (none, w) }

/-- The client of a cluster without children. -/
def emptyClient : KubeClient Unit :=
  { Modules := emptyObjects Module
    DaemonSets := emptyObjects DaemonSet
    Services := emptyObjects Service }

/-- A scheme in which the type DeviceConfig is registered. -/
def scheme : Scheme :=
  { DeviceConfig := some { Group := "habana.ai", Version := "v1alpha1", Kind := "DeviceConfig" } }

/-- The owner of the tests of the child reconcilers. -/
def owner : DeviceConfig := { Name := "a-device-config", Namespace := "a-namespace" }

/-- The process-wide values of the tests. -/
def globals : Globals :=
  { Settings :=
      { DevicePluginImage := "device plugin image"
        DriverHabanaImageBasename := "driver habana image basename"
        NodeMetricsImage := "node metrics image" }
    HabanaAIOperatorName := "habana-ai-operator" }

end fake

namespace fake

/-- An instance whose status already holds a condition of another type and an
Errored condition, and no Ready condition. -/
def dcWithConditions : DeviceConfig :=
  { Name := "test"
    Status :=
      { Conditions :=
          [{ Type_ := "Available", Status := ConditionTrue, Reason := "Deployed" },
           { Type_ := conditions.Errored, Status := ConditionTrue
             Reason := conditions.ReasonModuleFailed, Message := "module failed" }] } }

end fake

namespace fake

/-- A cluster of three instances and three nodes: the instance without a
selector and the instance of zone a both match node-1, and the instance of
zone c alone matches node-3. -/
def bystander : Cluster :=
  { DeviceConfigs := [dcDefault, dcZoneA, dcZoneC], Nodes := [node1, node2, node3] }

end fake

/-! ## Theorems: the condition state machine -/

section ConditionLemmas

/-- After `SetStatusCondition`, the condition of the type that was set is
present and carries the status, the reason and the message that were set. -/
theorem find_setStatusCondition_self (now : Time) (conds : List Condition) (c : Condition) :
    ∃ found, FindStatusCondition (SetStatusCondition now conds c) c.Type_ = some found ∧
      found.Type_ = c.Type_ ∧ found.Status = c.Status ∧ found.Reason = c.Reason ∧
      found.Message = c.Message := by
  induction conds with
  | nil => simp [SetStatusCondition, FindStatusCondition]
  | cons d rest ih =>
    by_cases h : d.Type_ = c.Type_
    · simp [SetStatusCondition, FindStatusCondition, h, mergeCondition]
    · obtain ⟨found, hf, hrest⟩ := ih
      refine ⟨found, ?_, hrest⟩
      simpa [SetStatusCondition, FindStatusCondition, h] using hf

/-- The call `SetStatusCondition` leaves the condition of every other type as
it finds it. -/
theorem find_setStatusCondition_other (now : Time) (conds : List Condition) (c : Condition)
    (t : String) (ht : c.Type_ ≠ t) :
    FindStatusCondition (SetStatusCondition now conds c) t = FindStatusCondition conds t := by
  induction conds with
  | nil => simp [SetStatusCondition, FindStatusCondition, ht]
  | cons d rest ih =>
    by_cases h : d.Type_ = c.Type_
    · have hd : d.Type_ ≠ t := fun e => ht (h ▸ e)
      simp [SetStatusCondition, FindStatusCondition, h, mergeCondition, ht]
    · by_cases hdt : d.Type_ = t
      · have hne : ¬ t = c.Type_ := fun e => ht e.symm
        simp [SetStatusCondition, FindStatusCondition, hdt, hne]
      · simpa [SetStatusCondition, FindStatusCondition, h, hdt] using ih

/-- A condition that `FindStatusCondition` returns is an entry of the list and
has the type asked for. -/
theorem mem_of_findStatusCondition (conds : List Condition) (t : String) (c : Condition)
    (h : FindStatusCondition conds t = some c) : c ∈ conds ∧ c.Type_ = t := by
  unfold FindStatusCondition at h
  exact ⟨List.mem_of_find?_eq_some h, by simpa using List.find?_some h⟩

/-- After the two writes of `SetConditionsReady`: Ready is found with status
True, Errored is found with status False. -/
theorem readyConditions_find (t1 t2 : Time) (conds : List Condition) (reason message : String) :
    (∃ r, FindStatusCondition (conditions.readyConditions t1 t2 conds reason message)
        conditions.Ready = some r ∧ r.Status = ConditionTrue ∧ r.Reason = reason ∧
        r.Message = message) ∧
    (∃ e, FindStatusCondition (conditions.readyConditions t1 t2 conds reason message)
        conditions.Errored = some e ∧ e.Status = ConditionFalse ∧ e.Reason = conditions.Ready ∧
        e.Message = "") := by
  constructor
  · obtain ⟨r, hr, -, hs, hre, hm⟩ := find_setStatusCondition_self t1 conds
      { Type_ := conditions.Ready, Status := ConditionTrue, Reason := reason, Message := message }
    refine ⟨r, ?_, hs, hre, hm⟩
    unfold conditions.readyConditions
    rw [find_setStatusCondition_other _ _ _ _ (show conditions.Errored ≠ conditions.Ready by decide)]
    exact hr
  · obtain ⟨e, he, -, hs, hre, hm⟩ := find_setStatusCondition_self t2
      (SetStatusCondition t1 conds
        { Type_ := conditions.Ready, Status := ConditionTrue, Reason := reason,
          Message := message })
      { Type_ := conditions.Errored, Status := ConditionFalse, Reason := conditions.Ready }
    exact ⟨e, he, hs, hre, hm⟩

/-- After the two writes of `SetConditionsErrored`: Ready is found with status
False, Errored is found with status True. -/
theorem erroredConditions_find (t1 t2 : Time) (conds : List Condition)
    (reason message : String) :
    (∃ r, FindStatusCondition (conditions.erroredConditions t1 t2 conds reason message)
        conditions.Ready = some r ∧ r.Status = ConditionFalse ∧ r.Reason = conditions.Errored ∧
        r.Message = "") ∧
    (∃ e, FindStatusCondition (conditions.erroredConditions t1 t2 conds reason message)
        conditions.Errored = some e ∧ e.Status = ConditionTrue ∧ e.Reason = reason ∧
        e.Message = message) := by
  constructor
  · obtain ⟨r, hr, -, hs, hre, hm⟩ := find_setStatusCondition_self t1 conds
      { Type_ := conditions.Ready, Status := ConditionFalse, Reason := conditions.Errored }
    refine ⟨r, ?_, hs, hre, hm⟩
    unfold conditions.erroredConditions
    rw [find_setStatusCondition_other _ _ _ _ (show conditions.Errored ≠ conditions.Ready by decide)]
    exact hr
  · obtain ⟨e, he, -, hs, hre, hm⟩ := find_setStatusCondition_self t2
      (SetStatusCondition t1 conds
        { Type_ := conditions.Ready, Status := ConditionFalse, Reason := conditions.Errored })
      { Type_ := conditions.Errored, Status := ConditionTrue, Reason := reason,
        Message := message }
    exact ⟨e, he, hs, hre, hm⟩

/-- The condition list that `SetConditionsReady` leaves in the object is that
of `readyConditions` at the two clock readings. -/
theorem setConditionsReady_conditions {σ : Type} (u : conditions.updater σ) (cr : DeviceConfig)
    (reason message : String) (w : σ) :
    (u.SetConditionsReady cr reason message w).2.1.Status.Conditions =
      conditions.readyConditions (u.Now w).1 (u.Now (u.Now w).2).1 cr.Status.Conditions
        reason message := rfl

/-- The condition list that `SetConditionsErrored` leaves in the object is that
of `erroredConditions` at the two clock readings. -/
theorem setConditionsErrored_conditions {σ : Type} (u : conditions.updater σ)
    (cr : DeviceConfig) (reason message : String) (w : σ) :
    (u.SetConditionsErrored cr reason message w).2.1.Status.Conditions =
      conditions.erroredConditions (u.Now w).1 (u.Now (u.Now w).2).1 cr.Status.Conditions
        reason message := rfl

/-- Running a sequence of calls and then one more call is running the
sequence and applying the last call to what it leaves. -/
theorem runOps_append_singleton {σ : Type} (u : conditions.updater σ) (cr : DeviceConfig)
    (w : σ) (ops : List conditions.Op) (op : conditions.Op) :
    conditions.runOps u cr w (ops ++ [op]) =
      conditions.runOp u (conditions.runOps u cr w ops).1 (conditions.runOps u cr w ops).2 op := by
  induction ops generalizing cr w with
  | nil => simp [conditions.runOps]
  | cons o rest ih => simp [conditions.runOps, ih]

/-- What the two kinds of outcome of the state machine entail: when Ready and
Errored are found with opposite statuses, both are present, both are entries
of the list, and they are neither both True nor both False. -/
theorem exclusive_of_find (conds : List Condition) (r e : Condition) (sr se : String)
    (hr : FindStatusCondition conds conditions.Ready = some r) (hrs : r.Status = sr)
    (he : FindStatusCondition conds conditions.Errored = some e) (hes : e.Status = se)
    (hopp : (sr = ConditionTrue ∧ se = ConditionFalse) ∨ (sr = ConditionFalse ∧ se = ConditionTrue)) :
    IsStatusConditionTrue conds conditions.Ready = decide (sr = ConditionTrue) ∧
    IsStatusConditionFalse conds conditions.Ready = decide (sr = ConditionFalse) ∧
    IsStatusConditionTrue conds conditions.Errored = decide (se = ConditionTrue) ∧
    IsStatusConditionFalse conds conditions.Errored = decide (se = ConditionFalse) ∧
    (∃ c ∈ conds, c.Type_ = conditions.Ready ∧ c.Status = sr) ∧
    (∃ c ∈ conds, c.Type_ = conditions.Errored ∧ c.Status = se) ∧
    ¬ (IsStatusConditionTrue conds conditions.Ready = true ∧
        IsStatusConditionTrue conds conditions.Errored = true) ∧
    ¬ (IsStatusConditionFalse conds conditions.Ready = true ∧
        IsStatusConditionFalse conds conditions.Errored = true) := by
  have hmr := mem_of_findStatusCondition _ _ _ hr
  have hme := mem_of_findStatusCondition _ _ _ he
  have hTF : ConditionTrue ≠ ConditionFalse := by decide
  refine ⟨?_, ?_, ?_, ?_, ⟨r, hmr.1, hmr.2, hrs⟩, ⟨e, hme.1, hme.2, hes⟩, ?_, ?_⟩
  · simp [IsStatusConditionTrue, hr, hrs, beq_eq_decide]
  · simp [IsStatusConditionFalse, hr, hrs, beq_eq_decide]
  · simp [IsStatusConditionTrue, he, hes, beq_eq_decide]
  · simp [IsStatusConditionFalse, he, hes, beq_eq_decide]
  · rcases hopp with ⟨h1, h2⟩ | ⟨h1, h2⟩
    · simp [IsStatusConditionTrue, hr, he, hrs, hes, h1, h2, hTF.symm]
    · simp [IsStatusConditionTrue, hr, he, hrs, hes, h1, h2, hTF.symm]
  · rcases hopp with ⟨h1, h2⟩ | ⟨h1, h2⟩
    · simp [IsStatusConditionFalse, hr, he, hrs, hes, h1, h2, hTF]
    · simp [IsStatusConditionFalse, hr, he, hrs, hes, h1, h2, hTF]

end ConditionLemmas

/-- C1: for every DeviceConfig, whatever its prior condition list, after
`SetConditionsReady` the list holds a Ready condition with status True and an
Errored condition with status False (they are the conditions that
`FindStatusCondition` returns for the two types); after `SetConditionsErrored`
it holds Ready with status False and Errored with status True; and after any
sequence of the two operations that ends with a call `op`, Ready and Errored
are both present, not both True and not both False. -/
theorem C1_ready_errored_exclusive {σ : Type} (u : conditions.updater σ) (cr : DeviceConfig)
    (reason message : String) (w : σ) :
    (IsStatusConditionTrue (u.SetConditionsReady cr reason message w).2.1.Status.Conditions
        conditions.Ready = true ∧
      IsStatusConditionFalse (u.SetConditionsReady cr reason message w).2.1.Status.Conditions
        conditions.Errored = true ∧
      (∃ c ∈ (u.SetConditionsReady cr reason message w).2.1.Status.Conditions,
        c.Type_ = conditions.Ready ∧ c.Status = ConditionTrue) ∧
      (∃ c ∈ (u.SetConditionsReady cr reason message w).2.1.Status.Conditions,
        c.Type_ = conditions.Errored ∧ c.Status = ConditionFalse)) ∧
    (IsStatusConditionFalse (u.SetConditionsErrored cr reason message w).2.1.Status.Conditions
        conditions.Ready = true ∧
      IsStatusConditionTrue (u.SetConditionsErrored cr reason message w).2.1.Status.Conditions
        conditions.Errored = true ∧
      (∃ c ∈ (u.SetConditionsErrored cr reason message w).2.1.Status.Conditions,
        c.Type_ = conditions.Ready ∧ c.Status = ConditionFalse) ∧
      (∃ c ∈ (u.SetConditionsErrored cr reason message w).2.1.Status.Conditions,
        c.Type_ = conditions.Errored ∧ c.Status = ConditionTrue)) ∧
    (∀ (ops : List conditions.Op) (op : conditions.Op),
      (FindStatusCondition (conditions.runOps u cr w (ops ++ [op])).1.Status.Conditions
        conditions.Ready).isSome = true ∧
      (FindStatusCondition (conditions.runOps u cr w (ops ++ [op])).1.Status.Conditions
        conditions.Errored).isSome = true ∧
      ¬ (IsStatusConditionTrue (conditions.runOps u cr w (ops ++ [op])).1.Status.Conditions
          conditions.Ready = true ∧
        IsStatusConditionTrue (conditions.runOps u cr w (ops ++ [op])).1.Status.Conditions
          conditions.Errored = true) ∧
      ¬ (IsStatusConditionFalse (conditions.runOps u cr w (ops ++ [op])).1.Status.Conditions
          conditions.Ready = true ∧
        IsStatusConditionFalse (conditions.runOps u cr w (ops ++ [op])).1.Status.Conditions
          conditions.Errored = true)) := by
  have ready : ∀ (d : DeviceConfig) (a b : String) (v : σ),
      ∃ r e, FindStatusCondition (u.SetConditionsReady d a b v).2.1.Status.Conditions
          conditions.Ready = some r ∧ r.Status = ConditionTrue ∧
        FindStatusCondition (u.SetConditionsReady d a b v).2.1.Status.Conditions
          conditions.Errored = some e ∧ e.Status = ConditionFalse := by
    intro d a b v
    rw [setConditionsReady_conditions]
    obtain ⟨⟨r, hr, hrs, -⟩, ⟨e, he, hes, -⟩⟩ :=
      readyConditions_find (u.Now v).1 (u.Now (u.Now v).2).1 d.Status.Conditions a b
    exact ⟨r, e, hr, hrs, he, hes⟩
  have errored : ∀ (d : DeviceConfig) (a b : String) (v : σ),
      ∃ r e, FindStatusCondition (u.SetConditionsErrored d a b v).2.1.Status.Conditions
          conditions.Ready = some r ∧ r.Status = ConditionFalse ∧
        FindStatusCondition (u.SetConditionsErrored d a b v).2.1.Status.Conditions
          conditions.Errored = some e ∧ e.Status = ConditionTrue := by
    intro d a b v
    rw [setConditionsErrored_conditions]
    obtain ⟨⟨r, hr, hrs, -⟩, ⟨e, he, hes, -⟩⟩ :=
      erroredConditions_find (u.Now v).1 (u.Now (u.Now v).2).1 d.Status.Conditions a b
    exact ⟨r, e, hr, hrs, he, hes⟩
  refine ⟨?_, ?_, ?_⟩
  · obtain ⟨r, e, hr, hrs, he, hes⟩ := ready cr reason message w
    obtain ⟨h1, -, -, h4, h5, h6, -, -⟩ :=
      exclusive_of_find _ r e _ _ hr hrs he hes (Or.inl ⟨rfl, rfl⟩)
    exact ⟨by simpa using h1, by simpa using h4, h5, h6⟩
  · obtain ⟨r, e, hr, hrs, he, hes⟩ := errored cr reason message w
    obtain ⟨-, h2, h3, -, h5, h6, -, -⟩ :=
      exclusive_of_find _ r e _ _ hr hrs he hes (Or.inr ⟨rfl, rfl⟩)
    exact ⟨by simpa using h2, by simpa using h3, h5, h6⟩
  · intro ops op
    rw [runOps_append_singleton]
    cases op with
    | SetReady a b =>
      obtain ⟨r, e, hr, hrs, he, hes⟩ :=
        ready (conditions.runOps u cr w ops).1 a b (conditions.runOps u cr w ops).2
      obtain ⟨-, -, -, -, -, -, h7, h8⟩ :=
        exclusive_of_find _ r e _ _ hr hrs he hes (Or.inl ⟨rfl, rfl⟩)
      exact ⟨by simp [conditions.runOp, hr], by simp [conditions.runOp, he], h7, h8⟩
    | SetErrored a b =>
      obtain ⟨r, e, hr, hrs, he, hes⟩ :=
        errored (conditions.runOps u cr w ops).1 a b (conditions.runOps u cr w ops).2
      obtain ⟨-, -, -, -, -, -, h7, h8⟩ :=
        exclusive_of_find _ r e _ _ hr hrs he hes (Or.inr ⟨rfl, rfl⟩)
      exact ⟨by simp [conditions.runOp, hr], by simp [conditions.runOp, he], h7, h8⟩

/-! ## Theorems: the node-selector conflict validator -/

section ValidatorLemmas

/-- The loop of `containsDuplicates` answers true exactly when an element of
the array is already visited or the array repeats an element. -/
theorem containsDuplicatesFrom_iff (visited arr : List String) :
    controllers.containsDuplicatesFrom visited arr = true ↔
      (∃ e ∈ arr, e ∈ visited) ∨ ¬ arr.Nodup := by
  induction arr generalizing visited with
  | nil => simp [controllers.containsDuplicatesFrom]
  | cons a rest ih =>
    unfold controllers.containsDuplicatesFrom
    by_cases ha : a ∈ visited
    · simp [ha]
    · have hc : visited.contains a = false := by simpa using ha
      rw [hc]
      simp only [Bool.false_eq_true, if_false, ih, List.mem_cons, List.nodup_cons, not_and_or,
        not_not]
      constructor
      · rintro (⟨e, he, rfl | hv⟩ | h)
        · exact Or.inr (Or.inl he)
        · exact Or.inl ⟨e, Or.inr he, hv⟩
        · exact Or.inr (Or.inr h)
      · rintro (⟨e, rfl | he, hv⟩ | h | h)
        · exact absurd hv ha
        · exact Or.inl ⟨e, he, Or.inr hv⟩
        · exact Or.inl ⟨a, h, Or.inl rfl⟩
        · exact Or.inr h

/-- The function `containsDuplicates` answers true exactly when the array
repeats an element. -/
theorem containsDuplicates_iff_not_nodup (arr : List String) :
    controllers.containsDuplicates arr = true ↔ ¬ arr.Nodup := by
  simp [controllers.containsDuplicates, containsDuplicatesFrom_iff]

/-- A list repeats an element exactly when two of its positions hold equal
elements. -/
theorem not_nodup_iff_positions (arr : List String) :
    ¬ arr.Nodup ↔ ∃ i j, i < j ∧ j < arr.length ∧ arr[i]? = arr[j]? := by
  rw [List.nodup_iff_getElem?_ne_getElem?]
  push_neg
  rfl

/-- When every node list call is answered, the loop of the validator returns
the names it started with followed by the names of the answers. -/
theorem collectNames_of_returned {σ : Type} (c : controllers.ListClient σ)
    (items : List DeviceConfig) (w w1 : σ) (nodeLists : List (List Node))
    (h : controllers.NodeListsReturned c items w nodeLists w1) (names : List String) :
    (controllers.nodeSelectorValidator.mk c).collectNames items names w =
      (.ok (names ++ controllers.nodeNames nodeLists), w1) := by
  induction h generalizing names with
  | nil w => simp [controllers.nodeSelectorValidator.collectNames, controllers.nodeNames]
  | cons dc items w w1 w2 nodes nodeLists hlist _ ih =>
    have hsel : (controllers.nodeSelectorValidator.mk c).getDeviceConfigSelectedNodes dc w =
        (.ok nodes, (if dc.Spec.NodeSelector = none then
          { dc with Spec := { dc.Spec with NodeSelector := some dc.GetNodeSelector } }
          else dc), w1) := by
      unfold controllers.nodeSelectorValidator.getDeviceConfigSelectedNodes
      cases hns : dc.Spec.NodeSelector with
      | none => simp [hns, AsSelector] at hlist ⊢; simp [hlist]
      | some m => simp [hns, AsSelector] at hlist ⊢; simp [hlist]
    unfold controllers.nodeSelectorValidator.collectNames
    rw [hsel]
    simp only
    rw [ih]
    simp [controllers.nodeNames, List.append_assoc]

/-- The result of the check when both kinds of list call are answered: the
conflict error, which names the candidate, when the collected names repeat;
nil otherwise; the candidate and the world come back as the lists left them. -/
theorem check_of_returned {σ : Type} (c : controllers.ListClient σ) (cr : DeviceConfig)
    (w w1 w2 : σ) (items : List DeviceConfig) (nodeLists : List (List Node))
    (hdcs : c.ListDeviceConfigs w = (.ok items, w1))
    (hnodes : controllers.NodeListsReturned c items w1 nodeLists w2) :
    (controllers.nodeSelectorValidator.mk c).CheckDeviceConfigForConflictingNodeSelector cr w =
      (if (controllers.nodeNames nodeLists).Nodup then none
        else some (.base ("conflicting DeviceConfig NodeSelectors found for resource: " ++ cr.Name)
          false), cr, w2) := by
  unfold controllers.nodeSelectorValidator.CheckDeviceConfigForConflictingNodeSelector
  simp only [hdcs, collectNames_of_returned c items w1 w2 nodeLists hnodes, List.nil_append]
  by_cases hd : (controllers.nodeNames nodeLists).Nodup
  · have : controllers.containsDuplicates (controllers.nodeNames nodeLists) = false := by
      rw [← Bool.not_eq_true, containsDuplicates_iff_not_nodup]; simpa using hd
    simp [this, hd]
  · have : controllers.containsDuplicates (controllers.nodeNames nodeLists) = true :=
      (containsDuplicates_iff_not_nodup _).2 hd
    simp [this, hd]

/-- A string contains each string it ends with. -/
theorem contains_append_right (a b : String) : Contains (a ++ b) b := by
  unfold Contains
  rw [String.data_append]
  exact List.IsSuffix.isInfix (List.suffix_append _ _)

/-- A string contains each string it starts with. -/
theorem contains_append_left (a b : String) : Contains (a ++ b) a := by
  unfold Contains
  rw [String.data_append]
  exact List.IsPrefix.isInfix (List.prefix_append _ _)

end ValidatorLemmas

/-- C2: when the DeviceConfig list call and every node list call succeed, the
check returns an error exactly when two positions of the concatenation of the
returned node lists hold the same node name; that error's text ends with, and
so contains, the candidate's name; `containsDuplicates` is true exactly when
two positions of its argument hold equal names; and when no node list repeats
a name and no two node lists share one, the check returns nil. -/
theorem C2_conflict_iff_duplicate_node {σ : Type} (c : controllers.ListClient σ)
    (cr : DeviceConfig) (w w1 w2 : σ) (items : List DeviceConfig) (nodeLists : List (List Node))
    (hdcs : c.ListDeviceConfigs w = (.ok items, w1))
    (hnodes : controllers.NodeListsReturned c items w1 nodeLists w2) :
    (((controllers.nodeSelectorValidator.mk c).CheckDeviceConfigForConflictingNodeSelector
          cr w).1.isSome = true ↔
      ∃ i j, i < j ∧ j < (controllers.nodeNames nodeLists).length ∧
        (controllers.nodeNames nodeLists)[i]? = (controllers.nodeNames nodeLists)[j]?) ∧
    (∀ err,
      ((controllers.nodeSelectorValidator.mk c).CheckDeviceConfigForConflictingNodeSelector
          cr w).1 = some err →
        err.Error = "conflicting DeviceConfig NodeSelectors found for resource: " ++ cr.Name ∧
        Contains err.Error cr.Name) ∧
    (∀ arr : List String, controllers.containsDuplicates arr = true ↔
      ∃ i j, i < j ∧ j < arr.length ∧ arr[i]? = arr[j]?) ∧
    ((∀ l ∈ nodeLists, (l.map (fun n => n.Name)).Nodup) →
      nodeLists.Pairwise (fun a b => ∀ n ∈ a, ∀ m ∈ b, n.Name ≠ m.Name) →
      ((controllers.nodeSelectorValidator.mk c).CheckDeviceConfigForConflictingNodeSelector
          cr w).1 = none) := by
  rw [check_of_returned c cr w w1 w2 items nodeLists hdcs hnodes]
  refine ⟨?_, ?_, ?_, ?_⟩
  · rw [← not_nodup_iff_positions]
    by_cases hd : (controllers.nodeNames nodeLists).Nodup <;> simp [hd]
  · intro err herr
    by_cases hd : (controllers.nodeNames nodeLists).Nodup
    · simp [hd] at herr
    · simp only [hd, if_false, Option.some.injEq] at herr
      subst herr
      exact ⟨rfl, contains_append_right _ _⟩
  · intro arr
    rw [containsDuplicates_iff_not_nodup, not_nodup_iff_positions]
  · intro hset hdisj
    have hd : (controllers.nodeNames nodeLists).Nodup := by
      unfold controllers.nodeNames
      rw [List.nodup_flatten]
      constructor
      · intro l hl
        obtain ⟨l0, hl0, rfl⟩ := List.mem_map.1 hl
        exact hset l0 hl0
      · rw [List.pairwise_map]
        refine hdisj.imp ?_
        intro a b hab x hxa hxb
        obtain ⟨n, hn, rfl⟩ := List.mem_map.1 hxa
        obtain ⟨m, hm, hmn⟩ := List.mem_map.1 hxb
        exact hab n hn m hm hmn.symm
    simp [hd]

/-- The node lists that the in-memory cluster `overlapping` returns for its two
instances. -/
theorem overlapping_returned :
    controllers.NodeListsReturned fake.listClient [fake.dcDefault, fake.dcZoneA] fake.overlapping
      [[fake.node1, fake.node2], [fake.node1]] fake.overlapping :=
  .cons fake.dcDefault [fake.dcZoneA] fake.overlapping fake.overlapping fake.overlapping
    [fake.node1, fake.node2] [[fake.node1]] rfl
    (.cons fake.dcZoneA [] fake.overlapping fake.overlapping fake.overlapping
      [fake.node1] [] rfl (.nil _))

/-- C2 at the in-memory cluster `overlapping`: node-1 is listed for both
instances, at positions 0 and 2, and the check returns an error. -/
theorem C2_conflict_iff_duplicate_node_witness :
    ((controllers.nodeSelectorValidator.mk fake.listClient).CheckDeviceConfigForConflictingNodeSelector
      fake.dcZoneA fake.overlapping).1.isSome = true :=
  (C2_conflict_iff_duplicate_node fake.listClient fake.dcZoneA fake.overlapping fake.overlapping
    fake.overlapping [fake.dcDefault, fake.dcZoneA] [[fake.node1, fake.node2], [fake.node1]]
    rfl overlapping_returned).1.2 ⟨0, 2, by decide, by decide, by decide⟩

/-- In a cluster that holds exactly the two instances A and B, with the node
lists that the validator is answered with: when the two lists share a node,
the check returns an error whether A or B is the candidate; when the two lists
are sets of nodes (no name twice in one list) and are disjoint, it returns nil
for both candidates. -/
theorem conflict_symmetric_of_returned {σ : Type} (c : controllers.ListClient σ) (A B : DeviceConfig)
    (w w1 w2 : σ) (nodesA nodesB : List Node)
    (hdcs : c.ListDeviceConfigs w = (.ok [A, B], w1))
    (hnodes : controllers.NodeListsReturned c [A, B] w1 [nodesA, nodesB] w2) :
    ((∃ n ∈ nodesA, ∃ m ∈ nodesB, n.Name = m.Name) →
      ((controllers.nodeSelectorValidator.mk c).CheckDeviceConfigForConflictingNodeSelector
          A w).1.isSome = true ∧
      ((controllers.nodeSelectorValidator.mk c).CheckDeviceConfigForConflictingNodeSelector
          B w).1.isSome = true) ∧
    ((nodesA.map (fun n => n.Name)).Nodup → (nodesB.map (fun n => n.Name)).Nodup →
      (∀ n ∈ nodesA, ∀ m ∈ nodesB, n.Name ≠ m.Name) →
      ((controllers.nodeSelectorValidator.mk c).CheckDeviceConfigForConflictingNodeSelector
          A w).1 = none ∧
      ((controllers.nodeSelectorValidator.mk c).CheckDeviceConfigForConflictingNodeSelector
          B w).1 = none) := by
  rw [check_of_returned c A w w1 w2 _ _ hdcs hnodes, check_of_returned c B w w1 w2 _ _ hdcs hnodes]
  have hnames : controllers.nodeNames [nodesA, nodesB] =
      nodesA.map (fun n => n.Name) ++ nodesB.map (fun n => n.Name) := by
    simp [controllers.nodeNames]
  constructor
  · rintro ⟨n, hn, m, hm, hnm⟩
    have hnd : ¬ (controllers.nodeNames [nodesA, nodesB]).Nodup := by
      rw [hnames]
      intro h
      exact (List.nodup_append.1 h).2.2 (List.mem_map.2 ⟨n, hn, rfl⟩)
        (List.mem_map.2 ⟨m, hm, hnm.symm⟩)
    simp [hnd]
  · intro hsetA hsetB hdisj
    have hnd : (controllers.nodeNames [nodesA, nodesB]).Nodup := by
      rw [hnames]
      refine List.nodup_append.2 ⟨hsetA, hsetB, ?_⟩
      intro x hxa hxb
      obtain ⟨n, hn, rfl⟩ := List.mem_map.1 hxa
      obtain ⟨m, hm, hmn⟩ := List.mem_map.1 hxb
      exact hdisj n hn m hm hmn.symm
    simp [hnd]

/-- The node lists that the in-memory cluster `partitioned` returns for its two
instances. -/
theorem partitioned_returned :
    controllers.NodeListsReturned fake.listClient [fake.dcZoneA, fake.dcZoneB] fake.partitioned
      [[fake.node1], [fake.node2]] fake.partitioned :=
  .cons fake.dcZoneA [fake.dcZoneB] fake.partitioned fake.partitioned fake.partitioned
    [fake.node1] [[fake.node2]] rfl
    (.cons fake.dcZoneB [] fake.partitioned fake.partitioned fake.partitioned
      [fake.node2] [] rfl (.nil _))

/-! ## Theorems: the reconcile pass -/

/-- C6: for a live DeviceConfig on which the conflict check returns an error,
`Reconcile` returns a zero result and a nil error; its calls are the fetch,
the check, one Warning event and the write of the gauge; the message of that
event, the only event recorded, contains "Conflicting DeviceConfig
NodeSelectors found", and the world that the pass leaves is the world in which
the recorder has recorded that event after the check; none of
`AddDeletionFinalizer`, `ReconcileModule`, `ReconcileNodeMetrics`,
`SetConditionsErrored`, `SetConditionsReady` is called; and the object is left
as the check returned it. -/
theorem C6_conflict_warns_and_stops {σ : Type} (r : controllers.Reconciler σ)
    (req : controllers.Request) (w w1 w2 : σ) (dc dc2 : DeviceConfig) (e : GoError)
    (hget : r.Get req.NamespacedName w = (.ok dc, w1))
    (hlive : IsZero dc.DeletionTimestamp = true)
    (hcheck : r.nsv.CheckDeviceConfigForConflictingNodeSelector dc w1 = (some e, dc2, w2)) :
    (r.Reconcile req w).result = {} ∧
    (r.Reconcile req w).err = none ∧
    (∃ message,
      (r.Reconcile req w).calls =
        [.Get req.NamespacedName, .CheckDeviceConfigForConflictingNodeSelector dc,
          .Event dc2 controllers.EventTypeWarning "Error" message,
          .ReconciliationFailedSet dc2.Name 1] ∧
      (r.Reconcile req w).calls.filter (fun c => c.method == "Event") =
        [.Event dc2 controllers.EventTypeWarning "Error" message] ∧
      Contains message "Conflicting DeviceConfig NodeSelectors found" ∧
      (r.Reconcile req w).world =
        r.RecorderEvent dc2 controllers.EventTypeWarning "Error" message w2) ∧
    (∀ c ∈ (r.Reconcile req w).calls,
      c.method ∉ ["AddDeletionFinalizer", "ReconcileModule", "ReconcileNodeMetrics",
        "SetConditionsErrored", "SetConditionsReady"]) ∧
    (r.Reconcile req w).cr = dc2 := by
  have hrun : r.Reconcile req w =
      { result := {}, err := none, cr := dc2
        world := r.RecorderEvent dc2 controllers.EventTypeWarning "Error"
          "Conflicting DeviceConfig NodeSelectors found. Please add or update this DeviceConfig's NodeSelector accordingly." w2
        calls := [.Get req.NamespacedName, .CheckDeviceConfigForConflictingNodeSelector dc,
          .Event dc2 controllers.EventTypeWarning "Error"
            "Conflicting DeviceConfig NodeSelectors found. Please add or update this DeviceConfig's NodeSelector accordingly.",
          .ReconciliationFailedSet dc2.Name 1] } := by
    unfold controllers.Reconciler.Reconcile
    simp [hget, hlive, hcheck]
  rw [hrun]
  refine ⟨rfl, rfl, ⟨_, rfl, ?_, ?_, rfl⟩, ?_, rfl⟩
  · simp [controllers.Call.method]
  · exact contains_append_left "Conflicting DeviceConfig NodeSelectors found"
      ". Please add or update this DeviceConfig's NodeSelector accordingly."
  · intro c hc
    simp only [List.mem_cons, List.mem_singleton, List.not_mem_nil, or_false] at hc
    rcases hc with rfl | rfl | rfl | rfl <;> simp [controllers.Call.method]

/-- C8: for a DeviceConfig marked for deletion whose finalizer is present,
`DeleteModule` is called before `RemoveDeletionFinalizer`, which is called only
when `DeleteModule` returned nil. When `DeleteModule` fails with `e`,
`RemoveDeletionFinalizer` is not called, the returned error wraps `e`, and the
object and the world are left as `DeleteModule` left them; when it succeeds
`RemoveDeletionFinalizer` is applied to the object and the world that
`DeleteModule` left, the pass returns what it returns, nil when both succeed,
leaves the object and the world as `RemoveDeletionFinalizer` left them, and
calls neither the conflict check, the child reconcilers nor the conditions
updater. -/
theorem C8_finalizer_removed_after_delete {σ : Type} (r : controllers.Reconciler σ)
    (req : controllers.Request) (w w1 w2 : σ) (dc dc2 : DeviceConfig)
    (hget : r.Get req.NamespacedName w = (.ok dc, w1))
    (hdel : IsZero dc.DeletionTimestamp = false)
    (hcont : r.fu.ContainsDeletionFinalizer dc w1 = (true, dc2, w2)) :
    (∀ e dc3 w3, r.mr.DeleteModule dc2 w2 = (some e, dc3, w3) →
      (r.Reconcile req w).calls =
        [.Get req.NamespacedName, .ReconciliationFailedSet dc.Name 0,
          .ContainsDeletionFinalizer dc, .DeleteModule dc2] ∧
      (∀ c ∈ (r.Reconcile req w).calls, c.method ≠ "RemoveDeletionFinalizer") ∧
      (r.Reconcile req w).result = {} ∧
      (r.Reconcile req w).err =
        some (.wrap ("failed to delete DeviceConfig resources: " ++ e.Error) e) ∧
      (∀ err, (r.Reconcile req w).err = some err → err.Unwrap = some e ∧ err.Is e = true) ∧
      (r.Reconcile req w).cr = dc3 ∧ (r.Reconcile req w).world = w3) ∧
    (∀ dc3 w3 e1 dc4 w4, r.mr.DeleteModule dc2 w2 = (none, dc3, w3) →
      r.fu.RemoveDeletionFinalizer dc3 w3 = (e1, dc4, w4) →
      (r.Reconcile req w).calls =
        [.Get req.NamespacedName, .ReconciliationFailedSet dc.Name 0,
          .ContainsDeletionFinalizer dc, .DeleteModule dc2, .RemoveDeletionFinalizer dc3] ∧
      (r.Reconcile req w).result = {} ∧
      (r.Reconcile req w).err = e1 ∧
      (e1 = none → (r.Reconcile req w).err = none) ∧
      (∀ c ∈ (r.Reconcile req w).calls,
        c.method ∉ ["CheckDeviceConfigForConflictingNodeSelector", "ReconcileModule",
          "ReconcileNodeMetrics", "SetConditionsErrored", "SetConditionsReady"]) ∧
      (r.Reconcile req w).cr = dc4 ∧ (r.Reconcile req w).world = w4) := by
  constructor
  · intro e dc3 w3 hdm
    have hrun : r.Reconcile req w =
        { result := {}, cr := dc3, world := w3
          err := some (.wrap ("failed to delete DeviceConfig resources: " ++ e.Error) e)
          calls := [.Get req.NamespacedName, .ReconciliationFailedSet dc.Name 0,
            .ContainsDeletionFinalizer dc, .DeleteModule dc2] } := by
      unfold controllers.Reconciler.Reconcile controllers.Reconciler.deleteDeviceConfigResources
      simp [hget, hdel, hcont, hdm]
    rw [hrun]
    refine ⟨rfl, ?_, rfl, rfl, ?_, rfl, rfl⟩
    · intro c hc
      simp only [List.mem_cons, List.mem_singleton, List.not_mem_nil, or_false] at hc
      rcases hc with rfl | rfl | rfl | rfl <;> simp [controllers.Call.method]
    · intro err herr
      simp only [Option.some.injEq] at herr
      subst herr
      cases e <;> simp [GoError.Unwrap, GoError.Is]
  · intro dc3 w3 e1 dc4 w4 hdm hrm
    have hrun : r.Reconcile req w =
        { result := {}, cr := dc4, world := w4, err := e1
          calls := [.Get req.NamespacedName, .ReconciliationFailedSet dc.Name 0,
            .ContainsDeletionFinalizer dc, .DeleteModule dc2, .RemoveDeletionFinalizer dc3] } := by
      unfold controllers.Reconciler.Reconcile controllers.Reconciler.deleteDeviceConfigResources
      cases e1 <;> simp [hget, hdel, hcont, hdm, hrm]
    rw [hrun]
    refine ⟨rfl, rfl, rfl, fun h => h, ?_, rfl, rfl⟩
    intro c hc
    simp only [List.mem_cons, List.mem_singleton, List.not_mem_nil, or_false] at hc
    rcases hc with rfl | rfl | rfl | rfl | rfl <;> simp [controllers.Call.method]

/-- C8 at the scripted reconciler whose `DeleteModule` fails with "some-error":
the pass returns the wrapping error. -/
theorem C8_finalizer_removed_after_delete_witness :
    ((fake.scripted
        { Get := .ok fake.dcDeleted, ContainsFinalizer := true,
          DeleteModule := some (errorsNew "some-error") }).Reconcile fake.req ()).err =
      some (.wrap ("failed to delete DeviceConfig resources: " ++ (errorsNew "some-error").Error)
        (errorsNew "some-error")) :=
  ((C8_finalizer_removed_after_delete
    (fake.scripted
      { Get := .ok fake.dcDeleted, ContainsFinalizer := true,
        DeleteModule := some (errorsNew "some-error") })
    fake.req () () () fake.dcDeleted fake.dcDeleted rfl (by decide) rfl).1
      (errorsNew "some-error") fake.dcDeleted () rfl).2.2.2.1

/-- C9: for a DeviceConfig marked for deletion whose finalizer is absent,
`Reconcile` returns a zero result and a nil error after the fetch, the write of
the gauge and the finalizer query, and calls neither `DeleteModule`,
`RemoveDeletionFinalizer`, the conflict check, a child reconciler nor the
conditions updater. -/
theorem C9_deleted_without_finalizer_is_noop {σ : Type} (r : controllers.Reconciler σ)
    (req : controllers.Request) (w w1 w2 : σ) (dc dc2 : DeviceConfig)
    (hget : r.Get req.NamespacedName w = (.ok dc, w1))
    (hdel : IsZero dc.DeletionTimestamp = false)
    (hcont : r.fu.ContainsDeletionFinalizer dc w1 = (false, dc2, w2)) :
    (r.Reconcile req w).result = {} ∧
    (r.Reconcile req w).err = none ∧
    (r.Reconcile req w).calls =
      [.Get req.NamespacedName, .ReconciliationFailedSet dc.Name 0,
        .ContainsDeletionFinalizer dc] ∧
    (∀ c ∈ (r.Reconcile req w).calls,
      c.method ∉ ["DeleteModule", "RemoveDeletionFinalizer",
        "CheckDeviceConfigForConflictingNodeSelector", "ReconcileModule", "ReconcileNodeMetrics",
        "DeleteNodeMetrics", "DeleteNodeMetricsDaemonSet", "DeleteNodeMetricsService",
        "SetConditionsErrored", "SetConditionsReady"]) ∧
    (r.Reconcile req w).cr = dc2 ∧ (r.Reconcile req w).world = w2 := by
  have hrun : r.Reconcile req w =
      { result := {}, err := none, cr := dc2, world := w2
        calls := [.Get req.NamespacedName, .ReconciliationFailedSet dc.Name 0,
          .ContainsDeletionFinalizer dc] } := by
    unfold controllers.Reconciler.Reconcile
    simp [hget, hdel, hcont]
  rw [hrun]
  refine ⟨rfl, rfl, rfl, ?_, rfl, rfl⟩
  intro c hc
  simp only [List.mem_cons, List.mem_singleton, List.not_mem_nil, or_false] at hc
  rcases hc with rfl | rfl | rfl <;> simp [controllers.Call.method]

/-- C9 at the scripted reconciler of the deleted object without finalizer: the
pass makes three calls and returns nil. -/
theorem C9_deleted_without_finalizer_is_noop_witness :
    ((fake.scripted { Get := .ok fake.dcDeleted }).Reconcile fake.req ()).err = none ∧
    ((fake.scripted { Get := .ok fake.dcDeleted }).Reconcile fake.req ()).calls =
      [.Get fake.req.NamespacedName, .ReconciliationFailedSet fake.dcDeleted.Name 0,
        .ContainsDeletionFinalizer fake.dcDeleted] :=
  ⟨(C9_deleted_without_finalizer_is_noop (fake.scripted { Get := .ok fake.dcDeleted })
      fake.req () () () fake.dcDeleted fake.dcDeleted rfl (by decide) rfl).2.1,
    (C9_deleted_without_finalizer_is_noop (fake.scripted { Get := .ok fake.dcDeleted })
      fake.req () () () fake.dcDeleted fake.dcDeleted rfl (by decide) rfl).2.2.1⟩

/-- C6 at the scripted reconciler whose validator reports a conflict: the pass
returns nil. -/
theorem C6_conflict_warns_and_stops_witness :
    ((fake.scripted
        { Get := .ok fake.dcDefault, Check := some (errorsNew "an error") }).Reconcile
      fake.req ()).err = none :=
  (C6_conflict_warns_and_stops
    (fake.scripted { Get := .ok fake.dcDefault, Check := some (errorsNew "an error") })
    fake.req () () () fake.dcDefault fake.dcDefault (errorsNew "an error") rfl (by decide) rfl).2.1

/-- C10: in a pass on a live, non-conflicting DeviceConfig: when the finalizer
is absent and every step succeeds, the calls on the injected collaborators are,
in this order, the conflict check, `ContainsDeletionFinalizer`,
`AddDeletionFinalizer`, `ReconcileModule`, `ReconcileNodeMetrics` and
`SetConditionsReady` (the fetch comes before them, the write of the gauge and
the Normal event come between the last two); and when the finalizer is present
`AddDeletionFinalizer` is not called at all, whatever the later steps return. -/
theorem C10_live_pass_call_order {σ : Type} (r : controllers.Reconciler σ)
    (req : controllers.Request) (w w1 w2 : σ) (dc dc2 : DeviceConfig)
    (hget : r.Get req.NamespacedName w = (.ok dc, w1))
    (hlive : IsZero dc.DeletionTimestamp = true)
    (hcheck : r.nsv.CheckDeviceConfigForConflictingNodeSelector dc w1 = (none, dc2, w2)) :
    (∀ dc3 w3 dc4 w4 dc5 w5 dc6 w6 dc8 w8,
      r.fu.ContainsDeletionFinalizer dc2 w2 = (false, dc3, w3) →
      r.fu.AddDeletionFinalizer dc3 w3 = (none, dc4, w4) →
      r.mr.ReconcileModule dc4 w4 = (none, dc5, w5) →
      r.nmr.ReconcileNodeMetrics dc5 w5 = (none, dc6, w6) →
      r.cu.SetConditionsReady dc6 "Reconciled" "All resources have been successfully reconciled"
        (r.RecorderEvent dc6 controllers.EventTypeNormal "Reconciled"
          ("Succesfully reconciled DeviceConfig " ++ dc6.Namespace ++ "/" ++ dc6.Name) w6) =
        (none, dc8, w8) →
      (r.Reconcile req w).err = none ∧
      (r.Reconcile req w).calls.filter controllers.Call.onCollaborator =
        [.CheckDeviceConfigForConflictingNodeSelector dc, .ContainsDeletionFinalizer dc2,
          .AddDeletionFinalizer dc3, .ReconcileModule dc4, .ReconcileNodeMetrics dc5,
          .SetConditionsReady dc6 "Reconciled"
            "All resources have been successfully reconciled"] ∧
      (r.Reconcile req w).calls.map controllers.Call.method =
        ["Get", "CheckDeviceConfigForConflictingNodeSelector", "ContainsDeletionFinalizer",
          "AddDeletionFinalizer", "ReconcileModule", "ReconcileNodeMetrics",
          "ReconciliationFailed.Set", "Event", "SetConditionsReady"]) ∧
    (∀ dc3 w3, r.fu.ContainsDeletionFinalizer dc2 w2 = (true, dc3, w3) →
      ∀ c ∈ (r.Reconcile req w).calls, c.method ≠ "AddDeletionFinalizer") := by
  constructor
  · intro dc3 w3 dc4 w4 dc5 w5 dc6 w6 dc8 w8 hcont hadd hmod hnm hready
    have hrun : r.Reconcile req w =
        { result := {}, err := none, cr := dc8, world := w8
          calls := [.Get req.NamespacedName, .CheckDeviceConfigForConflictingNodeSelector dc,
            .ContainsDeletionFinalizer dc2, .AddDeletionFinalizer dc3, .ReconcileModule dc4,
            .ReconcileNodeMetrics dc5, .ReconciliationFailedSet dc6.Name 0,
            .Event dc6 controllers.EventTypeNormal "Reconciled"
              ("Succesfully reconciled DeviceConfig " ++ dc6.Namespace ++ "/" ++ dc6.Name),
            .SetConditionsReady dc6 "Reconciled"
              "All resources have been successfully reconciled"] } := by
      unfold controllers.Reconciler.Reconcile
      simp [hget, hlive, hcheck, hcont, hadd, hmod, hnm, hready]
    rw [hrun]
    refine ⟨rfl, ?_, ?_⟩
    · simp [controllers.Call.onCollaborator]
    · simp [controllers.Call.method]
  · intro dc3 w3 hcont c hc
    unfold controllers.Reconciler.Reconcile at hc
    simp only [hget, hlive, hcheck, hcont] at hc
    rcases hmod : r.mr.ReconcileModule dc3 w3 with ⟨_ | e, dc5, w5⟩
    · rcases hnm : r.nmr.ReconcileNodeMetrics dc5 w5 with ⟨_ | e, dc6, w6⟩
      · simp [hmod, hnm] at hc
        rcases hc with rfl | rfl | rfl | rfl | rfl | rfl | rfl | rfl <;>
          simp [controllers.Call.method]
      · simp [hmod, hnm] at hc
        rcases hc with rfl | rfl | rfl | rfl | rfl | rfl | rfl <;>
          simp [controllers.Call.method]
    · simp [hmod] at hc
      rcases hc with rfl | rfl | rfl | rfl | rfl | rfl <;> simp [controllers.Call.method]

/-- C10 at the scripted reconciler in which every step succeeds: the six
collaborator calls in order. -/
theorem C10_live_pass_call_order_witness :
    ((fake.scripted { Get := .ok fake.dcDefault }).Reconcile fake.req ()).calls.filter
        controllers.Call.onCollaborator =
      [.CheckDeviceConfigForConflictingNodeSelector fake.dcDefault,
        .ContainsDeletionFinalizer fake.dcDefault, .AddDeletionFinalizer fake.dcDefault,
        .ReconcileModule fake.dcDefault, .ReconcileNodeMetrics fake.dcDefault,
        .SetConditionsReady fake.dcDefault "Reconciled"
          "All resources have been successfully reconciled"] :=
  ((C10_live_pass_call_order (fake.scripted { Get := .ok fake.dcDefault }) fake.req () () ()
    fake.dcDefault fake.dcDefault rfl (by decide) rfl).1
    fake.dcDefault () fake.dcDefault () fake.dcDefault () fake.dcDefault ()
    ((fake.scriptedUpdater { Get := .ok fake.dcDefault }).SetConditionsReady fake.dcDefault
      "Reconciled" "All resources have been successfully reconciled" ()).2.1 ()
    rfl rfl rfl rfl rfl).2.1

/-- The live pass up to the child reconcilers: once the fetch, the conflict
check and the finalizer step have succeeded, what remains of `Reconcile` is
decided by `ReconcileModule`, `ReconcileNodeMetrics` and the conditions
updater alone. -/
theorem reconcile_after_finalizer {σ : Type} (r : controllers.Reconciler σ)
    (req : controllers.Request) (w w1 w2 w4 : σ) (dc dc2 dc4 : DeviceConfig)
    (hget : r.Get req.NamespacedName w = (.ok dc, w1))
    (hlive : IsZero dc.DeletionTimestamp = true)
    (hcheck : r.nsv.CheckDeviceConfigForConflictingNodeSelector dc w1 = (none, dc2, w2))
    (hfin : r.fu.ContainsDeletionFinalizer dc2 w2 = (true, dc4, w4) ∨
      ∃ dc3 w3, r.fu.ContainsDeletionFinalizer dc2 w2 = (false, dc3, w3) ∧
        r.fu.AddDeletionFinalizer dc3 w3 = (none, dc4, w4)) :
    ∃ calls2 : List controllers.Call,
      (∀ c ∈ calls2, c.method ≠ "SetConditionsErrored" ∧ c.method ≠ "SetConditionsReady") ∧
      r.Reconcile req w =
        match r.mr.ReconcileModule dc4 w4 with
        | (some err, dc5, w5) =>
          { result := {}
            cr := (r.cu.SetConditionsErrored dc5 conditions.ReasonModuleFailed err.Error w5).2.1
            world := (r.cu.SetConditionsErrored dc5 conditions.ReasonModuleFailed err.Error w5).2.2
            err :=
              match (r.cu.SetConditionsErrored dc5 conditions.ReasonModuleFailed err.Error w5).1 with
              | some cerr => some (.wrap (err.Error ++ ": " ++ cerr.Error) cerr)
              | none => some err
            calls := calls2 ++ [.ReconcileModule dc4,
              .SetConditionsErrored dc5 conditions.ReasonModuleFailed err.Error,
              .ReconciliationFailedSet
                (r.cu.SetConditionsErrored dc5 conditions.ReasonModuleFailed err.Error w5).2.1.Name
                1] }
        | (none, dc5, w5) =>
          match r.nmr.ReconcileNodeMetrics dc5 w5 with
          | (some err, dc6, w6) =>
            { result := {}
              cr := (r.cu.SetConditionsErrored dc6 conditions.ReasonNodeMetricsFailed err.Error
                w6).2.1
              world := (r.cu.SetConditionsErrored dc6 conditions.ReasonNodeMetricsFailed err.Error
                w6).2.2
              err :=
                match (r.cu.SetConditionsErrored dc6 conditions.ReasonNodeMetricsFailed err.Error
                  w6).1 with
                | some cerr => some (.wrap (err.Error ++ ": " ++ cerr.Error) cerr)
                | none => some err
              calls := calls2 ++ [.ReconcileModule dc4, .ReconcileNodeMetrics dc5,
                .SetConditionsErrored dc6 conditions.ReasonNodeMetricsFailed err.Error,
                .ReconciliationFailedSet
                  (r.cu.SetConditionsErrored dc6 conditions.ReasonNodeMetricsFailed err.Error
                    w6).2.1.Name 1] }
          | (none, dc6, w6) =>
            { result := {}
              err := (r.cu.SetConditionsReady dc6 "Reconciled"
                "All resources have been successfully reconciled"
                (r.RecorderEvent dc6 controllers.EventTypeNormal "Reconciled"
                  ("Succesfully reconciled DeviceConfig " ++ dc6.Namespace ++ "/" ++ dc6.Name)
                  w6)).1
              cr := (r.cu.SetConditionsReady dc6 "Reconciled"
                "All resources have been successfully reconciled"
                (r.RecorderEvent dc6 controllers.EventTypeNormal "Reconciled"
                  ("Succesfully reconciled DeviceConfig " ++ dc6.Namespace ++ "/" ++ dc6.Name)
                  w6)).2.1
              world := (r.cu.SetConditionsReady dc6 "Reconciled"
                "All resources have been successfully reconciled"
                (r.RecorderEvent dc6 controllers.EventTypeNormal "Reconciled"
                  ("Succesfully reconciled DeviceConfig " ++ dc6.Namespace ++ "/" ++ dc6.Name)
                  w6)).2.2
              calls := calls2 ++ [.ReconcileModule dc4, .ReconcileNodeMetrics dc5,
                .ReconciliationFailedSet dc6.Name 0,
                .Event dc6 controllers.EventTypeNormal "Reconciled"
                  ("Succesfully reconciled DeviceConfig " ++ dc6.Namespace ++ "/" ++ dc6.Name),
                .SetConditionsReady dc6 "Reconciled"
                  "All resources have been successfully reconciled"] } := by
  rcases hfin with hcont | ⟨dc3, w3, hcont, hadd⟩
  · refine ⟨[.Get req.NamespacedName, .CheckDeviceConfigForConflictingNodeSelector dc,
      .ContainsDeletionFinalizer dc2], ?_, ?_⟩
    · intro c hc
      simp only [List.mem_cons, List.mem_singleton, List.not_mem_nil, or_false] at hc
      rcases hc with rfl | rfl | rfl <;> simp [controllers.Call.method]
    · unfold controllers.Reconciler.Reconcile
      simp only [hget, hlive, hcheck, hcont]
      rcases r.mr.ReconcileModule dc4 w4 with ⟨_ | e, dc5, w5⟩
      · rcases r.nmr.ReconcileNodeMetrics dc5 w5 with ⟨_ | e, dc6, w6⟩ <;> simp
      · simp
  · refine ⟨[.Get req.NamespacedName, .CheckDeviceConfigForConflictingNodeSelector dc,
      .ContainsDeletionFinalizer dc2, .AddDeletionFinalizer dc3], ?_, ?_⟩
    · intro c hc
      simp only [List.mem_cons, List.mem_singleton, List.not_mem_nil, or_false] at hc
      rcases hc with rfl | rfl | rfl | rfl <;> simp [controllers.Call.method]
    · unfold controllers.Reconciler.Reconcile
      simp only [hget, hlive, hcheck, hcont, hadd]
      rcases r.mr.ReconcileModule dc4 w4 with ⟨_ | e, dc5, w5⟩
      · rcases r.nmr.ReconcileNodeMetrics dc5 w5 with ⟨_ | e, dc6, w6⟩ <;> simp
      · simp

/-- The texts of the errors that a failed child pass returns both start with
the text of the child's error. -/
theorem contains_child_error (e : GoError) (cerr : Option GoError) (err : GoError)
    (h : (match cerr with
      | some cerr => some (GoError.wrap (e.Error ++ ": " ++ cerr.Error) cerr)
      | none => some e) = some err) :
    Contains err.Error e.Error := by
  cases cerr with
  | none =>
    simp only [Option.some.injEq] at h
    subst h
    exact ⟨[], [], by simp⟩
  | some c =>
    simp only [Option.some.injEq] at h
    subst h
    simp only [GoError.Error, String.append_assoc]
    exact contains_append_left _ _

/-- After `SetConditionsErrored` of the updater of `internal/conditions`, seen
through its interface, the Errored condition of the object is True with the
reason and the message given, and its Ready condition is False. -/
theorem errored_after_newUpdater {σ : Type} (u : conditions.updater σ) (cr : DeviceConfig)
    (reason message : String) (w : σ) :
    IsStatusConditionTrue
      ((conditions.NewUpdater u).SetConditionsErrored cr reason message w).2.1.Status.Conditions
      conditions.Errored = true ∧
    IsStatusConditionFalse
      ((conditions.NewUpdater u).SetConditionsErrored cr reason message w).2.1.Status.Conditions
      conditions.Ready = true ∧
    ∃ c, FindStatusCondition
        ((conditions.NewUpdater u).SetConditionsErrored cr reason message w).2.1.Status.Conditions
        conditions.Errored = some c ∧ c.Reason = reason ∧ c.Message = message := by
  show IsStatusConditionTrue (u.SetConditionsErrored cr reason message w).2.1.Status.Conditions
      conditions.Errored = true ∧
    IsStatusConditionFalse (u.SetConditionsErrored cr reason message w).2.1.Status.Conditions
      conditions.Ready = true ∧
    ∃ c, FindStatusCondition (u.SetConditionsErrored cr reason message w).2.1.Status.Conditions
        conditions.Errored = some c ∧ c.Reason = reason ∧ c.Message = message
  rw [setConditionsErrored_conditions]
  obtain ⟨⟨rd, hr, hrs, -⟩, ⟨er, he, hes, her, hem⟩⟩ :=
    erroredConditions_find (u.Now w).1 (u.Now (u.Now w).2).1 cr.Status.Conditions reason message
  obtain ⟨-, h2, h3, -⟩ := exclusive_of_find _ rd er _ _ hr hrs he hes (Or.inr ⟨rfl, rfl⟩)
  exact ⟨by simpa using h3, by simpa using h2, er, he, her, hem⟩

/-- C5: for a live DeviceConfig that passes the conflict check and whose
finalizer step succeeds: when `ReconcileModule` fails with `e`, the pass calls
`SetConditionsErrored` exactly once, with reason "ModuleFailed" and the text
of `e` as message, on the object and in the world that `ReconcileModule` left,
never calls `SetConditionsReady`, returns an error whose text contains the
text of `e`, returns `e` itself when the updater call succeeds and `e` wrapped
with the error of the updater when it fails, and leaves the object and the
world as that `SetConditionsErrored` call left them; with the updater of
`internal/conditions` the object is left with Errored True, reason
"ModuleFailed" and the text of `e` as message, and Ready False. When
`ReconcileModule` succeeds and `ReconcileNodeMetrics` fails with `e`, the same
holds with reason "NodeMetricsFailed". -/
theorem C5_child_failure_sets_errored {σ : Type} (r : controllers.Reconciler σ)
    (req : controllers.Request) (w w1 w2 w4 : σ) (dc dc2 dc4 : DeviceConfig)
    (hget : r.Get req.NamespacedName w = (.ok dc, w1))
    (hlive : IsZero dc.DeletionTimestamp = true)
    (hcheck : r.nsv.CheckDeviceConfigForConflictingNodeSelector dc w1 = (none, dc2, w2))
    (hfin : r.fu.ContainsDeletionFinalizer dc2 w2 = (true, dc4, w4) ∨
      ∃ dc3 w3, r.fu.ContainsDeletionFinalizer dc2 w2 = (false, dc3, w3) ∧
        r.fu.AddDeletionFinalizer dc3 w3 = (none, dc4, w4)) :
    (∀ e dc5 w5, r.mr.ReconcileModule dc4 w4 = (some e, dc5, w5) →
      (r.Reconcile req w).calls.filter (fun c => c.method == "SetConditionsErrored") =
        [.SetConditionsErrored dc5 "ModuleFailed" e.Error] ∧
      (r.Reconcile req w).calls.filter (fun c => c.method == "SetConditionsReady") = [] ∧
      ((r.cu.SetConditionsErrored dc5 "ModuleFailed" e.Error w5).1 = none →
        (r.Reconcile req w).err = some e) ∧
      (∃ err, (r.Reconcile req w).err = some err ∧ Contains err.Error e.Error) ∧
      (∀ cerr, (r.cu.SetConditionsErrored dc5 "ModuleFailed" e.Error w5).1 = some cerr →
        (r.Reconcile req w).err = some (.wrap (e.Error ++ ": " ++ cerr.Error) cerr)) ∧
      (r.Reconcile req w).cr = (r.cu.SetConditionsErrored dc5 "ModuleFailed" e.Error w5).2.1 ∧
      (r.Reconcile req w).world = (r.cu.SetConditionsErrored dc5 "ModuleFailed" e.Error w5).2.2 ∧
      (∀ u : conditions.updater σ, r.cu = conditions.NewUpdater u →
        IsStatusConditionTrue (r.Reconcile req w).cr.Status.Conditions conditions.Errored = true ∧
        IsStatusConditionFalse (r.Reconcile req w).cr.Status.Conditions conditions.Ready = true ∧
        ∃ c, FindStatusCondition (r.Reconcile req w).cr.Status.Conditions conditions.Errored =
            some c ∧ c.Reason = "ModuleFailed" ∧ c.Message = e.Error)) ∧
    (∀ dc5 w5 e dc6 w6, r.mr.ReconcileModule dc4 w4 = (none, dc5, w5) →
      r.nmr.ReconcileNodeMetrics dc5 w5 = (some e, dc6, w6) →
      (r.Reconcile req w).calls.filter (fun c => c.method == "SetConditionsErrored") =
        [.SetConditionsErrored dc6 "NodeMetricsFailed" e.Error] ∧
      (r.Reconcile req w).calls.filter (fun c => c.method == "SetConditionsReady") = [] ∧
      ((r.cu.SetConditionsErrored dc6 "NodeMetricsFailed" e.Error w6).1 = none →
        (r.Reconcile req w).err = some e) ∧
      (∃ err, (r.Reconcile req w).err = some err ∧ Contains err.Error e.Error) ∧
      (∀ cerr, (r.cu.SetConditionsErrored dc6 "NodeMetricsFailed" e.Error w6).1 = some cerr →
        (r.Reconcile req w).err = some (.wrap (e.Error ++ ": " ++ cerr.Error) cerr)) ∧
      (r.Reconcile req w).cr =
        (r.cu.SetConditionsErrored dc6 "NodeMetricsFailed" e.Error w6).2.1 ∧
      (r.Reconcile req w).world =
        (r.cu.SetConditionsErrored dc6 "NodeMetricsFailed" e.Error w6).2.2 ∧
      (∀ u : conditions.updater σ, r.cu = conditions.NewUpdater u →
        IsStatusConditionTrue (r.Reconcile req w).cr.Status.Conditions conditions.Errored = true ∧
        IsStatusConditionFalse (r.Reconcile req w).cr.Status.Conditions conditions.Ready = true ∧
        ∃ c, FindStatusCondition (r.Reconcile req w).cr.Status.Conditions conditions.Errored =
            some c ∧ c.Reason = "NodeMetricsFailed" ∧ c.Message = e.Error)) := by
  obtain ⟨calls2, hcalls2, hrun⟩ :=
    reconcile_after_finalizer r req w w1 w2 w4 dc dc2 dc4 hget hlive hcheck hfin
  have hf1 : calls2.filter (fun c => c.method == "SetConditionsErrored") = [] := by
    rw [List.filter_eq_nil_iff]
    intro c hc
    simpa using (hcalls2 c hc).1
  have hf2 : calls2.filter (fun c => c.method == "SetConditionsReady") = [] := by
    rw [List.filter_eq_nil_iff]
    intro c hc
    simpa using (hcalls2 c hc).2
  constructor
  · intro e dc5 w5 hmod
    rw [hrun, hmod]
    simp only [List.filter_append, hf1, hf2, List.nil_append]
    refine ⟨by simp [controllers.Call.method, conditions.ReasonModuleFailed],
      by simp [controllers.Call.method], ?_, ?_, ?_, rfl, rfl, ?_⟩
    · intro hnone
      have hnone2 : (r.cu.SetConditionsErrored dc5 conditions.ReasonModuleFailed e.Error w5).1 =
          none := hnone
      rw [hnone2]
    · cases hc : (r.cu.SetConditionsErrored dc5 conditions.ReasonModuleFailed e.Error w5).1 with
      | none => exact ⟨e, rfl, contains_child_error e none e rfl⟩
      | some cerr => exact ⟨_, rfl, contains_child_error e (some cerr) _ rfl⟩
    · intro cerr hsome
      have hsome2 : (r.cu.SetConditionsErrored dc5 conditions.ReasonModuleFailed e.Error w5).1 =
          some cerr := hsome
      rw [hsome2]
    · intro u hu
      rw [hu]
      exact errored_after_newUpdater u dc5 conditions.ReasonModuleFailed e.Error w5
  · intro dc5 w5 e dc6 w6 hmod hnm
    rw [hrun, hmod]
    simp only [hnm, List.filter_append, hf1, hf2, List.nil_append]
    refine ⟨by simp [controllers.Call.method, conditions.ReasonNodeMetricsFailed],
      by simp [controllers.Call.method], ?_, ?_, ?_, rfl, rfl, ?_⟩
    · intro hnone
      have hnone2 :
          (r.cu.SetConditionsErrored dc6 conditions.ReasonNodeMetricsFailed e.Error w6).1 =
            none := hnone
      rw [hnone2]
    · cases hc :
          (r.cu.SetConditionsErrored dc6 conditions.ReasonNodeMetricsFailed e.Error w6).1 with
      | none => exact ⟨e, rfl, contains_child_error e none e rfl⟩
      | some cerr => exact ⟨_, rfl, contains_child_error e (some cerr) _ rfl⟩
    · intro cerr hsome
      have hsome2 :
          (r.cu.SetConditionsErrored dc6 conditions.ReasonNodeMetricsFailed e.Error w6).1 =
            some cerr := hsome
      rw [hsome2]
    · intro u hu
      rw [hu]
      exact errored_after_newUpdater u dc6 conditions.ReasonNodeMetricsFailed e.Error w6

/-- C5 at the scripted reconciler of the test "a reconcile Module error
occurs": the pass returns the error "some-error" of `ReconcileModule`. -/
theorem C5_child_failure_sets_errored_witness :
    ((fake.scripted
        { Get := .ok fake.dcDefault,
          ReconcileModule := some (errorsNew "some-error") }).Reconcile fake.req ()).err =
      some (errorsNew "some-error") :=
  ((C5_child_failure_sets_errored
    (fake.scripted { Get := .ok fake.dcDefault, ReconcileModule := some (errorsNew "some-error") })
    fake.req () () () () fake.dcDefault fake.dcDefault fake.dcDefault rfl (by decide) rfl
    (Or.inr ⟨fake.dcDefault, (), rfl, rfl⟩)).1
    (errorsNew "some-error") fake.dcDefault () rfl).2.2.1 rfl

/-- The claim C4 as stated fails: in the in-memory cluster `overlapping` the
object "test" exists and is not marked for deletion, `Reconcile` composed with
the validator and the conditions updater of the repository returns no error,
and afterwards the object has no Ready condition with status True (its
condition list is still empty), in memory and in the cluster. -/
theorem C4_counterexample :
    (fake.onCluster.Get fake.req.NamespacedName fake.overlapping).1.toOption =
      some fake.dcDefault ∧
    IsZero fake.dcDefault.DeletionTimestamp = true ∧
    (fake.onCluster.Reconcile fake.req fake.overlapping).err = none ∧
    IsStatusConditionTrue (fake.onCluster.Reconcile fake.req fake.overlapping).cr.Status.Conditions
      conditions.Ready = false ∧
    (fake.onCluster.Reconcile fake.req fake.overlapping).cr.Status.Conditions = [] ∧
    (fake.onCluster.Reconcile fake.req fake.overlapping).world = fake.overlapping := by
  refine ⟨by decide, by decide, ?_, ?_, ?_, ?_⟩ <;> rfl

/-- C4, amended: for a DeviceConfig that exists, is not marked for deletion and
passes the conflict check, if `Reconcile` composed with the conditions updater
of the repository returns no error, then afterwards the Ready condition of the
object is True and its Errored condition is False, and the status update that
stored that object returned nil. -/
theorem C4_successful_pass_sets_ready {σ : Type} (r : controllers.Reconciler σ)
    (u : conditions.updater σ) (req : controllers.Request) (w w1 w2 : σ) (dc dc2 : DeviceConfig)
    (hget : r.Get req.NamespacedName w = (.ok dc, w1))
    (hlive : IsZero dc.DeletionTimestamp = true)
    (hcheck : r.nsv.CheckDeviceConfigForConflictingNodeSelector dc w1 = (none, dc2, w2))
    (hcu : r.cu = conditions.NewUpdater u)
    (herr : (r.Reconcile req w).err = none) :
    IsStatusConditionTrue (r.Reconcile req w).cr.Status.Conditions conditions.Ready = true ∧
    IsStatusConditionFalse (r.Reconcile req w).cr.Status.Conditions conditions.Errored = true ∧
    ∃ w7, u.StatusUpdate (r.Reconcile req w).cr w7 = (none, (r.Reconcile req w).world) := by
  have hfin : ∃ dc4 w4, r.fu.ContainsDeletionFinalizer dc2 w2 = (true, dc4, w4) ∨
      ∃ dc3 w3, r.fu.ContainsDeletionFinalizer dc2 w2 = (false, dc3, w3) ∧
        r.fu.AddDeletionFinalizer dc3 w3 = (none, dc4, w4) := by
    rcases hcont : r.fu.ContainsDeletionFinalizer dc2 w2 with ⟨_ | _, dc3, w3⟩
    · rcases hadd : r.fu.AddDeletionFinalizer dc3 w3 with ⟨_ | e, dc4, w4⟩
      · exact ⟨dc4, w4, Or.inr ⟨dc3, w3, rfl, hadd⟩⟩
      · exfalso
        unfold controllers.Reconciler.Reconcile at herr
        simp [hget, hlive, hcheck, hcont, hadd] at herr
    · exact ⟨dc3, w3, Or.inl rfl⟩
  obtain ⟨dc4, w4, hfin⟩ := hfin
  obtain ⟨calls2, -, hrun⟩ :=
    reconcile_after_finalizer r req w w1 w2 w4 dc dc2 dc4 hget hlive hcheck hfin
  rw [hrun] at herr ⊢
  rcases hmod : r.mr.ReconcileModule dc4 w4 with ⟨_ | e, dc5, w5⟩
  · rw [hmod] at herr
    rcases hnm : r.nmr.ReconcileNodeMetrics dc5 w5 with ⟨_ | e, dc6, w6⟩
    · simp only [hnm] at herr ⊢
      rw [hcu] at herr ⊢
      obtain ⟨⟨rd, hr, hrs, -⟩, ⟨er, he, hes, -⟩⟩ :=
        readyConditions_find
          (u.Now (r.RecorderEvent dc6 controllers.EventTypeNormal "Reconciled"
            ("Succesfully reconciled DeviceConfig " ++ dc6.Namespace ++ "/" ++ dc6.Name) w6)).1
          (u.Now (u.Now (r.RecorderEvent dc6 controllers.EventTypeNormal "Reconciled"
            ("Succesfully reconciled DeviceConfig " ++ dc6.Namespace ++ "/" ++ dc6.Name)
            w6)).2).1
          dc6.Status.Conditions "Reconciled" "All resources have been successfully reconciled"
      obtain ⟨h1, -, -, h4, -⟩ :=
        exclusive_of_find _ rd er _ _ hr hrs he hes (Or.inl ⟨rfl, rfl⟩)
      refine ⟨by simpa using h1, by simpa using h4, ?_⟩
      refine ⟨(u.Now (u.Now (r.RecorderEvent dc6 controllers.EventTypeNormal "Reconciled"
        ("Succesfully reconciled DeviceConfig " ++ dc6.Namespace ++ "/" ++ dc6.Name)
        w6)).2).2, ?_⟩
      have h := herr
      simp only [conditions.NewUpdater, conditions.updater.SetConditionsReady] at h ⊢
      exact Prod.ext h rfl
    · exfalso
      simp only [hnm] at herr
      split at herr <;> simp at herr
  · exfalso
    rw [hmod] at herr
    simp only at herr
    split at herr <;> simp at herr

/-- C4, amended, at the in-memory cluster `partitioned`: the pass on the
object "zone-a" returns no error and leaves Ready True. -/
theorem C4_successful_pass_sets_ready_witness :
    IsStatusConditionTrue
      (fake.onCluster.Reconcile { NamespacedName := { Name := "zone-a" } }
        fake.partitioned).cr.Status.Conditions conditions.Ready = true :=
  (C4_successful_pass_sets_ready fake.onCluster
    { StatusUpdate := fun cr w =>
        (none, { w with DeviceConfigs := w.DeviceConfigs.map (fun d =>
          if d.Name == cr.Name && d.Namespace == cr.Namespace then
            { d with Status := cr.Status } else d) })
      Now := fun w => (1, w) }
    { NamespacedName := { Name := "zone-a" } } fake.partitioned fake.partitioned fake.partitioned
    fake.dcZoneA fake.dcZoneA rfl (by decide) rfl rfl rfl).1

/-- C7, as the code behaves: no pass of `Reconcile` ever calls
`DeleteNodeMetrics`, `DeleteNodeMetricsDaemonSet` or `DeleteNodeMetricsService`.
A successful pass on the live object "test" calls `ReconcileNodeMetrics`, which
creates the node-metrics DaemonSet and Service of that owner; the pass on the
same object marked for deletion, with the finalizer present, calls
`DeleteModule` and then `RemoveDeletionFinalizer` and returns nil, so the
finalizer is removed without a delete call for those two children. -/
theorem C7_deletion_leaves_node_metrics_children {σ : Type} (r : controllers.Reconciler σ)
    (req : controllers.Request) (w : σ) :
    (r.Reconcile req w).calls.all (fun c =>
      !(["DeleteNodeMetrics", "DeleteNodeMetricsDaemonSet", "DeleteNodeMetricsService"].contains
        c.method)) = true ∧
    ((fake.scripted { Get := .ok fake.dcDefault }).Reconcile fake.req ()).err = none ∧
    controllers.Call.ReconcileNodeMetrics fake.dcDefault ∈
      ((fake.scripted { Get := .ok fake.dcDefault }).Reconcile fake.req ()).calls ∧
    ((fake.scripted { Get := .ok fake.dcDeleted, ContainsFinalizer := true }).Reconcile
        fake.req ()).calls =
      [.Get fake.req.NamespacedName, .ReconciliationFailedSet "test" 0,
        .ContainsDeletionFinalizer fake.dcDeleted, .DeleteModule fake.dcDeleted,
        .RemoveDeletionFinalizer fake.dcDeleted] ∧
    ((fake.scripted { Get := .ok fake.dcDeleted, ContainsFinalizer := true }).Reconcile
        fake.req ()).err = none := by
  refine ⟨?_, rfl, by decide, rfl, rfl⟩
  rcases hget : r.Get req.NamespacedName w with ⟨e | dc, w1⟩
  · by_cases hnf : IsNotFound e = true <;>
      simp [controllers.Reconciler.Reconcile, hget, hnf, controllers.Call.method]
  · by_cases hz : IsZero dc.DeletionTimestamp = true
    · rcases hcheck : r.nsv.CheckDeviceConfigForConflictingNodeSelector dc w1 with
        ⟨_ | e, dc2, w2⟩
      · rcases hcont : r.fu.ContainsDeletionFinalizer dc2 w2 with ⟨_ | _, dc3, w3⟩
        · rcases hadd : r.fu.AddDeletionFinalizer dc3 w3 with ⟨_ | e, dc4, w4⟩
          · rcases hmod : r.mr.ReconcileModule dc4 w4 with ⟨_ | e, dc5, w5⟩
            · rcases hnm : r.nmr.ReconcileNodeMetrics dc5 w5 with ⟨_ | e, dc6, w6⟩ <;>
                simp [controllers.Reconciler.Reconcile, hget, hz, hcheck, hcont, hadd, hmod, hnm,
                  controllers.Call.method]
            · simp [controllers.Reconciler.Reconcile, hget, hz, hcheck, hcont, hadd, hmod,
                controllers.Call.method]
          · simp [controllers.Reconciler.Reconcile, hget, hz, hcheck, hcont, hadd,
              controllers.Call.method]
        · rcases hmod : r.mr.ReconcileModule dc3 w3 with ⟨_ | e, dc5, w5⟩
          · rcases hnm : r.nmr.ReconcileNodeMetrics dc5 w5 with ⟨_ | e, dc6, w6⟩ <;>
              simp [controllers.Reconciler.Reconcile, hget, hz, hcheck, hcont, hmod, hnm,
                controllers.Call.method]
          · simp [controllers.Reconciler.Reconcile, hget, hz, hcheck, hcont, hmod,
              controllers.Call.method]
      · simp [controllers.Reconciler.Reconcile, hget, hz, hcheck, controllers.Call.method]
    · rcases hcont : r.fu.ContainsDeletionFinalizer dc w1 with ⟨_ | _, dc2, w2⟩
      · simp [controllers.Reconciler.Reconcile, hget, hz, hcont, controllers.Call.method]
      · rcases hdm : r.mr.DeleteModule dc2 w2 with ⟨_ | e, dc3, w3⟩
        · rcases hrm : r.fu.RemoveDeletionFinalizer dc3 w3 with ⟨_ | e, dc4, w4⟩ <;>
            simp [controllers.Reconciler.Reconcile,
              controllers.Reconciler.deleteDeviceConfigResources, hget, hz, hcont, hdm, hrm,
              controllers.Call.method]
        · simp [controllers.Reconciler.Reconcile,
            controllers.Reconciler.deleteDeviceConfigResources, hget, hz, hcont, hdm,
            controllers.Call.method]

/-! ## Theorems: the settings loader -/

/-- The error of `Load` depends on the environment only through which of the
three variables are set. -/
theorem load_error_congr (r r1 : settings.ControllerSettings) (env env1 : settings.Environment)
    (h1 : (env.lookup "DEVICE_PLUGIN_IMAGE").isSome = (env1.lookup "DEVICE_PLUGIN_IMAGE").isSome)
    (h2 : (env.lookup "DRIVER_HABANA_IMAGE_BASENAME").isSome =
      (env1.lookup "DRIVER_HABANA_IMAGE_BASENAME").isSome)
    (h3 : (env.lookup "NODE_METRICS_IMAGE").isSome = (env1.lookup "NODE_METRICS_IMAGE").isSome) :
    (r.Load env).1 = (r1.Load env1).1 := by
  unfold settings.ControllerSettings.Load settings.LookupEnv
  simp only [settings.DevicePluginImageEnvVar, settings.DriverHabanaImageBasenameEnvVar,
    settings.NodeMetricsImageEnvVar]
  cases a1 : env.lookup "DEVICE_PLUGIN_IMAGE" <;>
    cases a2 : env.lookup "DRIVER_HABANA_IMAGE_BASENAME" <;>
      cases a3 : env.lookup "NODE_METRICS_IMAGE" <;>
        cases b1 : env1.lookup "DEVICE_PLUGIN_IMAGE" <;>
          cases b2 : env1.lookup "DRIVER_HABANA_IMAGE_BASENAME" <;>
            cases b3 : env1.lookup "NODE_METRICS_IMAGE" <;>
              simp [a1, a2, a3, b1, b2, b3] at h1 h2 h3 ⊢

/-- The settings that `Load` leaves hold, field by field, the value of the
variable when it is set and the empty string when it is not. -/
theorem load_settings (r : settings.ControllerSettings) (env : settings.Environment) :
    (r.Load env).2 =
      { DevicePluginImage := (env.lookup "DEVICE_PLUGIN_IMAGE").getD ""
        DriverHabanaImageBasename := (env.lookup "DRIVER_HABANA_IMAGE_BASENAME").getD ""
        NodeMetricsImage := (env.lookup "NODE_METRICS_IMAGE").getD "" } := by
  unfold settings.ControllerSettings.Load settings.LookupEnv
  simp only [settings.DevicePluginImageEnvVar, settings.DriverHabanaImageBasenameEnvVar,
    settings.NodeMetricsImageEnvVar]
  cases a1 : env.lookup "DEVICE_PLUGIN_IMAGE" <;>
    cases a2 : env.lookup "DRIVER_HABANA_IMAGE_BASENAME" <;>
      cases a3 : env.lookup "NODE_METRICS_IMAGE" <;> simp

/-- C19: `Load` returns nil exactly when the three variables
DEVICE_PLUGIN_IMAGE, DRIVER_HABANA_IMAGE_BASENAME and NODE_METRICS_IMAGE are
all set in the environment, and then the three fields of the settings hold the
values of the respective variables. -/
theorem C19_load_nil_iff_all_present (r : settings.ControllerSettings)
    (env : settings.Environment) :
    ((r.Load env).1 = none ↔
      ((env.lookup "DEVICE_PLUGIN_IMAGE").isSome = true ∧
        (env.lookup "DRIVER_HABANA_IMAGE_BASENAME").isSome = true ∧
        (env.lookup "NODE_METRICS_IMAGE").isSome = true)) ∧
    ((r.Load env).1 = none →
      env.lookup "DEVICE_PLUGIN_IMAGE" = some (r.Load env).2.DevicePluginImage ∧
      env.lookup "DRIVER_HABANA_IMAGE_BASENAME" = some (r.Load env).2.DriverHabanaImageBasename ∧
      env.lookup "NODE_METRICS_IMAGE" = some (r.Load env).2.NodeMetricsImage) := by
  have hiff : (r.Load env).1 = none ↔
      ((env.lookup "DEVICE_PLUGIN_IMAGE").isSome = true ∧
        (env.lookup "DRIVER_HABANA_IMAGE_BASENAME").isSome = true ∧
        (env.lookup "NODE_METRICS_IMAGE").isSome = true) := by
    unfold settings.ControllerSettings.Load settings.LookupEnv
    simp only [settings.DevicePluginImageEnvVar, settings.DriverHabanaImageBasenameEnvVar,
      settings.NodeMetricsImageEnvVar]
    cases a1 : env.lookup "DEVICE_PLUGIN_IMAGE" <;>
      cases a2 : env.lookup "DRIVER_HABANA_IMAGE_BASENAME" <;>
        cases a3 : env.lookup "NODE_METRICS_IMAGE" <;> simp
  refine ⟨hiff, fun hnil => ?_⟩
  obtain ⟨p1, p2, p3⟩ := hiff.1 hnil
  rw [load_settings]
  obtain ⟨v1, e1⟩ := Option.isSome_iff_exists.1 p1
  obtain ⟨v2, e2⟩ := Option.isSome_iff_exists.1 p2
  obtain ⟨v3, e3⟩ := Option.isSome_iff_exists.1 p3
  simp [e1, e2, e3]

set_option maxRecDepth 100000 in
/-- C20: when at least one of the three variables is not set, `Load` returns
one error, and for each of the three names the text of that error contains
"NAME: environment variable is not set" exactly when the variable NAME is not
set. -/
theorem C20_load_reports_every_missing (r : settings.ControllerSettings)
    (env : settings.Environment)
    (hmissing : env.lookup "DEVICE_PLUGIN_IMAGE" = none ∨
      env.lookup "DRIVER_HABANA_IMAGE_BASENAME" = none ∨
      env.lookup "NODE_METRICS_IMAGE" = none) :
    ∃ err, (r.Load env).1 = some err ∧
      (Contains err.Error "DEVICE_PLUGIN_IMAGE: environment variable is not set" ↔
        env.lookup "DEVICE_PLUGIN_IMAGE" = none) ∧
      (Contains err.Error "DRIVER_HABANA_IMAGE_BASENAME: environment variable is not set" ↔
        env.lookup "DRIVER_HABANA_IMAGE_BASENAME" = none) ∧
      (Contains err.Error "NODE_METRICS_IMAGE: environment variable is not set" ↔
        env.lookup "NODE_METRICS_IMAGE" = none) := by
  cases a1 : env.lookup "DEVICE_PLUGIN_IMAGE" <;>
    cases a2 : env.lookup "DRIVER_HABANA_IMAGE_BASENAME" <;>
      cases a3 : env.lookup "NODE_METRICS_IMAGE"
  · rw [load_error_congr r {} env []
      (by simp [a1]) (by simp [a2]) (by simp [a3])]
    refine ⟨.base
      "the following errors were detected: [DEVICE_PLUGIN_IMAGE: environment variable is not set DRIVER_HABANA_IMAGE_BASENAME: environment variable is not set NODE_METRICS_IMAGE: environment variable is not set]"
      false, by decide, ?_, ?_, ?_⟩ <;>
    simp only [GoError.Error, reduceCtorEq, iff_false, iff_true] <;> decide
  · rw [load_error_congr r {} env [("NODE_METRICS_IMAGE", "")]
      (by simp [a1]) (by simp [a2]) (by simp [a3])]
    refine ⟨.base
      "the following errors were detected: [DEVICE_PLUGIN_IMAGE: environment variable is not set DRIVER_HABANA_IMAGE_BASENAME: environment variable is not set]"
      false, by decide, ?_, ?_, ?_⟩ <;>
    simp only [GoError.Error, reduceCtorEq, iff_false, iff_true] <;> decide
  · rw [load_error_congr r {} env [("DRIVER_HABANA_IMAGE_BASENAME", "")]
      (by simp [a1]) (by simp [a2]) (by simp [a3])]
    refine ⟨.base
      "the following errors were detected: [DEVICE_PLUGIN_IMAGE: environment variable is not set NODE_METRICS_IMAGE: environment variable is not set]"
      false, by decide, ?_, ?_, ?_⟩ <;>
    simp only [GoError.Error, reduceCtorEq, iff_false, iff_true] <;> decide
  · rw [load_error_congr r {} env [("DRIVER_HABANA_IMAGE_BASENAME", ""), ("NODE_METRICS_IMAGE", "")]
      (by simp [a1]) (by simp [a2]) (by simp [a3])]
    refine ⟨.base
      "the following errors were detected: [DEVICE_PLUGIN_IMAGE: environment variable is not set]"
      false, by decide, ?_, ?_, ?_⟩ <;>
    simp only [GoError.Error, reduceCtorEq, iff_false, iff_true] <;> decide
  · rw [load_error_congr r {} env [("DEVICE_PLUGIN_IMAGE", "")]
      (by simp [a1]) (by simp [a2]) (by simp [a3])]
    refine ⟨.base
      "the following errors were detected: [DRIVER_HABANA_IMAGE_BASENAME: environment variable is not set NODE_METRICS_IMAGE: environment variable is not set]"
      false, by decide, ?_, ?_, ?_⟩ <;>
    simp only [GoError.Error, reduceCtorEq, iff_false, iff_true] <;> decide
  · rw [load_error_congr r {} env [("DEVICE_PLUGIN_IMAGE", ""), ("NODE_METRICS_IMAGE", "")]
      (by simp [a1]) (by simp [a2]) (by simp [a3])]
    refine ⟨.base
      "the following errors were detected: [DRIVER_HABANA_IMAGE_BASENAME: environment variable is not set]"
      false, by decide, ?_, ?_, ?_⟩ <;>
    simp only [GoError.Error, reduceCtorEq, iff_false, iff_true] <;> decide
  · rw [load_error_congr r {} env [("DEVICE_PLUGIN_IMAGE", ""), ("DRIVER_HABANA_IMAGE_BASENAME", "")]
      (by simp [a1]) (by simp [a2]) (by simp [a3])]
    refine ⟨.base
      "the following errors were detected: [NODE_METRICS_IMAGE: environment variable is not set]"
      false, by decide, ?_, ?_, ?_⟩ <;>
    simp only [GoError.Error, reduceCtorEq, iff_false, iff_true] <;> decide
  · simp [a1, a2, a3] at hmissing

/-- C20 at an environment in which only DEVICE_PLUGIN_IMAGE is set: the error
of `Load` names the two other variables and not that one. -/
theorem C20_load_reports_every_missing_witness :
    ∃ err, (({} : settings.ControllerSettings).Load fake.envOnlyDevicePlugin).1 = some err ∧
      ¬ Contains err.Error "DEVICE_PLUGIN_IMAGE: environment variable is not set" ∧
      Contains err.Error "DRIVER_HABANA_IMAGE_BASENAME: environment variable is not set" ∧
      Contains err.Error "NODE_METRICS_IMAGE: environment variable is not set" :=
  (C20_load_reports_every_missing {} fake.envOnlyDevicePlugin (Or.inr (Or.inl rfl))).imp
    (fun _ h => ⟨h.1, fun hc => absurd (h.2.1.1 hc) (by decide), h.2.2.1.2 rfl, h.2.2.2.2 rfl⟩)

/-! ## Theorems: the fetch and the fail-fast order of the reconcile pass -/

/-- C12: when the fetch of the DeviceConfig fails, `Reconcile` calls none of
the finalizer updater, the validator, the child reconcilers, the conditions
updater and the event recorder: for a NotFound error it writes the gauge and
returns a zero result and a nil error, for any other error it returns a zero
result and that error. -/
theorem C12_fetch_failure_stops {σ : Type} (r : controllers.Reconciler σ)
    (req : controllers.Request) (w w1 : σ) (e : GoError)
    (hget : r.Get req.NamespacedName w = (.error e, w1)) :
    (IsNotFound e = true →
      (r.Reconcile req w).result = {} ∧ (r.Reconcile req w).err = none ∧
      (r.Reconcile req w).calls =
        [.Get req.NamespacedName, .ReconciliationFailedSet req.NamespacedName.Name 0]) ∧
    (IsNotFound e = false →
      (r.Reconcile req w).result = {} ∧ (r.Reconcile req w).err = some e ∧
      (r.Reconcile req w).calls = [.Get req.NamespacedName]) ∧
    (r.Reconcile req w).calls.filter
      (fun c => c.onCollaborator || c.method == "Event") = [] ∧
    (r.Reconcile req w).world = w1 := by
  by_cases hnf : IsNotFound e = true
  · simp [controllers.Reconciler.Reconcile, hget, hnf, controllers.Call.onCollaborator,
      controllers.Call.method]
  · simp [controllers.Reconciler.Reconcile, hget, hnf, controllers.Call.onCollaborator,
      controllers.Call.method]

/-- C12 at the scripted reconciler whose fetch reports NotFound: a nil error
after the fetch and the write of the gauge. -/
theorem C12_fetch_failure_stops_witness :
    ((fake.scripted { Get := .error (.base "not found" true) }).Reconcile fake.req ()).err =
      none ∧
    ((fake.scripted { Get := .error (.base "not found" true) }).Reconcile fake.req ()).calls =
      [.Get fake.req.NamespacedName, .ReconciliationFailedSet fake.req.NamespacedName.Name 0] :=
  ⟨((C12_fetch_failure_stops (fake.scripted { Get := .error (.base "not found" true) })
      fake.req () () (.base "not found" true) rfl).1 rfl).2.1,
    ((C12_fetch_failure_stops (fake.scripted { Get := .error (.base "not found" true) })
      fake.req () () (.base "not found" true) rfl).1 rfl).2.2⟩

/-! ## Theorems: the selector that the validator lists with -/

/-- C18, as the code behaves: for an instance whose node selector is a present
map with zero entries the validator lists the nodes with the selector of that
map, which has no requirement and matches every node, and leaves the selector
of the object as it is; only a nil selector is replaced by the default one. In
the in-memory cluster `mixed` the instance "empty" is therefore listed with
both nodes, the node without a device included, where the default selector
lists the device node alone, and the check reports a conflict with the
instance of zone c. -/
theorem C18_empty_selector_matches_every_node {σ : Type} (c : controllers.ListClient σ)
    (cr : DeviceConfig) (w : σ) :
    ((controllers.nodeSelectorValidator.mk c).getDeviceConfigSelectedNodes
        { cr with Spec := { cr.Spec with NodeSelector := some [] } } w).1 =
      (c.ListNodes [] w).1 ∧
    ((controllers.nodeSelectorValidator.mk c).getDeviceConfigSelectedNodes
        { cr with Spec := { cr.Spec with NodeSelector := none } } w).1 =
      (c.ListNodes [(DefaultNodeSelectorKey, "true")] w).1 ∧
    ((controllers.nodeSelectorValidator.mk fake.listClient).getDeviceConfigSelectedNodes
        fake.dcEmptySelector fake.mixed).1.toOption = some [fake.node1, fake.node3] ∧
    (fake.listClient.ListNodes [(DefaultNodeSelectorKey, "true")] fake.mixed).1.toOption =
      some [fake.node1] ∧
    ((controllers.nodeSelectorValidator.mk
        fake.listClient).CheckDeviceConfigForConflictingNodeSelector
      fake.dcEmptySelector fake.mixed).1 =
      some (.base "conflicting DeviceConfig NodeSelectors found for resource: empty" false) := by
  refine ⟨?_, ?_, by decide, by decide, by decide⟩
  · simp [controllers.nodeSelectorValidator.getDeviceConfigSelectedNodes, AsSelector]
  · simp [controllers.nodeSelectorValidator.getDeviceConfigSelectedNodes, AsSelector,
      DeviceConfig.GetNodeSelector]

/-! ## Theorems: the desired state of the children -/

/-- C16: given a nil object, `SetDesiredModule`, `SetDesiredNodeMetricsDaemonSet`,
`SetDesiredNodeLabelerDaemonSet` and `SetDesiredNodeMetricsService` return the
errors "module cannot be nil", "daemonset cannot be nil", "daemonset cannot be
nil" and "service cannot be nil", whatever the owner, the settings and the
scheme are: the result is the same for any two owners and settings. -/
theorem C16_set_desired_rejects_nil {σ : Type} (mr : module.moduleReconciler σ)
    (nmr : metrics.NodeMetricsReconciler σ) (nlr : labeler.NodeLabelerReconciler σ)
    (g g1 : Globals) (cr cr1 : DeviceConfig) :
    (mr.SetDesiredModule g none cr = (some (errorsNew "module cannot be nil"), none) ∧
      Contains (errorsNew "module cannot be nil").Error "module cannot be nil" ∧
      mr.SetDesiredModule g none cr = mr.SetDesiredModule g1 none cr1) ∧
    (nmr.SetDesiredNodeMetricsDaemonSet g none cr =
        (some (errorsNew "daemonset cannot be nil"), none) ∧
      Contains (errorsNew "daemonset cannot be nil").Error "daemonset cannot be nil" ∧
      nmr.SetDesiredNodeMetricsDaemonSet g none cr =
        nmr.SetDesiredNodeMetricsDaemonSet g1 none cr1) ∧
    (nlr.SetDesiredNodeLabelerDaemonSet g none cr =
        (some (errorsNew "daemonset cannot be nil"), none) ∧
      nlr.SetDesiredNodeLabelerDaemonSet g none cr =
        nlr.SetDesiredNodeLabelerDaemonSet g1 none cr1) ∧
    (nmr.SetDesiredNodeMetricsService g none cr =
        (some (errorsNew "service cannot be nil"), none) ∧
      Contains (errorsNew "service cannot be nil").Error "service cannot be nil" ∧
      nmr.SetDesiredNodeMetricsService g none cr =
        nmr.SetDesiredNodeMetricsService g1 none cr1) := by
  refine ⟨⟨rfl, ?_, rfl⟩, ⟨rfl, ?_, rfl⟩, ⟨rfl, rfl⟩, ⟨rfl, ?_, rfl⟩⟩ <;>
    exact ⟨[], [], by simp [errorsNew, GoError.Error]⟩

/-- The node selector that `SetDesiredNodeMetricsDaemonSet` leaves in the pod
template of a non-nil DaemonSet, whether or not setting the owner reference
succeeds afterwards. -/
theorem setDesiredNodeMetricsDaemonSet_nodeSelector {σ : Type}
    (r : metrics.NodeMetricsReconciler σ) (g : Globals) (ds : DaemonSet) (cr : DeviceConfig) :
    ∃ ds1, (r.SetDesiredNodeMetricsDaemonSet g (some ds) cr).2 = some ds1 ∧
      ds1.Spec.Template.Spec.NodeSelector = some (cr.GetNodeSelectorFor "gaudi") := by
  unfold metrics.NodeMetricsReconciler.SetDesiredNodeMetricsDaemonSet
  simp only
  split <;> exact ⟨_, rfl, rfl⟩

/-- C17: for every owner and non-nil DaemonSet, the pod node selector that
`SetDesiredNodeMetricsDaemonSet` produces is the effective node selector of the
owner, entry for entry: for an owner without selector it is the default
device-presence label, whose key is
"feature.node.kubernetes.io/pci-1da3.present"; for an owner with an explicit
selector that has an entry it holds exactly the entries of that selector, and
so not the default key unless the selector names it; for the selector
"label" = "test" it is that one entry. -/
theorem C17_node_selector_of_node_metrics {σ : Type} (r : metrics.NodeMetricsReconciler σ)
    (g : Globals) (ds : DaemonSet) (cr : DeviceConfig) :
    ∃ ds1, (r.SetDesiredNodeMetricsDaemonSet g (some ds) cr).2 = some ds1 ∧
      ds1.Spec.Template.Spec.NodeSelector = some (cr.GetNodeSelectorFor "gaudi") ∧
      (∀ sel, ds1.Spec.Template.Spec.NodeSelector = some sel →
        (cr.Spec.NodeSelector = none →
          "feature.node.kubernetes.io/pci-1da3.present" ∈ sel.map Prod.fst) ∧
        (∀ kv rest, cr.Spec.NodeSelector = some (kv :: rest) →
          sel = kv :: rest ∧
          ("feature.node.kubernetes.io/pci-1da3.present" ∉ (kv :: rest).map Prod.fst →
            "feature.node.kubernetes.io/pci-1da3.present" ∉ sel.map Prod.fst)) ∧
        (cr.Spec.NodeSelector = some [("label", "test")] →
          sel = [("label", "test")] ∧
          "feature.node.kubernetes.io/pci-1da3.present" ∉ sel.map Prod.fst)) := by
  obtain ⟨ds1, h1, h2⟩ := setDesiredNodeMetricsDaemonSet_nodeSelector r g ds cr
  refine ⟨ds1, h1, h2, ?_⟩
  intro sel hsel
  rw [h2] at hsel
  simp only [Option.some.injEq] at hsel
  subst hsel
  refine ⟨?_, ?_, ?_⟩
  · intro hnone
    simp [DeviceConfig.GetNodeSelectorFor, DeviceConfig.GetNodeSelector, hnone,
      DefaultNodeSelectorKey]
  · intro kv rest hsome
    have : cr.GetNodeSelectorFor "gaudi" = kv :: rest := by
      simp [DeviceConfig.GetNodeSelectorFor, DeviceConfig.GetNodeSelector, hsome]
    rw [this]
    exact ⟨rfl, fun h => h⟩
  · intro hsome
    have : cr.GetNodeSelectorFor "gaudi" = [("label", "test")] := by
      simp [DeviceConfig.GetNodeSelectorFor, DeviceConfig.GetNodeSelector, hsome]
    rw [this]
    exact ⟨rfl, by decide⟩

/-- An owner reference refers to the same object as itself. -/
theorem referSameObject_self (ref : OwnerReference) : referSameObject ref ref = true := by
  simp [referSameObject]

/-- Upserting a reference a second time changes nothing. -/
theorem upsertOwnerRef_idem (ref : OwnerReference) (owners : List OwnerReference) :
    upsertOwnerRef ref (upsertOwnerRef ref owners) = upsertOwnerRef ref owners := by
  induction owners with
  | nil => simp [upsertOwnerRef, referSameObject_self]
  | cons r rest ih =>
    by_cases h : referSameObject r ref = true
    · simp [upsertOwnerRef, h, referSameObject_self]
    · simp [upsertOwnerRef, h, ih]

/-- After a controller reference passed `validateControllerRef` and was
upserted, it passes `validateControllerRef` again. -/
theorem validateControllerRef_upsert (ref : OwnerReference) (object : ObjectMeta)
    (hc : ref.Controller = some true)
    (h : validateControllerRef ref object = none) :
    validateControllerRef ref
      { object with OwnerReferences := upsertOwnerRef ref object.OwnerReferences } = none := by
  have key : ∀ owners : List OwnerReference,
      (∀ ex, owners.find? (fun r => r.Controller == some true) = some ex →
        referSameObject ex ref = true) →
      ∃ r1, (upsertOwnerRef ref owners).find? (fun r => r.Controller == some true) = some r1 ∧
        referSameObject r1 ref = true := by
    intro owners
    induction owners with
    | nil =>
      intro _
      exact ⟨ref, by simp [upsertOwnerRef, hc], referSameObject_self ref⟩
    | cons r rest ih =>
      intro hex
      by_cases hs : referSameObject r ref = true
      · exact ⟨ref, by simp [upsertOwnerRef, hs, hc], referSameObject_self ref⟩
      · by_cases hp : r.Controller = some true
        · exact absurd (hex r (by simp [hp])) hs
        · have hrest : ∀ ex, rest.find? (fun r => r.Controller == some true) = some ex →
              referSameObject ex ref = true := by
            intro ex hfind
            have hb : (r.Controller == some true) = false := by simpa using hp
            exact hex ex (by rw [List.find?_cons, hb]; exact hfind)
          obtain ⟨r1, hr1, hs1⟩ := ih hrest
          have hb : (r.Controller == some true) = false := by simpa using hp
          refine ⟨r1, ?_, hs1⟩
          simp only [upsertOwnerRef, hs, Bool.false_eq_true, if_false]
          rw [List.find?_cons, hb]
          exact hr1
  have hex : ∀ ex, object.OwnerReferences.find? (fun r => r.Controller == some true) = some ex →
      referSameObject ex ref = true := by
    intro ex hfind
    unfold validateControllerRef GetControllerOf at h
    rw [hfind] at h
    by_contra hne
    simp [hne] at h
  obtain ⟨r1, hr1, hs1⟩ := key object.OwnerReferences hex
  unfold validateControllerRef GetControllerOf
  simp [hr1, hs1]

/-- Setting the controller reference a second time, on the metadata that the
first call produced, succeeds and changes nothing. -/
theorem setControllerReference_idem (owner : DeviceConfig) (meta meta1 : ObjectMeta)
    (scheme : Scheme) (h : SetControllerReference owner meta scheme = .ok meta1) :
    SetControllerReference owner meta1 scheme = .ok meta1 ∧
    meta1.Name = meta.Name ∧ meta1.Namespace = meta.Namespace ∧
    meta1.Labels = meta.Labels ∧ meta1.Annotations = meta.Annotations := by
  unfold SetControllerReference at h
  cases hvo : validateOwner owner meta with
  | some e => simp [hvo] at h
  | none =>
    cases hg : GVKForObject scheme with
    | error e => simp [hvo, hg] at h
    | ok gvk =>
      simp only [hvo, hg] at h
      cases hv : validateControllerRef
          { Group := gvk.Group, Version := gvk.Version, Kind := gvk.Kind, Name := owner.Name
            UID := owner.UID, BlockOwnerDeletion := some true, Controller := some true } meta with
      | some e => simp [hv] at h
      | none =>
        simp only [hv, Except.ok.injEq] at h
        subst h
        have hvo1 : ∀ owners : List OwnerReference,
            validateOwner owner { meta with OwnerReferences := owners } = none := by
          intro owners
          simpa [validateOwner] using hvo
        refine ⟨?_, rfl, rfl, rfl, rfl⟩
        unfold SetControllerReference
        simp only [hvo1, hg]
        rw [validateControllerRef_upsert _ meta rfl hv]
        simp [upsertOwnerRef_idem]

/-- The method `SetDesiredModule` is idempotent where it succeeds. -/
theorem setDesiredModule_idem {σ : Type} (r : module.moduleReconciler σ) (g : Globals)
    (cr : DeviceConfig) (m m1 : Module)
    (h : r.SetDesiredModule g (some m) cr = (none, some m1)) :
    r.SetDesiredModule g (some m1) cr = (none, some m1) := by
  unfold module.moduleReconciler.SetDesiredModule at h ⊢
  simp only at h ⊢
  cases hs : SetControllerReference cr m.ObjectMeta r.scheme with
  | error e => simp [hs] at h
  | ok meta =>
    simp only [hs, Prod.mk.injEq, Option.some.injEq, true_and] at h
    subst h
    simp only [(setControllerReference_idem cr m.ObjectMeta meta r.scheme hs).1]

/-- The method `SetDesiredNodeMetricsDaemonSet` is idempotent where it
succeeds. -/
theorem setDesiredNodeMetricsDaemonSet_idem {σ : Type} (r : metrics.NodeMetricsReconciler σ)
    (g : Globals) (cr : DeviceConfig) (ds ds1 : DaemonSet)
    (h : r.SetDesiredNodeMetricsDaemonSet g (some ds) cr = (none, some ds1)) :
    r.SetDesiredNodeMetricsDaemonSet g (some ds1) cr = (none, some ds1) := by
  unfold metrics.NodeMetricsReconciler.SetDesiredNodeMetricsDaemonSet at h ⊢
  simp only at h ⊢
  cases hs : SetControllerReference cr ds.ObjectMeta r.scheme with
  | error e => simp [hs] at h
  | ok meta =>
    simp only [hs, Prod.mk.injEq, Option.some.injEq, true_and] at h
    subst h
    simp only [(setControllerReference_idem cr ds.ObjectMeta meta r.scheme hs).1]

/-- The method `SetDesiredNodeMetricsService` is idempotent where it
succeeds. -/
theorem setDesiredNodeMetricsService_idem {σ : Type} (r : metrics.NodeMetricsReconciler σ)
    (g : Globals) (cr : DeviceConfig) (s s1 : Service)
    (h : r.SetDesiredNodeMetricsService g (some s) cr = (none, some s1)) :
    r.SetDesiredNodeMetricsService g (some s1) cr = (none, some s1) := by
  unfold metrics.NodeMetricsReconciler.SetDesiredNodeMetricsService at h ⊢
  simp only at h ⊢
  cases hs : SetControllerReference cr
      { s.ObjectMeta with
        Labels := some (metrics.labelsForNodeMetricsDaemonSet g cr)
        Annotations := some [("prometheus.io/scrape", "true")] } r.scheme with
  | error e => simp [hs] at h
  | ok meta =>
    simp only [hs, Prod.mk.injEq, Option.some.injEq, true_and] at h
    subst h
    obtain ⟨hidem, -, -, hl, ha⟩ := setControllerReference_idem cr _ meta r.scheme hs
    have hmeta : ({ meta with
        Labels := some (metrics.labelsForNodeMetricsDaemonSet g cr)
        Annotations := some [("prometheus.io/scrape", "true")] } : ObjectMeta) = meta := by
      cases meta
      simp only at hl ha
      simp [hl, ha]
    simp only [hmeta, hidem]

/-! ## Theorems: the child reconcilers and the cluster client -/

/-- On an object that the cluster does not hold, `CreateOrPatch` mutates the
object it was given and creates it: the calls are the fetch and the create,
and the error is that of the create. -/
theorem createOrPatch_absent {σ α : Type} [KubeObject α] [DecidableEq α] (c : ObjectClient σ α)
    (obj obj1 : α) (f : α → Option GoError × α) (w w1 : σ) (e : GoError)
    (hget : c.Get (ObjectKeyFromObject obj) w = (.error e, w1)) (hnf : IsNotFound e = true)
    (hf : f obj = (none, obj1)) (hkey : ObjectKeyFromObject obj1 = ObjectKeyFromObject obj) :
    (CreateOrPatch c obj f w).calls =
      [.Get (KubeObject.Kind α) (ObjectKeyFromObject obj),
        .Create (KubeObject.Kind α) (ObjectKeyFromObject obj)] ∧
    (CreateOrPatch c obj f w).err = (c.Create obj1 w1).1 ∧
    (CreateOrPatch c obj f w).world = (c.Create obj1 w1).2.2 := by
  unfold CreateOrPatch
  simp only [hget, hnf, mutate, hf, hkey]
  rcases hc : c.Create obj1 w1 with ⟨_ | ce, obj2, w2⟩ <;> simp [hc]

/-- On a stored object that the mutation leaves as it is, `CreateOrPatch`
issues no create and no patch. -/
theorem createOrPatch_unchanged {σ α : Type} [KubeObject α] [DecidableEq α]
    (c : ObjectClient σ α) (obj stored : α) (f : α → Option GoError × α) (w w1 : σ)
    (hget : c.Get (ObjectKeyFromObject obj) w = (.ok stored, w1))
    (hkey : ObjectKeyFromObject stored = ObjectKeyFromObject obj)
    (hf : f stored = (none, stored)) :
    (CreateOrPatch c obj f w).calls =
      [.Get (KubeObject.Kind α) (ObjectKeyFromObject obj)] ∧
    (CreateOrPatch c obj f w).err = none ∧
    (CreateOrPatch c obj f w).world = w1 := by
  unfold CreateOrPatch
  simp [hget, mutate, hf, hkey]

/-- On an object of the namespace of the owner that has no owner reference
yet, with the kind of the owner registered in the scheme, setting the
controller reference succeeds and keeps the name and the namespace. -/
theorem setControllerReference_fresh (owner : DeviceConfig) (meta0 : ObjectMeta)
    (scheme : Scheme) (gvk : GroupVersionKind) (hs : scheme.DeviceConfig = some gvk)
    (hns : meta0.Namespace = owner.Namespace) (hown : meta0.OwnerReferences = []) :
    ∃ meta, SetControllerReference owner meta0 scheme = .ok meta ∧
      meta.Name = meta0.Name ∧ meta.Namespace = owner.Namespace := by
  unfold SetControllerReference
  have hvo : validateOwner owner meta0 = none := by
    unfold validateOwner
    by_cases hn : owner.Namespace = "" <;> simp [hn, hns]
  simp only [hvo, GVKForObject, hs]
  refine ⟨{ meta0 with OwnerReferences := (upsertOwnerRef
    { Group := gvk.Group, Version := gvk.Version, Kind := gvk.Kind, Name := owner.Name
      UID := owner.UID, BlockOwnerDeletion := some true, Controller := some true }
    meta0.OwnerReferences) }, ?_, rfl, hns⟩
  simp [validateControllerRef, GetControllerOf, hown]

/-- When its first fetch fails with an error other than NotFound, `ReconcileModule` returns
that error after that one call. -/
theorem reconcileModule_get_error {σ : Type} (r : module.moduleReconciler σ) (g : Globals) (cr : DeviceConfig)
    (w w1 : σ) (e : GoError)
    (hget : r.client.Modules.Get { Namespace := cr.Namespace, Name := module.GetModuleName cr } w =
      (.error e, w1))
    (hnf : IsNotFound e = false) :
    (r.ReconcileModule g cr w).err = some e ∧
    (r.ReconcileModule g cr w).calls =
      [.Get "Module" { Namespace := cr.Namespace, Name := module.GetModuleName cr }] ∧
    (r.ReconcileModule g cr w).world = w1 := by
  unfold module.moduleReconciler.ReconcileModule
  simp [hget, hnf]

/-- When the cluster does not hold the object and the scheme knows the kind of
the owner, `ReconcileModule` fetches twice (its own fetch and that of `CreateOrPatch`) and
creates the desired object; it returns nil when the create succeeds and an
error that quotes the create error when it fails. -/
theorem reconcileModule_absent {σ : Type} (r : module.moduleReconciler σ) (g : Globals) (cr : DeviceConfig)
    (w w1 w2 : σ) (e1 e2 : GoError) (gvk : GroupVersionKind)
    (hget1 : r.client.Modules.Get { Namespace := cr.Namespace, Name := module.GetModuleName cr } w =
      (.error e1, w1))
    (hnf1 : IsNotFound e1 = true)
    (hget2 : r.client.Modules.Get { Namespace := cr.Namespace, Name := module.GetModuleName cr } w1 =
      (.error e2, w2))
    (hnf2 : IsNotFound e2 = true)
    (hscheme : r.scheme.DeviceConfig = some gvk) :
    ∃ desired : Module,
      r.SetDesiredModule g (some { ObjectMeta := { Name := module.GetModuleName cr, Namespace := cr.Namespace } }) cr =
        (none, some desired) ∧
      (r.ReconcileModule g cr w).calls =
        [.Get "Module" { Namespace := cr.Namespace, Name := module.GetModuleName cr },
          .Get "Module" { Namespace := cr.Namespace, Name := module.GetModuleName cr },
          .Create "Module" { Namespace := cr.Namespace, Name := module.GetModuleName cr }] ∧
      (r.ReconcileModule g cr w).err =
        (match (r.client.Modules.Create desired w2).1 with
          | some ce => some (.base ("could not create or patch Module: " ++ ce.Error) false)
          | none => none) ∧
      (r.ReconcileModule g cr w).world = (r.client.Modules.Create desired w2).2.2 := by
  obtain ⟨meta, hmeta, hname, hns⟩ :=
    setControllerReference_fresh cr { Name := module.GetModuleName cr, Namespace := cr.Namespace } r.scheme gvk hscheme rfl rfl
  have hset : ∃ desired : Module,
      r.SetDesiredModule g (some { ObjectMeta := { Name := module.GetModuleName cr, Namespace := cr.Namespace } }) cr =
        (none, some desired) ∧
      ObjectKeyFromObject desired =
        { Namespace := cr.Namespace, Name := module.GetModuleName cr } := by
    unfold module.moduleReconciler.SetDesiredModule
    simp only [hmeta]
    exact ⟨_, rfl, by simp [ObjectKeyFromObject, KubeObject.GetObjectMeta, hname, hns]⟩
  obtain ⟨desired, hdes, hkey⟩ := hset
  have hmut : r.mutateModule g cr { ObjectMeta := { Name := module.GetModuleName cr, Namespace := cr.Namespace } } =
      (none, desired) := by
    unfold module.moduleReconciler.mutateModule
    rw [hdes]
  have hk0 : ObjectKeyFromObject
      ({ ObjectMeta := { Name := module.GetModuleName cr, Namespace := cr.Namespace } } : Module) =
      { Namespace := cr.Namespace, Name := module.GetModuleName cr } := rfl
  obtain ⟨hcalls, herr, hworld⟩ := createOrPatch_absent r.client.Modules
    ({ ObjectMeta := { Name := module.GetModuleName cr, Namespace := cr.Namespace } } : Module) desired
    (r.mutateModule g cr) w1 w2 e2 (by rw [hk0]; exact hget2) hnf2 hmut (by rw [hk0, hkey])
  refine ⟨desired, hdes, ?_, ?_, ?_⟩
  · unfold module.moduleReconciler.ReconcileModule
    simp only [hget1, hnf1]
    cases hce : (CreateOrPatch r.client.Modules
        ({ ObjectMeta := { Name := module.GetModuleName cr, Namespace := cr.Namespace } } : Module)
        (r.mutateModule g cr) w1).err <;>
      simp [hce, hcalls, hk0] <;> rfl
  · unfold module.moduleReconciler.ReconcileModule
    simp only [hget1, hnf1]
    rw [← herr]
    cases hce : (CreateOrPatch r.client.Modules
        ({ ObjectMeta := { Name := module.GetModuleName cr, Namespace := cr.Namespace } } : Module)
        (r.mutateModule g cr) w1).err <;>
      simp [hce]
  · unfold module.moduleReconciler.ReconcileModule
    simp only [hget1, hnf1]
    rw [← hworld]
    cases hce : (CreateOrPatch r.client.Modules
        ({ ObjectMeta := { Name := module.GetModuleName cr, Namespace := cr.Namespace } } : Module)
        (r.mutateModule g cr) w1).err <;>
      simp [hce]

/-- When the cluster holds an object that `SetDesiredModule` leaves as it is, `ReconcileModule`
fetches twice and issues neither a create nor a patch. -/
theorem reconcileModule_unchanged {σ : Type} (r : module.moduleReconciler σ) (g : Globals) (cr : DeviceConfig)
    (w w1 w2 : σ) (stored : Module)
    (hget1 : r.client.Modules.Get { Namespace := cr.Namespace, Name := module.GetModuleName cr } w =
      (.ok stored, w1))
    (hget2 : r.client.Modules.Get (ObjectKeyFromObject stored) w1 = (.ok stored, w2))
    (hfix : r.SetDesiredModule g (some stored) cr = (none, some stored)) :
    (r.ReconcileModule g cr w).err = none ∧
    (r.ReconcileModule g cr w).calls =
      [.Get "Module" { Namespace := cr.Namespace, Name := module.GetModuleName cr },
        .Get "Module" (ObjectKeyFromObject stored)] ∧
    (r.ReconcileModule g cr w).world = w2 := by
  have hmut : r.mutateModule g cr stored = (none, stored) := by
    unfold module.moduleReconciler.mutateModule
    rw [hfix]
  obtain ⟨hcalls, herr, hworld⟩ := createOrPatch_unchanged r.client.Modules stored stored
    (r.mutateModule g cr) w1 w2 hget2 rfl hmut
  unfold module.moduleReconciler.ReconcileModule
  simp only [hget1]
  rw [herr]
  simp [hcalls, hworld]
  rfl

/-- When its first fetch fails with an error other than NotFound, `ReconcileNodeMetricsDaemonSet` returns
that error after that one call. -/
theorem reconcileNodeMetricsDaemonSet_get_error {σ : Type} (r : metrics.NodeMetricsReconciler σ) (g : Globals) (cr : DeviceConfig)
    (w w1 : σ) (e : GoError)
    (hget : r.client.DaemonSets.Get { Namespace := cr.Namespace, Name := metrics.GetNodeMetricsName cr } w =
      (.error e, w1))
    (hnf : IsNotFound e = false) :
    (r.ReconcileNodeMetricsDaemonSet g cr w).err = some e ∧
    (r.ReconcileNodeMetricsDaemonSet g cr w).calls =
      [.Get "DaemonSet" { Namespace := cr.Namespace, Name := metrics.GetNodeMetricsName cr }] ∧
    (r.ReconcileNodeMetricsDaemonSet g cr w).world = w1 := by
  unfold metrics.NodeMetricsReconciler.ReconcileNodeMetricsDaemonSet
  simp [hget, hnf]

/-- When the cluster does not hold the object and the scheme knows the kind of
the owner, `ReconcileNodeMetricsDaemonSet` fetches twice (its own fetch and that of `CreateOrPatch`) and
creates the desired object; it returns nil when the create succeeds and an
error that quotes the create error when it fails. -/
theorem reconcileNodeMetricsDaemonSet_absent {σ : Type} (r : metrics.NodeMetricsReconciler σ) (g : Globals) (cr : DeviceConfig)
    (w w1 w2 : σ) (e1 e2 : GoError) (gvk : GroupVersionKind)
    (hget1 : r.client.DaemonSets.Get { Namespace := cr.Namespace, Name := metrics.GetNodeMetricsName cr } w =
      (.error e1, w1))
    (hnf1 : IsNotFound e1 = true)
    (hget2 : r.client.DaemonSets.Get { Namespace := cr.Namespace, Name := metrics.GetNodeMetricsName cr } w1 =
      (.error e2, w2))
    (hnf2 : IsNotFound e2 = true)
    (hscheme : r.scheme.DeviceConfig = some gvk) :
    ∃ desired : DaemonSet,
      r.SetDesiredNodeMetricsDaemonSet g (some { ObjectMeta := { Name := metrics.GetNodeMetricsName cr, Namespace := cr.Namespace } }) cr =
        (none, some desired) ∧
      (r.ReconcileNodeMetricsDaemonSet g cr w).calls =
        [.Get "DaemonSet" { Namespace := cr.Namespace, Name := metrics.GetNodeMetricsName cr },
          .Get "DaemonSet" { Namespace := cr.Namespace, Name := metrics.GetNodeMetricsName cr },
          .Create "DaemonSet" { Namespace := cr.Namespace, Name := metrics.GetNodeMetricsName cr }] ∧
      (r.ReconcileNodeMetricsDaemonSet g cr w).err =
        (match (r.client.DaemonSets.Create desired w2).1 with
          | some ce => some (.base ("could not create or patch DaemonSet: " ++ ce.Error) false)
          | none => none) ∧
      (r.ReconcileNodeMetricsDaemonSet g cr w).world = (r.client.DaemonSets.Create desired w2).2.2 := by
  obtain ⟨meta, hmeta, hname, hns⟩ :=
    setControllerReference_fresh cr { Name := metrics.GetNodeMetricsName cr, Namespace := cr.Namespace } r.scheme gvk hscheme rfl rfl
  have hset : ∃ desired : DaemonSet,
      r.SetDesiredNodeMetricsDaemonSet g (some { ObjectMeta := { Name := metrics.GetNodeMetricsName cr, Namespace := cr.Namespace } }) cr =
        (none, some desired) ∧
      ObjectKeyFromObject desired =
        { Namespace := cr.Namespace, Name := metrics.GetNodeMetricsName cr } := by
    unfold metrics.NodeMetricsReconciler.SetDesiredNodeMetricsDaemonSet
    simp only [hmeta]
    exact ⟨_, rfl, by simp [ObjectKeyFromObject, KubeObject.GetObjectMeta, hname, hns]⟩
  obtain ⟨desired, hdes, hkey⟩ := hset
  have hmut : r.mutateDaemonSet g cr { ObjectMeta := { Name := metrics.GetNodeMetricsName cr, Namespace := cr.Namespace } } =
      (none, desired) := by
    unfold metrics.NodeMetricsReconciler.mutateDaemonSet
    rw [hdes]
  have hk0 : ObjectKeyFromObject
      ({ ObjectMeta := { Name := metrics.GetNodeMetricsName cr, Namespace := cr.Namespace } } : DaemonSet) =
      { Namespace := cr.Namespace, Name := metrics.GetNodeMetricsName cr } := rfl
  obtain ⟨hcalls, herr, hworld⟩ := createOrPatch_absent r.client.DaemonSets
    ({ ObjectMeta := { Name := metrics.GetNodeMetricsName cr, Namespace := cr.Namespace } } : DaemonSet) desired
    (r.mutateDaemonSet g cr) w1 w2 e2 (by rw [hk0]; exact hget2) hnf2 hmut (by rw [hk0, hkey])
  refine ⟨desired, hdes, ?_, ?_, ?_⟩
  · unfold metrics.NodeMetricsReconciler.ReconcileNodeMetricsDaemonSet
    simp only [hget1, hnf1]
    cases hce : (CreateOrPatch r.client.DaemonSets
        ({ ObjectMeta := { Name := metrics.GetNodeMetricsName cr, Namespace := cr.Namespace } } : DaemonSet)
        (r.mutateDaemonSet g cr) w1).err <;>
      simp [hce, hcalls, hk0] <;> rfl
  · unfold metrics.NodeMetricsReconciler.ReconcileNodeMetricsDaemonSet
    simp only [hget1, hnf1]
    rw [← herr]
    cases hce : (CreateOrPatch r.client.DaemonSets
        ({ ObjectMeta := { Name := metrics.GetNodeMetricsName cr, Namespace := cr.Namespace } } : DaemonSet)
        (r.mutateDaemonSet g cr) w1).err <;>
      simp [hce]
  · unfold metrics.NodeMetricsReconciler.ReconcileNodeMetricsDaemonSet
    simp only [hget1, hnf1]
    rw [← hworld]
    cases hce : (CreateOrPatch r.client.DaemonSets
        ({ ObjectMeta := { Name := metrics.GetNodeMetricsName cr, Namespace := cr.Namespace } } : DaemonSet)
        (r.mutateDaemonSet g cr) w1).err <;>
      simp [hce]

/-- When the cluster holds an object that `SetDesiredNodeMetricsDaemonSet` leaves as it is, `ReconcileNodeMetricsDaemonSet`
fetches twice and issues neither a create nor a patch. -/
theorem reconcileNodeMetricsDaemonSet_unchanged {σ : Type} (r : metrics.NodeMetricsReconciler σ) (g : Globals) (cr : DeviceConfig)
    (w w1 w2 : σ) (stored : DaemonSet)
    (hget1 : r.client.DaemonSets.Get { Namespace := cr.Namespace, Name := metrics.GetNodeMetricsName cr } w =
      (.ok stored, w1))
    (hget2 : r.client.DaemonSets.Get (ObjectKeyFromObject stored) w1 = (.ok stored, w2))
    (hfix : r.SetDesiredNodeMetricsDaemonSet g (some stored) cr = (none, some stored)) :
    (r.ReconcileNodeMetricsDaemonSet g cr w).err = none ∧
    (r.ReconcileNodeMetricsDaemonSet g cr w).calls =
      [.Get "DaemonSet" { Namespace := cr.Namespace, Name := metrics.GetNodeMetricsName cr },
        .Get "DaemonSet" (ObjectKeyFromObject stored)] ∧
    (r.ReconcileNodeMetricsDaemonSet g cr w).world = w2 := by
  have hmut : r.mutateDaemonSet g cr stored = (none, stored) := by
    unfold metrics.NodeMetricsReconciler.mutateDaemonSet
    rw [hfix]
  obtain ⟨hcalls, herr, hworld⟩ := createOrPatch_unchanged r.client.DaemonSets stored stored
    (r.mutateDaemonSet g cr) w1 w2 hget2 rfl hmut
  unfold metrics.NodeMetricsReconciler.ReconcileNodeMetricsDaemonSet
  simp only [hget1]
  rw [herr]
  simp [hcalls, hworld]
  rfl

/-- When its first fetch fails with an error other than NotFound, `ReconcileNodeMetricsService` returns
that error after that one call. -/
theorem reconcileNodeMetricsService_get_error {σ : Type} (r : metrics.NodeMetricsReconciler σ) (g : Globals) (cr : DeviceConfig)
    (w w1 : σ) (e : GoError)
    (hget : r.client.Services.Get { Namespace := cr.Namespace, Name := metrics.GetNodeMetricsName cr } w =
      (.error e, w1))
    (hnf : IsNotFound e = false) :
    (r.ReconcileNodeMetricsService g cr w).err = some e ∧
    (r.ReconcileNodeMetricsService g cr w).calls =
      [.Get "Service" { Namespace := cr.Namespace, Name := metrics.GetNodeMetricsName cr }] ∧
    (r.ReconcileNodeMetricsService g cr w).world = w1 := by
  unfold metrics.NodeMetricsReconciler.ReconcileNodeMetricsService
  simp [hget, hnf]

/-- When the cluster does not hold the object and the scheme knows the kind of
the owner, `ReconcileNodeMetricsService` fetches twice (its own fetch and that of `CreateOrPatch`) and
creates the desired object; it returns nil when the create succeeds and an
error that quotes the create error when it fails. -/
theorem reconcileNodeMetricsService_absent {σ : Type} (r : metrics.NodeMetricsReconciler σ) (g : Globals) (cr : DeviceConfig)
    (w w1 w2 : σ) (e1 e2 : GoError) (gvk : GroupVersionKind)
    (hget1 : r.client.Services.Get { Namespace := cr.Namespace, Name := metrics.GetNodeMetricsName cr } w =
      (.error e1, w1))
    (hnf1 : IsNotFound e1 = true)
    (hget2 : r.client.Services.Get { Namespace := cr.Namespace, Name := metrics.GetNodeMetricsName cr } w1 =
      (.error e2, w2))
    (hnf2 : IsNotFound e2 = true)
    (hscheme : r.scheme.DeviceConfig = some gvk) :
    ∃ desired : Service,
      r.SetDesiredNodeMetricsService g (some { ObjectMeta := { Name := metrics.GetNodeMetricsName cr, Namespace := cr.Namespace } }) cr =
        (none, some desired) ∧
      (r.ReconcileNodeMetricsService g cr w).calls =
        [.Get "Service" { Namespace := cr.Namespace, Name := metrics.GetNodeMetricsName cr },
          .Get "Service" { Namespace := cr.Namespace, Name := metrics.GetNodeMetricsName cr },
          .Create "Service" { Namespace := cr.Namespace, Name := metrics.GetNodeMetricsName cr }] ∧
      (r.ReconcileNodeMetricsService g cr w).err =
        (match (r.client.Services.Create desired w2).1 with
          | some ce => some (.base ("could not create or patch Service: " ++ ce.Error) false)
          | none => none) ∧
      (r.ReconcileNodeMetricsService g cr w).world = (r.client.Services.Create desired w2).2.2 := by
  obtain ⟨meta, hmeta, hname, hns⟩ :=
    setControllerReference_fresh cr { Name := metrics.GetNodeMetricsName cr, Namespace := cr.Namespace, Labels := some (metrics.labelsForNodeMetricsDaemonSet g cr), Annotations := some [("prometheus.io/scrape", "true")] } r.scheme gvk hscheme rfl rfl
  have hset : ∃ desired : Service,
      r.SetDesiredNodeMetricsService g (some { ObjectMeta := { Name := metrics.GetNodeMetricsName cr, Namespace := cr.Namespace } }) cr =
        (none, some desired) ∧
      ObjectKeyFromObject desired =
        { Namespace := cr.Namespace, Name := metrics.GetNodeMetricsName cr } := by
    unfold metrics.NodeMetricsReconciler.SetDesiredNodeMetricsService
    simp only [hmeta]
    exact ⟨_, rfl, by simp [ObjectKeyFromObject, KubeObject.GetObjectMeta, hname, hns]⟩
  obtain ⟨desired, hdes, hkey⟩ := hset
  have hmut : r.mutateService g cr { ObjectMeta := { Name := metrics.GetNodeMetricsName cr, Namespace := cr.Namespace } } =
      (none, desired) := by
    unfold metrics.NodeMetricsReconciler.mutateService
    rw [hdes]
  have hk0 : ObjectKeyFromObject
      ({ ObjectMeta := { Name := metrics.GetNodeMetricsName cr, Namespace := cr.Namespace } } : Service) =
      { Namespace := cr.Namespace, Name := metrics.GetNodeMetricsName cr } := rfl
  obtain ⟨hcalls, herr, hworld⟩ := createOrPatch_absent r.client.Services
    ({ ObjectMeta := { Name := metrics.GetNodeMetricsName cr, Namespace := cr.Namespace } } : Service) desired
    (r.mutateService g cr) w1 w2 e2 (by rw [hk0]; exact hget2) hnf2 hmut (by rw [hk0, hkey])
  refine ⟨desired, hdes, ?_, ?_, ?_⟩
  · unfold metrics.NodeMetricsReconciler.ReconcileNodeMetricsService
    simp only [hget1, hnf1]
    cases hce : (CreateOrPatch r.client.Services
        ({ ObjectMeta := { Name := metrics.GetNodeMetricsName cr, Namespace := cr.Namespace } } : Service)
        (r.mutateService g cr) w1).err <;>
      simp [hce, hcalls, hk0] <;> rfl
  · unfold metrics.NodeMetricsReconciler.ReconcileNodeMetricsService
    simp only [hget1, hnf1]
    rw [← herr]
    cases hce : (CreateOrPatch r.client.Services
        ({ ObjectMeta := { Name := metrics.GetNodeMetricsName cr, Namespace := cr.Namespace } } : Service)
        (r.mutateService g cr) w1).err <;>
      simp [hce]
  · unfold metrics.NodeMetricsReconciler.ReconcileNodeMetricsService
    simp only [hget1, hnf1]
    rw [← hworld]
    cases hce : (CreateOrPatch r.client.Services
        ({ ObjectMeta := { Name := metrics.GetNodeMetricsName cr, Namespace := cr.Namespace } } : Service)
        (r.mutateService g cr) w1).err <;>
      simp [hce]

/-- When the cluster holds an object that `SetDesiredNodeMetricsService` leaves as it is, `ReconcileNodeMetricsService`
fetches twice and issues neither a create nor a patch. -/
theorem reconcileNodeMetricsService_unchanged {σ : Type} (r : metrics.NodeMetricsReconciler σ) (g : Globals) (cr : DeviceConfig)
    (w w1 w2 : σ) (stored : Service)
    (hget1 : r.client.Services.Get { Namespace := cr.Namespace, Name := metrics.GetNodeMetricsName cr } w =
      (.ok stored, w1))
    (hget2 : r.client.Services.Get (ObjectKeyFromObject stored) w1 = (.ok stored, w2))
    (hfix : r.SetDesiredNodeMetricsService g (some stored) cr = (none, some stored)) :
    (r.ReconcileNodeMetricsService g cr w).err = none ∧
    (r.ReconcileNodeMetricsService g cr w).calls =
      [.Get "Service" { Namespace := cr.Namespace, Name := metrics.GetNodeMetricsName cr },
        .Get "Service" (ObjectKeyFromObject stored)] ∧
    (r.ReconcileNodeMetricsService g cr w).world = w2 := by
  have hmut : r.mutateService g cr stored = (none, stored) := by
    unfold metrics.NodeMetricsReconciler.mutateService
    rw [hfix]
  obtain ⟨hcalls, herr, hworld⟩ := createOrPatch_unchanged r.client.Services stored stored
    (r.mutateService g cr) w1 w2 hget2 rfl hmut
  unfold metrics.NodeMetricsReconciler.ReconcileNodeMetricsService
  simp only [hget1]
  rw [herr]
  simp [hcalls, hworld]
  rfl


/-- The contract of a delete operation holds for an effect that is built from
the answer of the delete call the way the four delete methods build it. -/
theorem deletesChild_of_answer {σ : Type} (answer : Option GoError) (w1 : σ) (kind text : String)
    (key : NamespacedName) (effect : Effect σ)
    (h : effect =
      match answer with
      | some err =>
        if !IsNotFound err then
          { err := some (.wrap (text ++ err.Error) err), world := w1, calls := [.Delete kind key] }
        else { err := none, world := w1, calls := [.Delete kind key] }
      | none => { err := none, world := w1, calls := [.Delete kind key] }) :
    DeletesChild (answer, w1) effect kind key := by
  subst h
  cases answer with
  | none => simp [DeletesChild]
  | some e =>
    by_cases hnf : IsNotFound e = true
    · simp [DeletesChild, hnf]
    · simp only [DeletesChild, hnf, Bool.not_false, if_true, Bool.not_true]
      refine ⟨by simp, by simp, by simp [hnf], ?_⟩
      intro e1 he1 _
      simp only [Option.some.injEq] at he1
      subst he1
      refine ⟨.wrap (text ++ e.Error) e, ?_, rfl, ?_⟩
      · simp [hnf]
      · exact contains_append_right _ _

/-- C13: each of `DeleteModule`, `DeleteNodeMetricsDaemonSet`,
`DeleteNodeMetricsService` and `DeleteNodeLabelerDaemonSet` makes one call, the
delete of the object of its kind named by the child name of the owner in the
namespace of the owner, and leaves the world as that delete call of the client
left it; it returns nil exactly when that call returns nil or a NotFound
error, and for any other answer it returns an error that wraps it. -/
theorem C13_delete_tolerates_not_found {σ : Type} (mr : module.moduleReconciler σ)
    (nmr : metrics.NodeMetricsReconciler σ) (nlr : labeler.NodeLabelerReconciler σ)
    (cr : DeviceConfig) (w : σ) :
    DeletesChild
      (mr.client.Modules.Delete
        { ObjectMeta := { Name := module.GetModuleName cr, Namespace := cr.Namespace } } w)
      (mr.DeleteModule cr w) "Module"
      { Namespace := cr.Namespace, Name := module.GetModuleName cr } ∧
    DeletesChild
      (nmr.client.DaemonSets.Delete
        { ObjectMeta := { Name := metrics.GetNodeMetricsName cr, Namespace := cr.Namespace } } w)
      (nmr.DeleteNodeMetricsDaemonSet cr w) "DaemonSet"
      { Namespace := cr.Namespace, Name := metrics.GetNodeMetricsName cr } ∧
    DeletesChild
      (nmr.client.Services.Delete
        { ObjectMeta := { Name := metrics.GetNodeMetricsName cr, Namespace := cr.Namespace } } w)
      (nmr.DeleteNodeMetricsService cr w) "Service"
      { Namespace := cr.Namespace, Name := metrics.GetNodeMetricsName cr } ∧
    DeletesChild
      (nlr.client.DaemonSets.Delete
        { ObjectMeta := { Name := labeler.GetNodeLabelerName cr, Namespace := cr.Namespace } } w)
      (nlr.DeleteNodeLabelerDaemonSet cr w) "DaemonSet"
      { Namespace := cr.Namespace, Name := labeler.GetNodeLabelerName cr } := by
  refine ⟨?_, ?_, ?_, ?_⟩
  · rcases hd : mr.client.Modules.Delete
        { ObjectMeta := { Name := module.GetModuleName cr, Namespace := cr.Namespace } } w with
      ⟨_ | e, w1⟩
    · exact deletesChild_of_answer none w1 _ "" _ _
        (by simp [module.moduleReconciler.DeleteModule, hd, ObjectKeyFromObject,
          KubeObject.GetObjectMeta])
    · exact deletesChild_of_answer (some e) w1 _
        ("failed to delete Module " ++ module.GetModuleName cr ++ ": ") _ _
        (by by_cases hnf : IsNotFound e = true <;>
          simp [module.moduleReconciler.DeleteModule, hd, ObjectKeyFromObject,
            KubeObject.GetObjectMeta, hnf])
  · rcases hd : nmr.client.DaemonSets.Delete
        { ObjectMeta := { Name := metrics.GetNodeMetricsName cr, Namespace := cr.Namespace } }
        w with ⟨_ | e, w1⟩
    · exact deletesChild_of_answer none w1 _ "" _ _
        (by simp [metrics.NodeMetricsReconciler.DeleteNodeMetricsDaemonSet, hd,
          ObjectKeyFromObject, KubeObject.GetObjectMeta])
    · exact deletesChild_of_answer (some e) w1 _
        ("failed to delete DaemonSet " ++ metrics.GetNodeMetricsName cr ++ ": ") _ _
        (by by_cases hnf : IsNotFound e = true <;>
          simp [metrics.NodeMetricsReconciler.DeleteNodeMetricsDaemonSet, hd,
            ObjectKeyFromObject, KubeObject.GetObjectMeta, hnf])
  · rcases hd : nmr.client.Services.Delete
        { ObjectMeta := { Name := metrics.GetNodeMetricsName cr, Namespace := cr.Namespace } }
        w with ⟨_ | e, w1⟩
    · exact deletesChild_of_answer none w1 _ "" _ _
        (by simp [metrics.NodeMetricsReconciler.DeleteNodeMetricsService, hd,
          ObjectKeyFromObject, KubeObject.GetObjectMeta])
    · exact deletesChild_of_answer (some e) w1 _
        ("failed to delete Service " ++ metrics.GetNodeMetricsName cr ++ ": ") _ _
        (by by_cases hnf : IsNotFound e = true <;>
          simp [metrics.NodeMetricsReconciler.DeleteNodeMetricsService, hd,
            ObjectKeyFromObject, KubeObject.GetObjectMeta, hnf])
  · rcases hd : nlr.client.DaemonSets.Delete
        { ObjectMeta := { Name := labeler.GetNodeLabelerName cr, Namespace := cr.Namespace } }
        w with ⟨_ | e, w1⟩
    · exact deletesChild_of_answer none w1 _ "" _ _
        (by simp [labeler.NodeLabelerReconciler.DeleteNodeLabelerDaemonSet, hd,
          ObjectKeyFromObject, KubeObject.GetObjectMeta])
    · exact deletesChild_of_answer (some e) w1 _
        ("failed to delete DaemonSet " ++ labeler.GetNodeLabelerName cr ++ ": ") _ _
        (by by_cases hnf : IsNotFound e = true <;>
          simp [labeler.NodeLabelerReconciler.DeleteNodeLabelerDaemonSet, hd,
            ObjectKeyFromObject, KubeObject.GetObjectMeta, hnf])

/-- With the kind of the owner registered in the scheme, `SetDesiredModule` succeeds on
the bare object that carries the child name and the namespace of the owner. -/
theorem setDesiredModule_fresh {σ : Type} (r : module.moduleReconciler σ) (g : Globals) (cr : DeviceConfig)
    (gvk : GroupVersionKind) (hscheme : r.scheme.DeviceConfig = some gvk) :
    ∃ desired : Module,
      r.SetDesiredModule g (some { ObjectMeta := { Name := module.GetModuleName cr, Namespace := cr.Namespace } }) cr =
        (none, some desired) := by
  obtain ⟨meta, hmeta, -, -⟩ :=
    setControllerReference_fresh cr { Name := module.GetModuleName cr, Namespace := cr.Namespace } r.scheme gvk hscheme rfl rfl
  unfold module.moduleReconciler.SetDesiredModule
  simp only [hmeta]
  exact ⟨_, rfl⟩

/-- With the kind of the owner registered in the scheme, `SetDesiredNodeMetricsDaemonSet` succeeds on
the bare object that carries the child name and the namespace of the owner. -/
theorem setDesiredNodeMetricsDaemonSet_fresh {σ : Type} (r : metrics.NodeMetricsReconciler σ) (g : Globals) (cr : DeviceConfig)
    (gvk : GroupVersionKind) (hscheme : r.scheme.DeviceConfig = some gvk) :
    ∃ desired : DaemonSet,
      r.SetDesiredNodeMetricsDaemonSet g (some { ObjectMeta := { Name := metrics.GetNodeMetricsName cr, Namespace := cr.Namespace } }) cr =
        (none, some desired) := by
  obtain ⟨meta, hmeta, -, -⟩ :=
    setControllerReference_fresh cr { Name := metrics.GetNodeMetricsName cr, Namespace := cr.Namespace } r.scheme gvk hscheme rfl rfl
  unfold metrics.NodeMetricsReconciler.SetDesiredNodeMetricsDaemonSet
  simp only [hmeta]
  exact ⟨_, rfl⟩

/-- With the kind of the owner registered in the scheme, `SetDesiredNodeMetricsService` succeeds on
the bare object that carries the child name and the namespace of the owner. -/
theorem setDesiredNodeMetricsService_fresh {σ : Type} (r : metrics.NodeMetricsReconciler σ) (g : Globals) (cr : DeviceConfig)
    (gvk : GroupVersionKind) (hscheme : r.scheme.DeviceConfig = some gvk) :
    ∃ desired : Service,
      r.SetDesiredNodeMetricsService g (some { ObjectMeta := { Name := metrics.GetNodeMetricsName cr, Namespace := cr.Namespace } }) cr =
        (none, some desired) := by
  obtain ⟨meta, hmeta, -, -⟩ :=
    setControllerReference_fresh cr { Name := metrics.GetNodeMetricsName cr, Namespace := cr.Namespace, Labels := some (metrics.labelsForNodeMetricsDaemonSet g cr), Annotations := some [("prometheus.io/scrape", "true")] } r.scheme gvk hscheme rfl rfl
  unfold metrics.NodeMetricsReconciler.SetDesiredNodeMetricsService
  simp only [hmeta]
  exact ⟨_, rfl⟩

/-- The contract of the fetch of a reconcile operation follows from its two
path lemmas. -/
theorem fetchThenCreate_intro {σ α : Type} (client : ObjectClient σ α) (kind : String)
    (key : NamespacedName) (desired : α) (reconcile : σ → Effect σ)
    (herror : ∀ w w1 e, client.Get key w = (.error e, w1) → IsNotFound e = false →
      (reconcile w).err = some e ∧ (reconcile w).calls = [.Get kind key] ∧
        (reconcile w).world = w1)
    (habsent : ∀ w w1 w2 e1 e2, client.Get key w = (.error e1, w1) → IsNotFound e1 = true →
      client.Get key w1 = (.error e2, w2) → IsNotFound e2 = true →
      (reconcile w).calls = [.Get kind key, .Get kind key, .Create kind key] ∧
      (reconcile w).err =
        (match (client.Create desired w2).1 with
          | some ce => some (.base ("could not create or patch " ++ kind ++ ": " ++ ce.Error) false)
          | none => none) ∧
      (reconcile w).world = (client.Create desired w2).2.2) :
    FetchThenCreate client kind key (some desired) reconcile := by
  refine ⟨herror, ?_⟩
  intro w w1 w2 e1 e2 h1 n1 h2 n2
  obtain ⟨hcalls, herr, hworld⟩ := habsent w w1 w2 e1 e2 h1 n1 h2 n2
  refine ⟨desired, rfl, hcalls, ?_, ?_, hworld⟩
  · intro hnone
    rw [herr, hnone]
  · intro ce hce
    rw [herr, hce]
    exact ⟨_, rfl, contains_append_right _ _⟩

/-- C14: with the kind of the owner registered in the scheme, each of
`ReconcileModule`, `ReconcileNodeMetricsDaemonSet` and
`ReconcileNodeMetricsService` returns the error of its first fetch, after that
one call and in the world that the fetch left, when that error is not
NotFound; and when the fetch reports NotFound (for the operation and for
create-or-patch, which fetches again) it creates the object that its
`SetDesired` function makes of the bare named object, leaving the world that
the create call of the client for that object left, and returning nil when the
create succeeds and an error whose text contains the text of the create error
when it fails. -/
theorem C14_reconcile_get_then_create {σ : Type} (mr : module.moduleReconciler σ)
    (nmr : metrics.NodeMetricsReconciler σ) (g : Globals) (cr : DeviceConfig)
    (gvk1 gvk2 : GroupVersionKind)
    (hscheme1 : mr.scheme.DeviceConfig = some gvk1)
    (hscheme2 : nmr.scheme.DeviceConfig = some gvk2) :
    FetchThenCreate mr.client.Modules "Module"
      { Namespace := cr.Namespace, Name := module.GetModuleName cr }
      (mr.SetDesiredModule g
        (some { ObjectMeta := { Name := module.GetModuleName cr, Namespace := cr.Namespace } })
        cr).2
      (mr.ReconcileModule g cr) ∧
    FetchThenCreate nmr.client.DaemonSets "DaemonSet"
      { Namespace := cr.Namespace, Name := metrics.GetNodeMetricsName cr }
      (nmr.SetDesiredNodeMetricsDaemonSet g
        (some { ObjectMeta := { Name := metrics.GetNodeMetricsName cr, Namespace := cr.Namespace } })
        cr).2
      (nmr.ReconcileNodeMetricsDaemonSet g cr) ∧
    FetchThenCreate nmr.client.Services "Service"
      { Namespace := cr.Namespace, Name := metrics.GetNodeMetricsName cr }
      (nmr.SetDesiredNodeMetricsService g
        (some { ObjectMeta := { Name := metrics.GetNodeMetricsName cr, Namespace := cr.Namespace } })
        cr).2
      (nmr.ReconcileNodeMetricsService g cr) := by
  refine ⟨?_, ?_, ?_⟩
  · obtain ⟨desired, hdes⟩ := setDesiredModule_fresh mr g cr gvk1 hscheme1
    rw [hdes]
    refine fetchThenCreate_intro _ _ _ desired _ ?_ ?_
    · intro w w1 e hget hnf
      exact reconcileModule_get_error mr g cr w w1 e hget hnf
    · intro w w1 w2 e1 e2 h1 n1 h2 n2
      obtain ⟨d, hd, hcalls, herr, hworld⟩ :=
        reconcileModule_absent mr g cr w w1 w2 e1 e2 gvk1 h1 n1 h2 n2 hscheme1
      rw [hdes] at hd
      simp only [Prod.mk.injEq, Option.some.injEq, true_and] at hd
      subst hd
      exact ⟨hcalls, herr, hworld⟩
  · obtain ⟨desired, hdes⟩ := setDesiredNodeMetricsDaemonSet_fresh nmr g cr gvk2 hscheme2
    rw [hdes]
    refine fetchThenCreate_intro _ _ _ desired _ ?_ ?_
    · intro w w1 e hget hnf
      exact reconcileNodeMetricsDaemonSet_get_error nmr g cr w w1 e hget hnf
    · intro w w1 w2 e1 e2 h1 n1 h2 n2
      obtain ⟨d, hd, hcalls, herr, hworld⟩ :=
        reconcileNodeMetricsDaemonSet_absent nmr g cr w w1 w2 e1 e2 gvk2 h1 n1 h2 n2 hscheme2
      rw [hdes] at hd
      simp only [Prod.mk.injEq, Option.some.injEq, true_and] at hd
      subst hd
      exact ⟨hcalls, herr, hworld⟩
  · obtain ⟨desired, hdes⟩ := setDesiredNodeMetricsService_fresh nmr g cr gvk2 hscheme2
    rw [hdes]
    refine fetchThenCreate_intro _ _ _ desired _ ?_ ?_
    · intro w w1 e hget hnf
      exact reconcileNodeMetricsService_get_error nmr g cr w w1 e hget hnf
    · intro w w1 w2 e1 e2 h1 n1 h2 n2
      obtain ⟨d, hd, hcalls, herr, hworld⟩ :=
        reconcileNodeMetricsService_absent nmr g cr w w1 w2 e1 e2 gvk2 h1 n1 h2 n2 hscheme2
      rw [hdes] at hd
      simp only [Prod.mk.injEq, Option.some.injEq, true_and] at hd
      subst hd
      exact ⟨hcalls, herr, hworld⟩

/-- C14 at a cluster without children whose creates succeed: `ReconcileModule`
for the owner of the tests returns nil. -/
theorem C14_reconcile_get_then_create_witness :
    ((module.moduleReconciler.mk fake.emptyClient fake.scheme).ReconcileModule fake.globals
      fake.owner ()).err = none :=
  Exists.elim
    ((C14_reconcile_get_then_create (module.moduleReconciler.mk fake.emptyClient fake.scheme)
      (metrics.NodeMetricsReconciler.mk fake.emptyClient fake.scheme) fake.globals fake.owner
      { Group := "habana.ai", Version := "v1alpha1", Kind := "DeviceConfig" }
      { Group := "habana.ai", Version := "v1alpha1", Kind := "DeviceConfig" } rfl rfl).1.2
      () () () (.base "not found" true) (.base "not found" true) rfl rfl rfl rfl)
    (fun _ h => h.2.2.1 rfl)

/-- C15: each of `SetDesiredModule`, `SetDesiredNodeMetricsDaemonSet` and
`SetDesiredNodeMetricsService` is idempotent: for every owner, with the
settings fixed, applying the function to the object that a successful
application produced succeeds and gives that same object. Hence, when the
cluster stores the object that the function produced, the reconcile operation
computes an object equal to the stored one and, after its two fetches, issues
neither a create nor a patch. -/
theorem C15_set_desired_idempotent {σ : Type} (mr : module.moduleReconciler σ)
    (nmr : metrics.NodeMetricsReconciler σ) (g : Globals) (cr : DeviceConfig) :
    (∀ m m1 : Module, mr.SetDesiredModule g (some m) cr = (none, some m1) →
      mr.SetDesiredModule g (some m1) cr = (none, some m1) ∧
      ∀ w w1 w2,
        mr.client.Modules.Get { Namespace := cr.Namespace, Name := module.GetModuleName cr } w =
          (.ok m1, w1) →
        mr.client.Modules.Get (ObjectKeyFromObject m1) w1 = (.ok m1, w2) →
        (mr.ReconcileModule g cr w).err = none ∧
        (mr.ReconcileModule g cr w).calls.filter (fun c => c.verb != "Get") = []) ∧
    (∀ ds ds1 : DaemonSet, nmr.SetDesiredNodeMetricsDaemonSet g (some ds) cr = (none, some ds1) →
      nmr.SetDesiredNodeMetricsDaemonSet g (some ds1) cr = (none, some ds1) ∧
      ∀ w w1 w2,
        nmr.client.DaemonSets.Get
          { Namespace := cr.Namespace, Name := metrics.GetNodeMetricsName cr } w = (.ok ds1, w1) →
        nmr.client.DaemonSets.Get (ObjectKeyFromObject ds1) w1 = (.ok ds1, w2) →
        (nmr.ReconcileNodeMetricsDaemonSet g cr w).err = none ∧
        (nmr.ReconcileNodeMetricsDaemonSet g cr w).calls.filter (fun c => c.verb != "Get") =
          []) ∧
    (∀ s s1 : Service, nmr.SetDesiredNodeMetricsService g (some s) cr = (none, some s1) →
      nmr.SetDesiredNodeMetricsService g (some s1) cr = (none, some s1) ∧
      ∀ w w1 w2,
        nmr.client.Services.Get
          { Namespace := cr.Namespace, Name := metrics.GetNodeMetricsName cr } w = (.ok s1, w1) →
        nmr.client.Services.Get (ObjectKeyFromObject s1) w1 = (.ok s1, w2) →
        (nmr.ReconcileNodeMetricsService g cr w).err = none ∧
        (nmr.ReconcileNodeMetricsService g cr w).calls.filter (fun c => c.verb != "Get") =
          []) := by
  refine ⟨?_, ?_, ?_⟩
  · intro m m1 h
    have hfix := setDesiredModule_idem mr g cr m m1 h
    refine ⟨hfix, ?_⟩
    intro w w1 w2 h1 h2
    obtain ⟨herr, hcalls, -⟩ := reconcileModule_unchanged mr g cr w w1 w2 m1 h1 h2 hfix
    exact ⟨herr, by rw [hcalls]; simp [ClientCall.verb]⟩
  · intro ds ds1 h
    have hfix := setDesiredNodeMetricsDaemonSet_idem nmr g cr ds ds1 h
    refine ⟨hfix, ?_⟩
    intro w w1 w2 h1 h2
    obtain ⟨herr, hcalls, -⟩ :=
      reconcileNodeMetricsDaemonSet_unchanged nmr g cr w w1 w2 ds1 h1 h2 hfix
    exact ⟨herr, by rw [hcalls]; simp [ClientCall.verb]⟩
  · intro s s1 h
    have hfix := setDesiredNodeMetricsService_idem nmr g cr s s1 h
    refine ⟨hfix, ?_⟩
    intro w w1 w2 h1 h2
    obtain ⟨herr, hcalls, -⟩ :=
      reconcileNodeMetricsService_unchanged nmr g cr w w1 w2 s1 h1 h2 hfix
    exact ⟨herr, by rw [hcalls]; simp [ClientCall.verb]⟩

/-- C15 at the owner of the tests: `SetDesiredNodeMetricsService` applied to
the Service it made of the bare named object gives that Service again. -/
theorem C15_set_desired_idempotent_witness :
    (metrics.NodeMetricsReconciler.mk fake.emptyClient fake.scheme).SetDesiredNodeMetricsService
        fake.globals
        ((metrics.NodeMetricsReconciler.mk fake.emptyClient
          fake.scheme).SetDesiredNodeMetricsService fake.globals
          (some { ObjectMeta := { Name := "a-name", Namespace := "a-namespace" } })
          fake.owner).2
        fake.owner =
      (metrics.NodeMetricsReconciler.mk fake.emptyClient fake.scheme).SetDesiredNodeMetricsService
        fake.globals (some { ObjectMeta := { Name := "a-name", Namespace := "a-namespace" } })
        fake.owner :=
  ((C15_set_desired_idempotent (module.moduleReconciler.mk fake.emptyClient fake.scheme)
    (metrics.NodeMetricsReconciler.mk fake.emptyClient fake.scheme) fake.globals
    fake.owner).2.2
    { ObjectMeta := { Name := "a-name", Namespace := "a-namespace" } }
    (((metrics.NodeMetricsReconciler.mk fake.emptyClient
      fake.scheme).SetDesiredNodeMetricsService fake.globals
      (some { ObjectMeta := { Name := "a-name", Namespace := "a-namespace" } })
      fake.owner).2.getD {})
    (by decide)).1

/-- Every client call of `CreateOrPatch` is a call on the kind of the object
it is given. -/
theorem createOrPatch_calls_kind {σ α : Type} [KubeObject α] [DecidableEq α]
    (c : ObjectClient σ α) (obj : α) (f : α → Option GoError × α) (w : σ) :
    ∀ call ∈ (CreateOrPatch c obj f w).calls, call.kind = KubeObject.Kind α := by
  unfold CreateOrPatch
  simp only
  rcases hget : c.Get (ObjectKeyFromObject obj) w with ⟨e | stored, w1⟩
  · by_cases hnf : IsNotFound e = true
    · simp only [hnf, Bool.not_true, Bool.false_eq_true, if_false]
      rcases hm : mutate f (ObjectKeyFromObject obj) obj with ⟨_ | ferr, obj1⟩
      · rcases hc : c.Create obj1 w1 with ⟨_ | cerr, obj2, w2⟩ <;>
          simp [hm, hc, ClientCall.kind]
      · simp [hm, ClientCall.kind]
    · simp [hnf, ClientCall.kind]
  · rcases hm : mutate f (ObjectKeyFromObject obj) stored with ⟨_ | ferr, obj1⟩
    · simp only [hm]
      by_cases hne : stored = obj1
      · simp [hne, ClientCall.kind]
      · simp only [ne_eq, hne, not_false_eq_true, if_true]
        rcases hp : c.Patch obj1 stored w1 with ⟨_ | perr, obj2, w2⟩ <;>
          simp [hp, ClientCall.kind]
    · simp [hm, ClientCall.kind]

/-- Every client call of `ReconcileNodeMetricsDaemonSet` is a call on a
DaemonSet. -/
theorem reconcileNodeMetricsDaemonSet_calls_kind {σ : Type}
    (r : metrics.NodeMetricsReconciler σ) (g : Globals) (cr : DeviceConfig) (w : σ) :
    ∀ call ∈ (r.ReconcileNodeMetricsDaemonSet g cr w).calls, call.kind = "DaemonSet" := by
  have hk : ∀ (obj : DaemonSet) (v : σ),
      ∀ call ∈ (CreateOrPatch r.client.DaemonSets obj (r.mutateDaemonSet g cr) v).calls,
        call.kind = "DaemonSet" :=
    fun obj v => createOrPatch_calls_kind r.client.DaemonSets obj (r.mutateDaemonSet g cr) v
  unfold metrics.NodeMetricsReconciler.ReconcileNodeMetricsDaemonSet
  simp only
  rcases hget : r.client.DaemonSets.Get
      { Namespace := cr.Namespace, Name := metrics.GetNodeMetricsName cr } w with
    ⟨e | stored, w1⟩
  · by_cases hnf : IsNotFound e = true
    · simp only [hnf, Bool.not_true, Bool.false_eq_true, if_false]
      intro call hcall
      split at hcall <;>
        · simp only [List.mem_cons] at hcall
          rcases hcall with rfl | hcall
          · rfl
          · exact hk _ _ call hcall
    · simp [hnf, ClientCall.kind]
  · intro call hcall
    simp only at hcall
    split at hcall <;>
      · simp only [List.mem_cons] at hcall
        rcases hcall with rfl | hcall
        · rfl
        · exact hk _ _ call hcall

/-- C11: the pass is fail-fast. On a live, non-conflicting DeviceConfig: when
`AddDeletionFinalizer` fails, `Reconcile` returns that error and its last call
is `AddDeletionFinalizer`, so that neither child reconciler nor the conditions
updater is called; when `ReconcileModule` fails, `ReconcileNodeMetrics` is not
called. And when `ReconcileNodeMetricsDaemonSet` fails, `ReconcileNodeMetrics`
returns its error and makes no call on a Service. -/
theorem C11_fail_fast {σ : Type} (r : controllers.Reconciler σ) (req : controllers.Request)
    (w w1 w2 : σ) (dc dc2 : DeviceConfig)
    (hget : r.Get req.NamespacedName w = (.ok dc, w1))
    (hlive : IsZero dc.DeletionTimestamp = true)
    (hcheck : r.nsv.CheckDeviceConfigForConflictingNodeSelector dc w1 = (none, dc2, w2)) :
    (∀ dc3 w3 e dc4 w4, r.fu.ContainsDeletionFinalizer dc2 w2 = (false, dc3, w3) →
      r.fu.AddDeletionFinalizer dc3 w3 = (some e, dc4, w4) →
      (r.Reconcile req w).err = some e ∧
      (r.Reconcile req w).calls =
        [.Get req.NamespacedName, .CheckDeviceConfigForConflictingNodeSelector dc,
          .ContainsDeletionFinalizer dc2, .AddDeletionFinalizer dc3] ∧
      (r.Reconcile req w).calls.filter (fun c =>
        ["ReconcileModule", "ReconcileNodeMetrics", "SetConditionsErrored",
          "SetConditionsReady"].contains c.method) = []) ∧
    (∀ dc4 w4 e dc5 w5,
      (r.fu.ContainsDeletionFinalizer dc2 w2 = (true, dc4, w4) ∨
        ∃ dc3 w3, r.fu.ContainsDeletionFinalizer dc2 w2 = (false, dc3, w3) ∧
          r.fu.AddDeletionFinalizer dc3 w3 = (none, dc4, w4)) →
      r.mr.ReconcileModule dc4 w4 = (some e, dc5, w5) →
      (r.Reconcile req w).calls.filter (fun c => c.method == "ReconcileModule") =
        [.ReconcileModule dc4] ∧
      (r.Reconcile req w).calls.filter (fun c => c.method == "ReconcileNodeMetrics") = []) ∧
    (∀ (nmr : metrics.NodeMetricsReconciler σ) (g : Globals) (cr : DeviceConfig) (v : σ)
        (e : GoError),
      (nmr.ReconcileNodeMetricsDaemonSet g cr v).err = some e →
      (nmr.ReconcileNodeMetrics g cr v).err = some e ∧
      (nmr.ReconcileNodeMetrics g cr v).calls = (nmr.ReconcileNodeMetricsDaemonSet g cr v).calls ∧
      (nmr.ReconcileNodeMetrics g cr v).calls.filter (fun c => c.kind == "Service") = []) := by
  refine ⟨?_, ?_, ?_⟩
  · intro dc3 w3 e dc4 w4 hcont hadd
    simp [controllers.Reconciler.Reconcile, hget, hlive, hcheck, hcont, hadd,
      controllers.Call.method]
  · intro dc4 w4 e dc5 w5 hfin hmod
    rcases hfin with hcont | ⟨dc3, w3, hcont, hadd⟩
    · simp [controllers.Reconciler.Reconcile, hget, hlive, hcheck, hcont, hmod,
        controllers.Call.method]
    · simp [controllers.Reconciler.Reconcile, hget, hlive, hcheck, hcont, hadd, hmod,
        controllers.Call.method]
  · intro nmr g cr v e hds
    have hrun : (nmr.ReconcileNodeMetrics g cr v).err = some e ∧
        (nmr.ReconcileNodeMetrics g cr v).calls =
          (nmr.ReconcileNodeMetricsDaemonSet g cr v).calls := by
      unfold metrics.NodeMetricsReconciler.ReconcileNodeMetrics
      simp [hds]
    refine ⟨hrun.1, hrun.2, ?_⟩
    rw [hrun.2, List.filter_eq_nil_iff]
    intro call hcall
    have hk := reconcileNodeMetricsDaemonSet_calls_kind nmr g cr v call hcall
    simp [hk]

/-- C11 at the scripted reconciler whose `AddDeletionFinalizer` fails with
"some-error": the pass returns that error. -/
theorem C11_fail_fast_witness :
    ((fake.scripted
        { Get := .ok fake.dcDefault, AddFinalizer := some (errorsNew "some-error") }).Reconcile
      fake.req ()).err = some (errorsNew "some-error") :=
  ((C11_fail_fast
    (fake.scripted { Get := .ok fake.dcDefault, AddFinalizer := some (errorsNew "some-error") })
    fake.req () () () fake.dcDefault fake.dcDefault rfl (by decide) rfl).1
    fake.dcDefault () (errorsNew "some-error") fake.dcDefault () rfl rfl).1

/-! ## Theorems: the frame of the condition updates -/

section FrameLemmas

/-- The types of the entries after `SetStatusCondition`: those of the list it
was given, in the same order, followed by the type that was set when no entry
had it. -/
theorem setStatusCondition_types (now : Time) (conds : List Condition) (c : Condition) :
    (SetStatusCondition now conds c).map (fun d => d.Type_) =
      conds.map (fun d => d.Type_) ++
        (if c.Type_ ∈ conds.map (fun d => d.Type_) then [] else [c.Type_]) := by
  induction conds with
  | nil => simp [SetStatusCondition]
  | cons d rest ih =>
    by_cases h : d.Type_ = c.Type_
    · simp [SetStatusCondition, h, mergeCondition]
    · have h2 : ¬ c.Type_ = d.Type_ := fun e => h e.symm
      simp [SetStatusCondition, h, h2, ih]

/-- The call `SetStatusCondition` leaves an entry of another type where it is
and as it is. -/
theorem setStatusCondition_getElem_other (now : Time) (conds : List Condition) (c : Condition)
    (i : Nat) (d : Condition) (h : conds[i]? = some d) (hne : d.Type_ ≠ c.Type_) :
    (SetStatusCondition now conds c)[i]? = some d := by
  induction conds generalizing i with
  | nil => simp at h
  | cons e rest ih =>
    cases i with
    | zero =>
      simp at h
      subst h
      simp [SetStatusCondition, hne]
    | succ i =>
      simp at h
      by_cases he : e.Type_ = c.Type_
      · simp [SetStatusCondition, he, h]
      · simp [SetStatusCondition, he, ih i h]

/-- The call `SetStatusCondition` keeps the entries that a predicate on types
selects, in their order, when the predicate rejects the type that is set. -/
theorem setStatusCondition_filter (now : Time) (conds : List Condition) (c : Condition)
    (p : String → Bool) (hp : p c.Type_ = false) :
    (SetStatusCondition now conds c).filter (fun d => p d.Type_) =
      conds.filter (fun d => p d.Type_) := by
  induction conds with
  | nil => simp [SetStatusCondition, hp]
  | cons e rest ih =>
    by_cases he : e.Type_ = c.Type_
    · simp [SetStatusCondition, he, mergeCondition, List.filter_cons, hp]
    · simp [SetStatusCondition, he, List.filter_cons, ih]

/-- In a list with at most one condition of each type, every entry is the
condition that `FindStatusCondition` returns for its type. -/
theorem find_of_mem_nodup (conds : List Condition) (d : Condition)
    (hnd : (conds.map (fun d => d.Type_)).Nodup) (hd : d ∈ conds) :
    FindStatusCondition conds d.Type_ = some d := by
  induction conds with
  | nil => simp at hd
  | cons e rest ih =>
    simp only [List.map_cons, List.nodup_cons] at hnd
    rcases List.mem_cons.1 hd with rfl | hmem
    · simp [FindStatusCondition]
    · have hne : e.Type_ ≠ d.Type_ := fun heq =>
        hnd.1 (heq ▸ List.mem_map.2 ⟨d, hmem, rfl⟩)
      have := ih hnd.2 hmem
      simpa [FindStatusCondition, List.find?_cons, hne] using this

/-- The frame of the two `SetStatusCondition` calls of the updater, of a Ready
condition `a` and then of an Errored condition `b`, on a list with at most one
condition of each type. -/
theorem frame_of_ready_errored (t1 t2 : Time) (conds : List Condition) (a b : Condition)
    (ha : a.Type_ = conditions.Ready) (hb : b.Type_ = conditions.Errored)
    (hnd : (conds.map (fun d => d.Type_)).Nodup) (out : List Condition)
    (hout : out = SetStatusCondition t2 (SetStatusCondition t1 conds a) b) :
    (∀ (i : Nat) (c : Condition), conds[i]? = some c → c.Type_ ≠ conditions.Ready → c.Type_ ≠ conditions.Errored →
      out[i]? = some c) ∧
    out.filter (fun c => c.Type_ != conditions.Ready && c.Type_ != conditions.Errored) =
      conds.filter (fun c => c.Type_ != conditions.Ready && c.Type_ != conditions.Errored) ∧
    out.map (fun c => c.Type_) = conds.map (fun c => c.Type_) ++
      (if conditions.Ready ∈ conds.map (fun c => c.Type_) then [] else [conditions.Ready]) ++
      (if conditions.Errored ∈ conds.map (fun c => c.Type_) then [] else [conditions.Errored]) ∧
    (∀ (i : Nat) (c : Condition), conds[i]? = some c → ∃ d, out[i]? = some d ∧ d.Type_ = c.Type_ ∧
      FindStatusCondition out c.Type_ = some d) ∧
    (out.map (fun c => c.Type_)).count conditions.Ready = 1 ∧
    (out.map (fun c => c.Type_)).count conditions.Errored = 1 ∧
    out.length = conds.length +
      (if conditions.Ready ∈ conds.map (fun c => c.Type_) then 0 else 1) +
      (if conditions.Errored ∈ conds.map (fun c => c.Type_) then 0 else 1) := by
  have hRE : conditions.Ready ≠ conditions.Errored := by decide
  have htypes : out.map (fun c => c.Type_) = conds.map (fun c => c.Type_) ++
      (if conditions.Ready ∈ conds.map (fun c => c.Type_) then [] else [conditions.Ready]) ++
      (if conditions.Errored ∈ conds.map (fun c => c.Type_) then [] else [conditions.Errored]) := by
    rw [hout, setStatusCondition_types, setStatusCondition_types, ha, hb]
    by_cases hR : conditions.Ready ∈ conds.map (fun c => c.Type_) <;>
      by_cases hE : conditions.Errored ∈ conds.map (fun c => c.Type_) <;>
      simp [hR, hE, hRE.symm]
  have hndout : (out.map (fun c => c.Type_)).Nodup := by
    rw [htypes]
    by_cases hR : conditions.Ready ∈ conds.map (fun c => c.Type_) <;>
      by_cases hE : conditions.Errored ∈ conds.map (fun c => c.Type_) <;>
      simp only [hR, hE, if_true, if_false, List.append_nil, List.append_assoc,
        List.singleton_append]
    · exact hnd
    · exact List.nodup_append.2 ⟨hnd, by simp, by simpa using hE⟩
    · exact List.nodup_append.2 ⟨hnd, by simp, by simpa using hR⟩
    · refine List.nodup_append.2 ⟨hnd, by simp [hRE], ?_⟩
      intro x hx hx2
      rcases List.mem_cons.1 hx2 with rfl | hx3
      · exact hR hx
      · rcases List.mem_cons.1 hx3 with rfl | hx4
        · exact hE hx
        · simp at hx4
  have hmemR : conditions.Ready ∈ out.map (fun c => c.Type_) := by
    rw [htypes]
    by_cases hR : conditions.Ready ∈ conds.map (fun c => c.Type_) <;> simp [hR]
  have hmemE : conditions.Errored ∈ out.map (fun c => c.Type_) := by
    rw [htypes]
    by_cases hE : conditions.Errored ∈ conds.map (fun c => c.Type_) <;> simp [hE]
  have hpos : ∀ (i : Nat) (c : Condition), conds[i]? = some c → ∃ d, out[i]? = some d ∧ d.Type_ = c.Type_ := by
    intro i c hc
    have hlt : i < conds.length := (List.getElem?_eq_some_iff.1 hc).1
    have h1 : (out.map (fun c => c.Type_))[i]? = some c.Type_ := by
      rw [htypes, List.append_assoc, List.getElem?_append_left (by simpa using hlt)]
      simp [hc]
    rw [List.getElem?_map] at h1
    cases ho : out[i]? with
    | none => simp [ho] at h1
    | some d => exact ⟨d, rfl, by simpa [ho] using h1⟩
  refine ⟨?_, ?_, htypes, ?_, List.count_eq_one_of_mem hndout hmemR,
    List.count_eq_one_of_mem hndout hmemE, ?_⟩
  · intro i c hc hcR hcE
    rw [hout]
    exact setStatusCondition_getElem_other _ _ _ _ _
      (setStatusCondition_getElem_other _ _ _ _ _ hc (ha ▸ hcR)) (hb ▸ hcE)
  · rw [hout]
    rw [setStatusCondition_filter t2 _ b
        (fun t => t != conditions.Ready && t != conditions.Errored) (by simp [hb]),
      setStatusCondition_filter t1 _ a
        (fun t => t != conditions.Ready && t != conditions.Errored) (by simp [ha])]
  · intro i c hc
    obtain ⟨d, hd, hdt⟩ := hpos i c hc
    refine ⟨d, hd, hdt, ?_⟩
    rw [← hdt]
    exact find_of_mem_nodup out d hndout (List.getElem?_mem hd)
  · have := congrArg List.length htypes
    simp only [List.length_map, List.length_append] at this
    rw [this]
    by_cases hR : conditions.Ready ∈ conds.map (fun c => c.Type_) <;>
      by_cases hE : conditions.Errored ∈ conds.map (fun c => c.Type_) <;> simp [hR, hE]

end FrameLemmas

/-- C21: for every DeviceConfig whose prior condition list holds at most one
condition of each type, the list `out` that `SetConditionsReady` leaves and the
list that `SetConditionsErrored` leaves both satisfy: every prior condition of
a type other than Ready and Errored is found unchanged at its position, and the
conditions of those other types are the same list in the same order; the types
of `out` are the prior types in their order, followed by Ready when Ready was
absent and then by Errored when Errored was absent; every prior entry keeps its
position and its type, and the entry at that position is the condition of that
type in `out` (an existing Ready or Errored entry is updated where it stands);
Ready and Errored each occur exactly once among the types of `out`; and the
length grew by the number of the two types that were absent. -/
theorem C21_set_conditions_frame {σ : Type} (u : conditions.updater σ) (cr : DeviceConfig)
    (reason message : String) (w : σ)
    (hnd : (cr.Status.Conditions.map (fun c => c.Type_)).Nodup) :
    ∀ out ∈ [(u.SetConditionsReady cr reason message w).2.1.Status.Conditions,
        (u.SetConditionsErrored cr reason message w).2.1.Status.Conditions],
      (∀ (i : Nat) (c : Condition), cr.Status.Conditions[i]? = some c →
        c.Type_ ≠ conditions.Ready → c.Type_ ≠ conditions.Errored → out[i]? = some c) ∧
      out.filter (fun c => c.Type_ != conditions.Ready && c.Type_ != conditions.Errored) =
        cr.Status.Conditions.filter
          (fun c => c.Type_ != conditions.Ready && c.Type_ != conditions.Errored) ∧
      out.map (fun c => c.Type_) = cr.Status.Conditions.map (fun c => c.Type_) ++
        (if conditions.Ready ∈ cr.Status.Conditions.map (fun c => c.Type_) then []
          else [conditions.Ready]) ++
        (if conditions.Errored ∈ cr.Status.Conditions.map (fun c => c.Type_) then []
          else [conditions.Errored]) ∧
      (∀ (i : Nat) (c : Condition), cr.Status.Conditions[i]? = some c →
        ∃ d, out[i]? = some d ∧ d.Type_ = c.Type_ ∧ FindStatusCondition out c.Type_ = some d) ∧
      (out.map (fun c => c.Type_)).count conditions.Ready = 1 ∧
      (out.map (fun c => c.Type_)).count conditions.Errored = 1 ∧
      out.length = cr.Status.Conditions.length +
        (if conditions.Ready ∈ cr.Status.Conditions.map (fun c => c.Type_) then 0 else 1) +
        (if conditions.Errored ∈ cr.Status.Conditions.map (fun c => c.Type_) then 0 else 1) := by
  intro out hout
  simp only [List.mem_cons, List.mem_singleton, List.not_mem_nil, or_false] at hout
  rcases hout with rfl | rfl
  · exact frame_of_ready_errored (u.Now w).1 (u.Now (u.Now w).2).1 cr.Status.Conditions
      { Type_ := conditions.Ready, Status := ConditionTrue, Reason := reason, Message := message }
      { Type_ := conditions.Errored, Status := ConditionFalse, Reason := conditions.Ready }
      rfl rfl hnd _ rfl
  · exact frame_of_ready_errored (u.Now w).1 (u.Now (u.Now w).2).1 cr.Status.Conditions
      { Type_ := conditions.Ready, Status := ConditionFalse, Reason := conditions.Errored }
      { Type_ := conditions.Errored, Status := ConditionTrue, Reason := reason, Message := message }
      rfl rfl hnd _ rfl

/-- C21 at an instance that holds an Available and an Errored condition: the
prior types are distinct, and `SetConditionsReady` leaves three conditions, the
one Ready condition that was absent being appended. -/
theorem C21_set_conditions_frame_witness :
    ((fake.scriptedUpdater { Get := .ok fake.dcWithConditions }).SetConditionsReady
      fake.dcWithConditions "Reconciled" "All resources have been successfully reconciled"
        ()).2.1.Status.Conditions.length = 3 :=
  (C21_set_conditions_frame (fake.scriptedUpdater { Get := .ok fake.dcWithConditions })
    fake.dcWithConditions "Reconciled" "All resources have been successfully reconciled" ()
    (by decide) _ (List.mem_cons_self _ _)).2.2.2.2.2.2.trans (by decide)

/-- C30: for every prior condition list, reason `r` and message `m`: after
`SetConditionsErrored cr r m` the Errored condition has reason `r` and message
`m` and the Ready condition has reason "Errored" and the empty message; after
`SetConditionsReady cr r m` the Ready condition has reason `r` and message `m`
and the Errored condition has reason "Ready" and the empty message; so after a
`SetConditionsErrored` with any message followed by a `SetConditionsReady`, the
Errored condition carries the empty message. -/
theorem C30_reason_and_message_overwritten {σ : Type} (u : conditions.updater σ)
    (cr : DeviceConfig) (r m : String) (w : σ) :
    (∃ e rd,
      FindStatusCondition (u.SetConditionsErrored cr r m w).2.1.Status.Conditions
        conditions.Errored = some e ∧ e.Reason = r ∧ e.Message = m ∧
      FindStatusCondition (u.SetConditionsErrored cr r m w).2.1.Status.Conditions
        conditions.Ready = some rd ∧ rd.Reason = "Errored" ∧ rd.Message = "") ∧
    (∃ rd e,
      FindStatusCondition (u.SetConditionsReady cr r m w).2.1.Status.Conditions
        conditions.Ready = some rd ∧ rd.Reason = r ∧ rd.Message = m ∧
      FindStatusCondition (u.SetConditionsReady cr r m w).2.1.Status.Conditions
        conditions.Errored = some e ∧ e.Reason = "Ready" ∧ e.Message = "") ∧
    (∀ (r2 m2 : String) (w2 : σ), ∃ e,
      FindStatusCondition
        (u.SetConditionsReady (u.SetConditionsErrored cr r m w).2.1 r2 m2 w2).2.1.Status.Conditions
        conditions.Errored = some e ∧ e.Reason = "Ready" ∧ e.Message = "") := by
  refine ⟨?_, ?_, ?_⟩
  · rw [setConditionsErrored_conditions]
    obtain ⟨⟨rd, hrd, -, hrr, hrm⟩, ⟨e, he, -, her, hem⟩⟩ :=
      erroredConditions_find (u.Now w).1 (u.Now (u.Now w).2).1 cr.Status.Conditions r m
    exact ⟨e, rd, he, her, hem, hrd, hrr, hrm⟩
  · rw [setConditionsReady_conditions]
    obtain ⟨⟨rd, hrd, -, hrr, hrm⟩, ⟨e, he, -, her, hem⟩⟩ :=
      readyConditions_find (u.Now w).1 (u.Now (u.Now w).2).1 cr.Status.Conditions r m
    exact ⟨rd, e, hrd, hrr, hrm, he, her, hem⟩
  · intro r2 m2 w2
    rw [setConditionsReady_conditions]
    obtain ⟨-, ⟨e, he, -, her, hem⟩⟩ :=
      readyConditions_find (u.Now w2).1 (u.Now (u.Now w2).2).1
        (u.SetConditionsErrored cr r m w).2.1.Status.Conditions r2 m2
    exact ⟨e, he, her, hem⟩

/-! ## Theorems: the names of the children -/

section NameLemmas

/-- Two strings that become equal when the same suffix is appended are equal. -/
theorem append_suffix_cancel (a b s : String) (h : a ++ s = b ++ s) : a = b := by
  have hd := congrArg String.data h
  simp only [String.data_append, List.append_cancel_right_eq] at hd
  exact String.ext hd

/-- The last character of a string that ends with a non-empty suffix is the
last character of the suffix. -/
theorem getLast_append_suffix (a s : String) (hs : s.data ≠ []) :
    (a ++ s).data.getLast? = s.data.getLast? := by
  rw [String.data_append]
  cases hsd : s.data with
  | nil => exact absurd hsd hs
  | cons c rest =>
    rw [List.getLast?_append, List.getLast?_eq_getLast (c :: rest) (List.cons_ne_nil _ _)]
    rfl

end NameLemmas

/-- C22: the name of each child is the owner's name followed by a fixed suffix:
`GetModuleName o = o.Name ++ "-module"`, `GetNodeMetricsName o = o.Name ++
"-node-metrics"`, `GetNodeLabelerName o = o.Name ++ "-node-labeler"` (the owner
"test" gives "test-module" and "test-node-metrics"); two owners with different
names get different names from each of the three functions; and the name of a
node-metrics child is never the name of a node-labeler child. -/
theorem C22_child_names_injective (o o2 : DeviceConfig) (h : o.Name ≠ o2.Name) :
    module.GetModuleName o = o.Name ++ "-module" ∧
    metrics.GetNodeMetricsName o = o.Name ++ "-node-metrics" ∧
    labeler.GetNodeLabelerName o = o.Name ++ "-node-labeler" ∧
    module.GetModuleName { Name := "test" } = "test-module" ∧
    metrics.GetNodeMetricsName { Name := "test" } = "test-node-metrics" ∧
    module.GetModuleName o ≠ module.GetModuleName o2 ∧
    metrics.GetNodeMetricsName o ≠ metrics.GetNodeMetricsName o2 ∧
    labeler.GetNodeLabelerName o ≠ labeler.GetNodeLabelerName o2 ∧
    metrics.GetNodeMetricsName o ≠ labeler.GetNodeLabelerName o2 := by
  have hm : ∀ d : DeviceConfig, module.GetModuleName d = d.Name ++ "-module" := fun d => by
    unfold module.GetModuleName
    rw [String.append_assoc]
    rfl
  have hn : ∀ d : DeviceConfig, metrics.GetNodeMetricsName d = d.Name ++ "-node-metrics" :=
    fun d => by
      unfold metrics.GetNodeMetricsName
      rw [String.append_assoc]
      rfl
  have hl : ∀ d : DeviceConfig, labeler.GetNodeLabelerName d = d.Name ++ "-node-labeler" :=
    fun d => by
      unfold labeler.GetNodeLabelerName
      rw [String.append_assoc]
      rfl
  refine ⟨hm o, hn o, hl o, by decide, by decide, ?_, ?_, ?_, ?_⟩
  · rw [hm, hm]
    exact fun e => h (append_suffix_cancel _ _ _ e)
  · rw [hn, hn]
    exact fun e => h (append_suffix_cancel _ _ _ e)
  · rw [hl, hl]
    exact fun e => h (append_suffix_cancel _ _ _ e)
  · rw [hn, hl]
    intro e
    have h1 := getLast_append_suffix o.Name "-node-metrics" (by decide)
    have h2 := getLast_append_suffix o2.Name "-node-labeler" (by decide)
    rw [e, h2] at h1
    revert h1
    decide

/-- C22 at the owners "zone-a" and "zone-b": their names differ, and so do the
names of their Module children. -/
theorem C22_child_names_injective_witness :
    module.GetModuleName fake.dcZoneA ≠ module.GetModuleName fake.dcZoneB :=
  (C22_child_names_injective fake.dcZoneA fake.dcZoneB (by decide)).2.2.2.2.2.1

/-! ## Theorems: the verdict of the validator and the candidate -/

/-- The node lists that the in-memory cluster `bystander` returns for its three
instances. -/
theorem bystander_returned :
    controllers.NodeListsReturned fake.listClient [fake.dcDefault, fake.dcZoneA, fake.dcZoneC]
      fake.bystander [[fake.node1, fake.node2], [fake.node1], [fake.node3]] fake.bystander :=
  .cons fake.dcDefault [fake.dcZoneA, fake.dcZoneC] fake.bystander fake.bystander fake.bystander
    [fake.node1, fake.node2] [[fake.node1], [fake.node3]] rfl
    (.cons fake.dcZoneA [fake.dcZoneC] fake.bystander fake.bystander fake.bystander
      [fake.node1] [[fake.node3]] rfl
      (.cons fake.dcZoneC [] fake.bystander fake.bystander fake.bystander
        [fake.node3] [] rfl (.nil _)))

/-- The verdict of the check and the world it leaves are the same for every
candidate, whatever the list calls answer. -/
theorem check_verdict_congr {σ : Type} (c : controllers.ListClient σ) (w : σ)
    (cr1 cr2 : DeviceConfig) :
    ((controllers.nodeSelectorValidator.mk c).CheckDeviceConfigForConflictingNodeSelector
        cr1 w).1.isSome =
      ((controllers.nodeSelectorValidator.mk c).CheckDeviceConfigForConflictingNodeSelector
        cr2 w).1.isSome ∧
    ((controllers.nodeSelectorValidator.mk c).CheckDeviceConfigForConflictingNodeSelector
        cr1 w).2.2 =
      ((controllers.nodeSelectorValidator.mk c).CheckDeviceConfigForConflictingNodeSelector
        cr2 w).2.2 := by
  simp only [controllers.nodeSelectorValidator.CheckDeviceConfigForConflictingNodeSelector]
  rcases c.ListDeviceConfigs w with ⟨e | items, w1⟩
  · simp
  · simp only []
    rcases (controllers.nodeSelectorValidator.mk c).collectNames items [] w1 with ⟨e | names, w2⟩
    · simp
    · by_cases hd : controllers.containsDuplicates names = true <;> simp [hd]

/-- C29: for a fixed client and world, the check gives every two candidates
the same verdict and leaves the same world; replacing the candidate's node
selector by any other leaves the returned error as it is; and when the list
calls are answered: if the node lists of the listed instances are not pairwise
disjoint, every candidate is rejected, also one whose own nodes are shared
with no other instance; if the node lists are sets and pairwise disjoint,
every candidate is accepted, also one that is not among the listed instances. -/
theorem C29_verdict_independent_of_candidate {σ : Type} (c : controllers.ListClient σ) (w : σ) :
    (∀ cr1 cr2 : DeviceConfig,
      ((controllers.nodeSelectorValidator.mk c).CheckDeviceConfigForConflictingNodeSelector
          cr1 w).1.isSome =
        ((controllers.nodeSelectorValidator.mk c).CheckDeviceConfigForConflictingNodeSelector
          cr2 w).1.isSome ∧
      ((controllers.nodeSelectorValidator.mk c).CheckDeviceConfigForConflictingNodeSelector
          cr1 w).2.2 =
        ((controllers.nodeSelectorValidator.mk c).CheckDeviceConfigForConflictingNodeSelector
          cr2 w).2.2) ∧
    (∀ (cr : DeviceConfig) (selector : Option (List (String × String))),
      ((controllers.nodeSelectorValidator.mk c).CheckDeviceConfigForConflictingNodeSelector
          { cr with Spec := { cr.Spec with NodeSelector := selector } } w).1 =
        ((controllers.nodeSelectorValidator.mk c).CheckDeviceConfigForConflictingNodeSelector
          cr w).1) ∧
    (∀ (w1 w2 : σ) (items : List DeviceConfig) (nodeLists : List (List Node)),
      c.ListDeviceConfigs w = (.ok items, w1) →
      controllers.NodeListsReturned c items w1 nodeLists w2 →
      (¬ nodeLists.Pairwise (fun a b => ∀ n ∈ a, ∀ m ∈ b, n.Name ≠ m.Name) →
        ∀ cr : DeviceConfig,
          ((controllers.nodeSelectorValidator.mk c).CheckDeviceConfigForConflictingNodeSelector
            cr w).1.isSome = true) ∧
      ((∀ l ∈ nodeLists, (l.map (fun n => n.Name)).Nodup) →
        nodeLists.Pairwise (fun a b => ∀ n ∈ a, ∀ m ∈ b, n.Name ≠ m.Name) →
        ∀ cr : DeviceConfig, cr ∉ items →
          ((controllers.nodeSelectorValidator.mk c).CheckDeviceConfigForConflictingNodeSelector
            cr w).1 = none)) := by
  refine ⟨check_verdict_congr c w, ?_, ?_⟩
  · intro cr selector
    simp only [controllers.nodeSelectorValidator.CheckDeviceConfigForConflictingNodeSelector]
    rcases c.ListDeviceConfigs w with ⟨e | items, w1⟩
    · simp
    · simp only []
      rcases (controllers.nodeSelectorValidator.mk c).collectNames items [] w1 with
        ⟨e | names, w2⟩
      · simp
      · by_cases hd : controllers.containsDuplicates names = true <;> simp [hd]
  · intro w1 w2 items nodeLists hdcs hnodes
    have hiff : (controllers.nodeNames nodeLists).Nodup ↔
        (∀ l ∈ nodeLists, (l.map (fun n => n.Name)).Nodup) ∧
          nodeLists.Pairwise (fun a b => ∀ n ∈ a, ∀ m ∈ b, n.Name ≠ m.Name) := by
      unfold controllers.nodeNames
      rw [List.nodup_flatten, List.pairwise_map]
      constructor
      · rintro ⟨h1, h2⟩
        refine ⟨fun l hl => h1 _ (List.mem_map.2 ⟨l, hl, rfl⟩), h2.imp ?_⟩
        intro a b hab n hn m hm hnm
        exact hab (List.mem_map.2 ⟨n, hn, rfl⟩) (List.mem_map.2 ⟨m, hm, hnm.symm⟩)
      · rintro ⟨h1, h2⟩
        refine ⟨?_, h2.imp ?_⟩
        · intro l hl
          obtain ⟨l0, hl0, rfl⟩ := List.mem_map.1 hl
          exact h1 l0 hl0
        · intro a b hab x hxa hxb
          obtain ⟨n, hn, rfl⟩ := List.mem_map.1 hxa
          obtain ⟨m, hm, hmn⟩ := List.mem_map.1 hxb
          exact hab n hn m hm hmn.symm
    constructor
    · intro hover cr
      rw [check_of_returned c cr w w1 w2 items nodeLists hdcs hnodes]
      have hd : ¬ (controllers.nodeNames nodeLists).Nodup := fun h => hover (hiff.1 h).2
      simp [hd]
    · intro hset hdisj cr _
      rw [check_of_returned c cr w w1 w2 items nodeLists hdcs hnodes]
      simp [hiff.2 ⟨hset, hdisj⟩]

/-- C29 at two in-memory clusters. In `bystander` the instance of zone c
matches node-3 alone, the two other instances share node-1, and the check
rejects the instance of zone c. In `partitioned` the two listed instances match
one node each, and the check accepts the instance without a selector, which is
not listed. -/
theorem C29_verdict_independent_of_candidate_witness :
    ((controllers.nodeSelectorValidator.mk fake.listClient).CheckDeviceConfigForConflictingNodeSelector
      fake.dcZoneC fake.bystander).1.isSome = true ∧
    ((controllers.nodeSelectorValidator.mk fake.listClient).CheckDeviceConfigForConflictingNodeSelector
      fake.dcDefault fake.partitioned).1 = none :=
  ⟨((C29_verdict_independent_of_candidate fake.listClient fake.bystander).2.2 fake.bystander
      fake.bystander [fake.dcDefault, fake.dcZoneA, fake.dcZoneC]
      [[fake.node1, fake.node2], [fake.node1], [fake.node3]] rfl bystander_returned).1
      (by decide) fake.dcZoneC,
    ((C29_verdict_independent_of_candidate fake.listClient fake.partitioned).2.2 fake.partitioned
      fake.partitioned [fake.dcZoneA, fake.dcZoneB] [[fake.node1], [fake.node2]] rfl
      partitioned_returned).2 (by decide) (by decide) fake.dcDefault (by decide)⟩

/-! ## Theorems: the contents of the desired children -/

section DesiredLemmas

/-- What `SetDesiredModule` leaves in a non-nil Module: the spec is built from
the owner and the settings alone. -/
theorem setDesiredModule_spec {σ : Type} (r : module.moduleReconciler σ) (g : Globals)
    (m : Module) (cr : DeviceConfig) :
    ∃ out, (r.SetDesiredModule g (some m) cr).2 = some out ∧
      out.Spec =
        { KernelMappings :=
            [{ ContainerImage :=
                 cr.Spec.DriverImage ++ ":" ++ cr.Spec.DriverVersion ++
                   "-$\x7bKERNEL_FULL_VERSION\x7d"
               Regexp := "^.*\\.el\\d_?\\d?\\..*$" }]
          DriverContainer := module.makeDriverHabanaContainer cr
          DevicePlugin := some (module.makeDevicePluginContainer g cr)
          AdditionalVolumes := module.makeAdditionalVolumes cr
          Selector := some cr.GetNodeSelector
          ServiceAccountName := module.driverHabanaServiceAccount } := by
  unfold module.moduleReconciler.SetDesiredModule
  simp only
  split <;> exact ⟨_, rfl, rfl⟩

/-- What `SetDesiredNodeMetricsDaemonSet` leaves in a non-nil DaemonSet: the
selector, the labels of the pods and the pod spec. -/
theorem setDesiredNodeMetricsDaemonSet_spec {σ : Type} (r : metrics.NodeMetricsReconciler σ)
    (g : Globals) (ds : DaemonSet) (cr : DeviceConfig) :
    ∃ out, (r.SetDesiredNodeMetricsDaemonSet g (some ds) cr).2 = some out ∧
      out.Spec.Selector = some { MatchLabels := some (metrics.labelsForNodeMetricsDaemonSet g cr) } ∧
      out.Spec.Template.ObjectMeta.Labels = some (metrics.labelsForNodeMetricsDaemonSet g cr) ∧
      out.Spec.Template.Spec =
        { Containers := [metrics.makeNodeMetricsContainer g cr]
          HostPID := true
          NodeSelector := some (cr.GetNodeSelectorFor "gaudi")
          PriorityClassName := "system-node-critical"
          ServiceAccountName := metrics.nodeMetricsServiceAccount
          Volumes :=
            [{ Name := "pod-resources"
               HostPath := some
                 { Path := "/var/lib/kubelet/pod-resources", Type_ := some HostPathDirectory } }] } := by
  unfold metrics.NodeMetricsReconciler.SetDesiredNodeMetricsDaemonSet
  simp only
  split <;> exact ⟨_, rfl, rfl, rfl, rfl⟩

/-- What `SetDesiredNodeLabelerDaemonSet` leaves in a non-nil DaemonSet: the
selector, the labels of the pods and the pod spec. -/
theorem setDesiredNodeLabelerDaemonSet_spec {σ : Type} (r : labeler.NodeLabelerReconciler σ)
    (g : Globals) (ds : DaemonSet) (cr : DeviceConfig) :
    ∃ out, (r.SetDesiredNodeLabelerDaemonSet g (some ds) cr).2 = some out ∧
      out.Spec.Selector = some { MatchLabels := some (labeler.labelsForNodeLabelerDaemonSet g cr) } ∧
      out.Spec.Template.ObjectMeta.Labels = some (labeler.labelsForNodeLabelerDaemonSet g cr) ∧
      out.Spec.Template.Spec =
        { Containers := [labeler.makeNodeLabelerContainer g cr]
          HostPID := true
          NodeSelector := some cr.GetNodeSelector
          PriorityClassName := "system-node-critical"
          ServiceAccountName := labeler.nodeLabelerServiceAccount
          Volumes :=
            [{ Name := "pod-resources"
               HostPath := some
                 { Path := "/etc/kubernetes/node-feature-discovery/features.d"
                   Type_ := some HostPathDirectory } }] } := by
  unfold labeler.NodeLabelerReconciler.SetDesiredNodeLabelerDaemonSet
  simp only
  split <;> exact ⟨_, rfl, rfl, rfl, rfl⟩

/-- A successful `SetControllerReference` changes the owner references only. -/
theorem setControllerReference_frame (owner : DeviceConfig) (controlled meta : ObjectMeta)
    (scheme : Scheme) (h : SetControllerReference owner controlled scheme = .ok meta) :
    meta.Labels = controlled.Labels ∧ meta.Annotations = controlled.Annotations ∧
      meta.Name = controlled.Name ∧ meta.Namespace = controlled.Namespace := by
  unfold SetControllerReference at h
  split at h
  · exact absurd h (by simp)
  · split at h
    · exact absurd h (by simp)
    · simp only at h
      split at h
      · exact absurd h (by simp)
      · injection h with h
        subst h
        exact ⟨rfl, rfl, rfl, rfl⟩

/-- What `SetDesiredNodeMetricsService` leaves in a non-nil Service: the
labels, the annotations and the spec. -/
theorem setDesiredNodeMetricsService_spec {σ : Type} (r : metrics.NodeMetricsReconciler σ)
    (g : Globals) (s : Service) (cr : DeviceConfig) :
    ∃ out, (r.SetDesiredNodeMetricsService g (some s) cr).2 = some out ∧
      out.ObjectMeta.Labels = some (metrics.labelsForNodeMetricsDaemonSet g cr) ∧
      out.ObjectMeta.Annotations = some [("prometheus.io/scrape", "true")] ∧
      out.Spec =
        { Selector := some (metrics.labelsForNodeMetricsDaemonSet g cr)
          Ports :=
            [{ Name := metrics.nodeMetricsSuffix, Port := metrics.nodeMetricsPort
               TargetPort := .Int metrics.nodeMetricsPort, Protocol := ProtocolTCP }] } := by
  unfold metrics.NodeMetricsReconciler.SetDesiredNodeMetricsService
  simp only
  split
  · exact ⟨_, rfl, rfl, rfl, rfl⟩
  · rename_i meta hmeta
    obtain ⟨hl, ha, -, -⟩ := setControllerReference_frame _ _ _ _ hmeta
    exact ⟨_, rfl, hl, ha, rfl⟩

end DesiredLemmas

/-- C23: for every owner and non-nil Module, whatever the scheme, the Module
that `SetDesiredModule` leaves has exactly one kernel mapping; its container
image is the owner's `DriverImage`, ":", the owner's `DriverVersion`, "-" and
the placeholder of `KERNEL_FULL_VERSION` (a dollar sign and the name between
braces), which is part of the string as written and is not resolved; and the
spec of the result is the same for every previous Module and every reconciler:
it is a function of the owner and the process-wide settings. -/
theorem C23_kernel_mapping_image {σ : Type} (r : module.moduleReconciler σ) (g : Globals)
    (m : Module) (cr : DeviceConfig) :
    ∃ out, (r.SetDesiredModule g (some m) cr).2 = some out ∧
      (∃ km, out.Spec.KernelMappings = [km] ∧
        km.ContainerImage =
          cr.Spec.DriverImage ++ ":" ++ cr.Spec.DriverVersion ++ "-$\x7bKERNEL_FULL_VERSION\x7d" ∧
        Contains km.ContainerImage "$\x7bKERNEL_FULL_VERSION\x7d") ∧
      (∀ (r2 : module.moduleReconciler σ) (m2 : Module),
        ∃ out2, (r2.SetDesiredModule g (some m2) cr).2 = some out2 ∧ out2.Spec = out.Spec) := by
  obtain ⟨out, hout, hspec⟩ := setDesiredModule_spec r g m cr
  refine ⟨out, hout, ⟨_, by rw [hspec], rfl, ?_⟩, ?_⟩
  · have h := contains_append_right
      (cr.Spec.DriverImage ++ ":" ++ cr.Spec.DriverVersion ++ "-") "$\x7bKERNEL_FULL_VERSION\x7d"
    have e : cr.Spec.DriverImage ++ ":" ++ cr.Spec.DriverVersion ++ "-" ++
        "$\x7bKERNEL_FULL_VERSION\x7d" =
        cr.Spec.DriverImage ++ ":" ++ cr.Spec.DriverVersion ++ "-$\x7bKERNEL_FULL_VERSION\x7d" := by
      rw [String.append_assoc (cr.Spec.DriverImage ++ ":" ++ cr.Spec.DriverVersion)]
      rfl
    rw [e] at h
    exact h
  · intro r2 m2
    obtain ⟨out2, hout2, hspec2⟩ := setDesiredModule_spec r2 g m2 cr
    exact ⟨out2, hout2, by rw [hspec2, hspec]⟩

/-- C25: for every owner and non-nil Service, whatever the scheme, the Service
that `SetDesiredNodeMetricsService` leaves has exactly one port; its protocol
is TCP and its port and its target port are 41611; the container that
`makeNodeMetricsContainer` builds declares exactly one port, with that same
number; and the annotations of the Service hold the key
"prometheus.io/scrape". -/
theorem C25_metrics_service_port {σ : Type} (r : metrics.NodeMetricsReconciler σ) (g : Globals)
    (s : Service) (cr : DeviceConfig) :
    ∃ out, (r.SetDesiredNodeMetricsService g (some s) cr).2 = some out ∧
      (∃ p, out.Spec.Ports = [p] ∧ p.Protocol = "TCP" ∧ p.Port = 41611 ∧
        p.TargetPort = .Int 41611 ∧
        ∃ cp, (metrics.makeNodeMetricsContainer g cr).Ports = [cp] ∧
          cp.ContainerPort = p.Port ∧ IntOrString.Int cp.ContainerPort = p.TargetPort) ∧
      (∃ annotations, out.ObjectMeta.Annotations = some annotations ∧
        "prometheus.io/scrape" ∈ annotations.map Prod.fst) := by
  obtain ⟨out, hout, -, hann, hspec⟩ := setDesiredNodeMetricsService_spec r g s cr
  refine ⟨out, hout, ⟨_, by rw [hspec], rfl, rfl, rfl, _, rfl, rfl, rfl⟩, _, hann, by decide⟩

/-- C26, as the code behaves: for every owner and non-nil DaemonSet, whatever
the scheme, the pod spec that `SetDesiredNodeMetricsDaemonSet` leaves has
HostPID enabled, the service account "node-metrics", the priority class
"system-node-critical", exactly one volume and exactly one container; that
container is named "node-metrics", has the node-metrics image of the settings
and the pull policy Always, is privileged, runs as user 0 and has exactly one
volume mount. The container of the labeler variant, however, declares one
port as well: a TCP port whose number is the constant `nodeLabelerPort`. -/
theorem C26_labeler_container_declares_port {σ : Type} (r : metrics.NodeMetricsReconciler σ)
    (rl : labeler.NodeLabelerReconciler σ) (g : Globals) (ds dsl : DaemonSet)
    (cr : DeviceConfig) :
    (∃ out, (r.SetDesiredNodeMetricsDaemonSet g (some ds) cr).2 = some out ∧
      out.Spec.Template.Spec.HostPID = true ∧
      out.Spec.Template.Spec.ServiceAccountName = "node-metrics" ∧
      out.Spec.Template.Spec.PriorityClassName = "system-node-critical" ∧
      out.Spec.Template.Spec.Volumes.length = 1 ∧
      ∃ c, out.Spec.Template.Spec.Containers = [c] ∧
        c.Name = "node-metrics" ∧ c.Image = g.Settings.NodeMetricsImage ∧
        c.ImagePullPolicy = "Always" ∧
        (∃ sc, c.SecurityContext = some sc ∧ sc.Privileged = some true ∧
          sc.RunAsUser = some 0) ∧
        c.VolumeMounts.length = 1) ∧
    (∃ out, (rl.SetDesiredNodeLabelerDaemonSet g (some dsl) cr).2 = some out ∧
      ∃ c p, out.Spec.Template.Spec.Containers = [c] ∧ c.Ports = [p] ∧
        p.ContainerPort = g.nodeLabelerPort ∧ p.HostPort = g.nodeLabelerPort ∧
        p.Protocol = "TCP" ∧ c.Ports ≠ []) := by
  obtain ⟨out, hout, -, -, hspec⟩ := setDesiredNodeMetricsDaemonSet_spec r g ds cr
  obtain ⟨outl, houtl, -, -, hspecl⟩ := setDesiredNodeLabelerDaemonSet_spec rl g dsl cr
  refine ⟨⟨out, hout, ?_⟩, ⟨outl, houtl, ?_⟩⟩
  · rw [hspec]
    exact ⟨rfl, rfl, rfl, rfl, _, rfl, rfl, rfl, rfl, ⟨_, rfl, rfl, rfl⟩, rfl⟩
  · rw [hspecl]
    exact ⟨_, _, rfl, rfl, rfl, rfl, rfl, by simp [labeler.makeNodeLabelerContainer]⟩

/-- The claim C27 as stated fails: for the owner and the settings of the tests,
it is not the case that the volume mounts of the labeler container and of the
metrics container are all read-only (the mount of the labeler container is
not). -/
theorem C27_counterexample :
    ¬ ((∀ mount ∈ (labeler.makeNodeLabelerContainer fake.globals fake.owner).VolumeMounts,
        mount.ReadOnly = true) ∧
      (∀ mount ∈ (metrics.makeNodeMetricsContainer fake.globals fake.owner).VolumeMounts,
        mount.ReadOnly = true)) := by
  decide

/-- C27, amended: for every owner, the node-daemon container of each variant
has exactly one volume mount, of the one host-path volume of its pod; the
mount of the metrics container, at /var/lib/kubelet/pod-resources, is
read-only, and the mount of the labeler container, at
/etc/kubernetes/node-feature-discovery/features.d, is not read-only. -/
theorem C27_mounts_of_node_daemons {σ : Type} (r : metrics.NodeMetricsReconciler σ)
    (rl : labeler.NodeLabelerReconciler σ) (g : Globals) (ds dsl : DaemonSet)
    (cr : DeviceConfig) :
    (∃ out, (r.SetDesiredNodeMetricsDaemonSet g (some ds) cr).2 = some out ∧
      ∃ c mount volume, out.Spec.Template.Spec.Containers = [c] ∧
        out.Spec.Template.Spec.Volumes = [volume] ∧ c.VolumeMounts = [mount] ∧
        mount.Name = volume.Name ∧
        volume.HostPath = some
          { Path := "/var/lib/kubelet/pod-resources", Type_ := some HostPathDirectory } ∧
        mount.MountPath = "/var/lib/kubelet/pod-resources" ∧ mount.ReadOnly = true) ∧
    (∃ out, (rl.SetDesiredNodeLabelerDaemonSet g (some dsl) cr).2 = some out ∧
      ∃ c mount volume, out.Spec.Template.Spec.Containers = [c] ∧
        out.Spec.Template.Spec.Volumes = [volume] ∧ c.VolumeMounts = [mount] ∧
        mount.Name = volume.Name ∧
        volume.HostPath = some
          { Path := "/etc/kubernetes/node-feature-discovery/features.d"
            Type_ := some HostPathDirectory } ∧
        mount.MountPath = "/etc/kubernetes/node-feature-discovery/features.d" ∧
        mount.ReadOnly = false) := by
  obtain ⟨out, hout, -, -, hspec⟩ := setDesiredNodeMetricsDaemonSet_spec r g ds cr
  obtain ⟨outl, houtl, -, -, hspecl⟩ := setDesiredNodeLabelerDaemonSet_spec rl g dsl cr
  refine ⟨⟨out, hout, ?_⟩, ⟨outl, houtl, ?_⟩⟩
  · rw [hspec]
    exact ⟨_, _, _, rfl, rfl, rfl, rfl, rfl, rfl, rfl⟩
  · rw [hspecl]
    exact ⟨_, _, _, rfl, rfl, rfl, rfl, rfl, rfl, rfl⟩

/-! ## Theorems: the regular expression of the kernel mapping -/

section RegexpLemmas

/-- The loop of `a*` matches a text that starts with characters that `a`
matches and goes on with a text that the rest of the pattern matches. -/
theorem starLoop_append (a : regexp.Atom) (k : List Char → Bool) (p s : List Char)
    (hp : ∀ c ∈ p, a.matches c = true) (hk : k s = true) :
    regexp.starLoop a k (p ++ s) = true := by
  induction p with
  | nil =>
    cases s with
    | nil => simpa [regexp.starLoop] using hk
    | cons c s => simp [regexp.starLoop, hk]
  | cons c p ih =>
    have hc : a.matches c = true := hp c (List.mem_cons_self _ _)
    have hrest := ih (fun d hd => hp d (List.mem_cons_of_mem _ hd))
    simp [regexp.starLoop, hc, hrest]

/-- A piece that matches once takes a character that its pattern matches. -/
theorem matchPieces_one_take (e : Bool) (a : regexp.Atom) (ps : List regexp.Piece) (c : Char)
    (s : List Char) (hc : a.matches c = true) (hs : regexp.matchPieces e ps s = true) :
    regexp.matchPieces e ({ atom := a, rep := .one } :: ps) (c :: s) = true := by
  rw [regexp.matchPieces, hc, hs]
  rfl

/-- An optional piece may take no character. -/
theorem matchPieces_quest_skip (e : Bool) (a : regexp.Atom) (ps : List regexp.Piece)
    (s : List Char) (hs : regexp.matchPieces e ps s = true) :
    regexp.matchPieces e ({ atom := a, rep := .quest } :: ps) s = true := by
  unfold regexp.matchPieces
  simp only [hs, Bool.true_or]

/-- An optional piece may take a character that its pattern matches. -/
theorem matchPieces_quest_take (e : Bool) (a : regexp.Atom) (ps : List regexp.Piece) (c : Char)
    (s : List Char) (hc : a.matches c = true) (hs : regexp.matchPieces e ps s = true) :
    regexp.matchPieces e ({ atom := a, rep := .quest } :: ps) (c :: s) = true := by
  rw [regexp.matchPieces]
  simp only [hc, hs, Bool.and_self, Bool.or_true]

/-- The last piece `.*` followed by `$` matches every text without newline. -/
theorem matchPieces_any_star (S : List Char) (hS : ∀ c ∈ S, c ≠ '\n') :
    regexp.matchPieces true [{ atom := .anyCharNotNL, rep := .star }] S = true := by
  rw [regexp.matchPieces]
  have h := starLoop_append .anyCharNotNL (regexp.matchPieces true []) S []
    (fun c hc => by simpa [regexp.Atom.matches] using hS c hc) (by simp [regexp.matchPieces])
  simpa using h

/-- The pattern of the kernel mapping compiles to nine pieces between `^` and
`$`. -/
theorem compile_kernel_regexp :
    regexp.Compile "^.*\\.el\\d_?\\d?\\..*$" = some
      { anchoredStart := true
        pieces :=
          [⟨.anyCharNotNL, .star⟩, ⟨.literal '.', .one⟩, ⟨.literal 'e', .one⟩,
            ⟨.literal 'l', .one⟩, ⟨.digit, .one⟩, ⟨.literal '_', .quest⟩, ⟨.digit, .quest⟩,
            ⟨.literal '.', .one⟩, ⟨.anyCharNotNL, .star⟩]
        anchoredEnd := true } := by
  decide

/-- The pattern of the kernel mapping matches a text made of a prefix without
newline, ".el", and a tail that the pieces after ".el" match. -/
theorem kernel_regexp_of_tail (P : String) (tail : List Char) (s : String)
    (hP : ∀ c ∈ P.data, c ≠ '\n') (hs : s.data = P.data ++ '.' :: 'e' :: 'l' :: tail)
    (htail : regexp.matchPieces true
      [⟨.digit, .one⟩, ⟨.literal '_', .quest⟩, ⟨.digit, .quest⟩, ⟨.literal '.', .one⟩,
        ⟨.anyCharNotNL, .star⟩] tail = true) :
    regexp.MatchString "^.*\\.el\\d_?\\d?\\..*$" s = some true := by
  simp only [regexp.MatchString, compile_kernel_regexp, Option.map_some', regexp.Regexp.MatchString,
    if_true, hs, Option.some.injEq]
  rw [regexp.matchPieces]
  apply starLoop_append
  · intro c hc
    simpa [regexp.Atom.matches] using hP c hc
  · exact matchPieces_one_take _ _ _ _ _ (by decide)
      (matchPieces_one_take _ _ _ _ _ (by decide)
        (matchPieces_one_take _ _ _ _ _ (by decide) htail))

/-- The pattern of the kernel mapping matches the release strings whose major
release number has one digit or two and which name no minor release. -/
theorem kernel_regexp_major (P M S : String)
    (hP : ∀ c ∈ P.data, c ≠ '\n') (hS : ∀ c ∈ S.data, c ≠ '\n')
    (hM : ∀ c ∈ M.data, c.isDigit = true) (hlen : M.length = 1 ∨ M.length = 2) :
    regexp.MatchString "^.*\\.el\\d_?\\d?\\..*$" (P ++ ".el" ++ M ++ "." ++ S) = some true := by
  have hdot : (regexp.Atom.literal '.').matches '.' = true := by decide
  rcases hlen with h1 | h2
  · obtain ⟨d, hd⟩ := List.length_eq_one.1 (show M.data.length = 1 from h1)
    have hdd : (regexp.Atom.digit).matches d = true := hM d (by simp [hd])
    apply kernel_regexp_of_tail P (d :: '.' :: S.data) _ hP
    · simp [String.data_append, hd]
    · exact matchPieces_one_take _ _ _ _ _ hdd
        (matchPieces_quest_skip _ _ _ _
          (matchPieces_quest_skip _ _ _ _
            (matchPieces_one_take _ _ _ _ _ hdot (matchPieces_any_star _ hS))))
  · obtain ⟨d1, d2, hd⟩ := List.length_eq_two.1 (show M.data.length = 2 from h2)
    have hd1 : (regexp.Atom.digit).matches d1 = true := hM d1 (by simp [hd])
    have hd2 : (regexp.Atom.digit).matches d2 = true := hM d2 (by simp [hd])
    apply kernel_regexp_of_tail P (d1 :: d2 :: '.' :: S.data) _ hP
    · simp [String.data_append, hd]
    · exact matchPieces_one_take _ _ _ _ _ hd1
        (matchPieces_quest_skip _ _ _ _
          (matchPieces_quest_take _ _ _ _ _ hd2
            (matchPieces_one_take _ _ _ _ _ hdot (matchPieces_any_star _ hS))))

/-- The pattern of the kernel mapping matches the release strings whose major
and minor release numbers have one digit each. -/
theorem kernel_regexp_major_minor (P M N S : String)
    (hP : ∀ c ∈ P.data, c ≠ '\n') (hS : ∀ c ∈ S.data, c ≠ '\n')
    (hM : ∀ c ∈ M.data, c.isDigit = true) (hN : ∀ c ∈ N.data, c.isDigit = true)
    (hlenM : M.length = 1) (hlenN : N.length = 1) :
    regexp.MatchString "^.*\\.el\\d_?\\d?\\..*$" (P ++ ".el" ++ M ++ "_" ++ N ++ "." ++ S) =
      some true := by
  have hdot : (regexp.Atom.literal '.').matches '.' = true := by decide
  have hund : (regexp.Atom.literal '_').matches '_' = true := by decide
  obtain ⟨d1, hd1⟩ := List.length_eq_one.1 (show M.data.length = 1 from hlenM)
  obtain ⟨d2, hd2⟩ := List.length_eq_one.1 (show N.data.length = 1 from hlenN)
  have hm1 : (regexp.Atom.digit).matches d1 = true := hM d1 (by simp [hd1])
  have hm2 : (regexp.Atom.digit).matches d2 = true := hN d2 (by simp [hd2])
  apply kernel_regexp_of_tail P (d1 :: '_' :: d2 :: '.' :: S.data) _ hP
  · simp [String.data_append, hd1, hd2]
  · exact matchPieces_one_take _ _ _ _ _ hm1
      (matchPieces_quest_take _ _ _ _ _ hund
        (matchPieces_quest_take _ _ _ _ _ hm2
          (matchPieces_one_take _ _ _ _ _ hdot (matchPieces_any_star _ hS))))

set_option maxRecDepth 100000 in
/-- The pattern of the kernel mapping on the three release strings of the
examples: the kernels of releases 8 and 9.0 match, the kernel of release 8.10
does not. -/
theorem kernel_regexp_examples :
    regexp.MatchString "^.*\\.el\\d_?\\d?\\..*$" "4.18.0-372.9.1.el8.x86_64" = some true ∧
    regexp.MatchString "^.*\\.el\\d_?\\d?\\..*$" "5.14.0-70.13.1.el9_0.x86_64" = some true ∧
    regexp.MatchString "^.*\\.el\\d_?\\d?\\..*$" "4.18.0-553.el8_10.x86_64" = some false := by
  decide

end RegexpLemmas

section RegexpMissLemmas

/-- When the loop of `a*` matches, the text splits into a part that the loop
takes and a part that the rest of the pattern matches. -/
theorem starLoop_split (a : regexp.Atom) (k : List Char → Bool) (t : List Char)
    (h : regexp.starLoop a k t = true) : ∃ p s, t = p ++ s ∧ k s = true := by
  induction t with
  | nil => exact ⟨[], [], rfl, by simpa [regexp.starLoop] using h⟩
  | cons c t ih =>
    simp only [regexp.starLoop, Bool.or_eq_true, Bool.and_eq_true] at h
    rcases h with h | ⟨-, h⟩
    · exact ⟨[], c :: t, rfl, h⟩
    · obtain ⟨p, s, hps, hk⟩ := ih h
      exact ⟨c :: p, s, by simp [hps], hk⟩

/-- A literal piece that matches once takes that character from the text. -/
theorem matchPieces_literal (e : Bool) (x : Char) (ps : List regexp.Piece) (s : List Char)
    (h : regexp.matchPieces e ({ atom := .literal x, rep := .one } :: ps) s = true) :
    ∃ s1, s = x :: s1 ∧ regexp.matchPieces e ps s1 = true := by
  cases s with
  | nil => simp [regexp.matchPieces] at h
  | cons c s1 =>
    simp only [regexp.matchPieces, regexp.Atom.matches, Bool.and_eq_true, beq_iff_eq] at h
    exact ⟨s1, by rw [h.1], h.2⟩

/-- What follows the one occurrence of a character in a text is determined by
the text. -/
theorem after_unique_char (x : Char) (l1 r1 l2 r2 : List Char) (h1 : x ∉ l1) (hr : x ∉ r1)
    (h : l1 ++ x :: r1 = l2 ++ x :: r2) : r1 = r2 := by
  have hcount := congrArg (List.count x) h
  simp only [List.count_append, List.count_cons_self, List.count_eq_zero_of_not_mem h1,
    List.count_eq_zero_of_not_mem hr] at hcount
  have h2 : x ∉ l2 := by
    intro hmem
    have := List.count_pos_iff.2 hmem
    omega
  have hd := congrArg (List.dropWhile (fun c => c != x)) h
  have drop : ∀ (l r : List Char), x ∉ l →
      List.dropWhile (fun c => c != x) (l ++ x :: r) = x :: r := by
    intro l r hl
    induction l with
    | nil => simp [List.dropWhile]
    | cons c l ih =>
      have hc : (c != x) = true := by
        simpa using fun e : c = x => hl (e ▸ List.mem_cons_self _ _)
      rw [List.cons_append, List.dropWhile_cons, if_pos hc]
      exact ih (fun hm => hl (List.mem_cons_of_mem _ hm))
  rw [drop l1 r1 h1, drop l2 r2 h2] at hd
  exact List.tail_eq_of_cons_eq hd

/-- The pattern of the kernel mapping does not match a release string whose
minor release number has two digits, when the letter l occurs in ".el" only. -/
theorem kernel_regexp_two_digit_minor (P M N S : String)
    (hP : 'l' ∉ P.data) (hS : 'l' ∉ S.data)
    (hM : ∀ c ∈ M.data, c.isDigit = true) (hN : ∀ c ∈ N.data, c.isDigit = true)
    (hlenM : M.length = 1) (hlenN : N.length = 2) :
    regexp.MatchString "^.*\\.el\\d_?\\d?\\..*$" (P ++ ".el" ++ M ++ "_" ++ N ++ "." ++ S) =
      some false := by
  obtain ⟨a, ha⟩ := List.length_eq_one.1 (show M.data.length = 1 from hlenM)
  obtain ⟨b, c, hbc⟩ := List.length_eq_two.1 (show N.data.length = 2 from hlenN)
  have hda : a.isDigit = true := hM a (by simp [ha])
  have hdb : b.isDigit = true := hN b (by simp [hbc])
  have hdc : c.isDigit = true := hN c (by simp [hbc])
  have notDigit : ∀ x : Char, x.isDigit = true → x ≠ 'l' ∧ x ≠ '.' ∧ x ≠ '_' := by
    intro x hx
    refine ⟨?_, ?_, ?_⟩ <;> (rintro rfl; revert hx; decide)
  have hdata : (P ++ ".el" ++ M ++ "_" ++ N ++ "." ++ S).data =
      (P.data ++ ['.', 'e']) ++ 'l' :: (a :: '_' :: b :: c :: '.' :: S.data) := by
    simp [String.data_append, ha, hbc]
  simp only [regexp.MatchString, compile_kernel_regexp, Option.map_some', regexp.Regexp.MatchString,
    if_true, Option.some.injEq]
  rw [← Bool.not_eq_true]
  intro hmatch
  rw [hdata, regexp.matchPieces] at hmatch
  obtain ⟨p, s, hps, hk⟩ := starLoop_split _ _ _ hmatch
  obtain ⟨s1, rfl, hk1⟩ := matchPieces_literal _ _ _ _ hk
  obtain ⟨s2, rfl, hk2⟩ := matchPieces_literal _ _ _ _ hk1
  obtain ⟨s3, rfl, hk3⟩ := matchPieces_literal _ _ _ _ hk2
  have htail : a :: '_' :: b :: c :: '.' :: S.data = s3 := by
    apply after_unique_char 'l' (P.data ++ ['.', 'e']) _ (p ++ ['.', 'e']) _
    · simp [hP]
    · simp [hS, (notDigit a hda).1.symm, (notDigit b hdb).1.symm, (notDigit c hdc).1.symm]
    · simpa using hps
  subst htail
  have hb1 := (notDigit b hdb).2.1
  have hb2 := (notDigit b hdb).2.2
  have hc1 := (notDigit c hdc).2.1
  simp [regexp.matchPieces, regexp.Atom.matches, hda, hdb, hdc, Ne.symm hb1, Ne.symm hb2,
    Ne.symm hc1] at hk3

end RegexpMissLemmas

set_option maxRecDepth 100000 in
/-- C24, as the code behaves: the regular expression that `SetDesiredModule`
puts in its one kernel mapping is `^.*\.el\d_?\d?\..*$`. It matches
"4.18.0-372.9.1.el8.x86_64" and "5.14.0-70.13.1.el9_0.x86_64", and every
string P ++ ".el" ++ M ++ "." ++ S and P ++ ".el" ++ M ++ "_" ++ N ++ "." ++ S
where P and S hold no newline, M is one decimal digit (or two, in the first
form) and N is one decimal digit. It does not match
"4.18.0-553.el8_10.x86_64", the release string with P = "4.18.0-553",
M = "8", N = "10" and S = "x86_64": a minor release number of two digits is
not recognised, in any string of the second form in which the letter l occurs
in ".el" only. -/
theorem C24_regexp_misses_two_digit_minor {σ : Type} (r : module.moduleReconciler σ)
    (g : Globals) (m : Module) (cr : DeviceConfig) :
    ∃ out km, (r.SetDesiredModule g (some m) cr).2 = some out ∧
      out.Spec.KernelMappings = [km] ∧
      km.Regexp = "^.*\\.el\\d_?\\d?\\..*$" ∧
      regexp.MatchString km.Regexp "4.18.0-372.9.1.el8.x86_64" = some true ∧
      regexp.MatchString km.Regexp "5.14.0-70.13.1.el9_0.x86_64" = some true ∧
      "4.18.0-553" ++ ".el" ++ "8" ++ "_" ++ "10" ++ "." ++ "x86_64" =
        "4.18.0-553.el8_10.x86_64" ∧
      regexp.MatchString km.Regexp "4.18.0-553.el8_10.x86_64" = some false ∧
      (∀ P M S : String, (∀ c ∈ P.data, c ≠ '\n') → (∀ c ∈ S.data, c ≠ '\n') →
        (∀ c ∈ M.data, c.isDigit = true) → (M.length = 1 ∨ M.length = 2) →
        regexp.MatchString km.Regexp (P ++ ".el" ++ M ++ "." ++ S) = some true) ∧
      (∀ P M N S : String, (∀ c ∈ P.data, c ≠ '\n') → (∀ c ∈ S.data, c ≠ '\n') →
        (∀ c ∈ M.data, c.isDigit = true) → (∀ c ∈ N.data, c.isDigit = true) →
        M.length = 1 → N.length = 1 →
        regexp.MatchString km.Regexp (P ++ ".el" ++ M ++ "_" ++ N ++ "." ++ S) = some true) ∧
      (∀ P M N S : String, 'l' ∉ P.data → 'l' ∉ S.data →
        (∀ c ∈ M.data, c.isDigit = true) → (∀ c ∈ N.data, c.isDigit = true) →
        M.length = 1 → N.length = 2 →
        regexp.MatchString km.Regexp (P ++ ".el" ++ M ++ "_" ++ N ++ "." ++ S) = some false) := by
  obtain ⟨out, hout, hspec⟩ := setDesiredModule_spec r g m cr
  refine ⟨out, _, hout, by rw [hspec], rfl, kernel_regexp_examples.1, kernel_regexp_examples.2.1,
    by decide, kernel_regexp_examples.2.2, ?_, ?_, ?_⟩
  · intro P M S hP hS hM hlen
    exact kernel_regexp_major P M S hP hS hM hlen
  · intro P M N S hP hS hM hN hlenM hlenN
    exact kernel_regexp_major_minor P M N S hP hS hM hN hlenM hlenN
  · intro P M N S hP hS hM hN hlenM hlenN
    exact kernel_regexp_two_digit_minor P M N S hP hS hM hN hlenM hlenN

/-! ## Theorems: the labels of the node daemons -/

/-- C28, as the code behaves: `labelsForNodeMetricsDaemonSet` and
`labelsForNodeLabelerDaemonSet` return the same labels for every two owners,
the name of the operator and the name of the component, and nothing of the
owner; so the selector of the DaemonSet built for one owner, and the selector
of the Service built for it, are the labels of the pods built for any other
owner and match them. For the owners "zone-a" and "zone-b" both label sets are
name = "habana-ai-operator", component = "node-metrics". -/
theorem C28_labels_ignore_owner {σ : Type} (r : metrics.NodeMetricsReconciler σ)
    (rl : labeler.NodeLabelerReconciler σ) (g : Globals) (ds1 ds2 : DaemonSet) (s1 : Service)
    (cr1 cr2 : DeviceConfig) :
    metrics.labelsForNodeMetricsDaemonSet g cr1 = metrics.labelsForNodeMetricsDaemonSet g cr2 ∧
    labeler.labelsForNodeLabelerDaemonSet g cr1 = labeler.labelsForNodeLabelerDaemonSet g cr2 ∧
    (∃ out1 out2 selector pods,
      (r.SetDesiredNodeMetricsDaemonSet g (some ds1) cr1).2 = some out1 ∧
      (r.SetDesiredNodeMetricsDaemonSet g (some ds2) cr2).2 = some out2 ∧
      out1.Spec.Selector = some { MatchLabels := some selector } ∧
      out2.Spec.Template.ObjectMeta.Labels = some pods ∧
      selector = pods ∧ fake.Matches selector pods = true) ∧
    (∃ out1 out2 selector pods,
      (rl.SetDesiredNodeLabelerDaemonSet g (some ds1) cr1).2 = some out1 ∧
      (rl.SetDesiredNodeLabelerDaemonSet g (some ds2) cr2).2 = some out2 ∧
      out1.Spec.Selector = some { MatchLabels := some selector } ∧
      out2.Spec.Template.ObjectMeta.Labels = some pods ∧
      selector = pods ∧ fake.Matches selector pods = true) ∧
    (∃ out1 out2 selector pods,
      (r.SetDesiredNodeMetricsService g (some s1) cr1).2 = some out1 ∧
      (r.SetDesiredNodeMetricsDaemonSet g (some ds2) cr2).2 = some out2 ∧
      out1.Spec.Selector = some selector ∧
      out2.Spec.Template.ObjectMeta.Labels = some pods ∧
      selector = pods ∧ fake.Matches selector pods = true) ∧
    metrics.labelsForNodeMetricsDaemonSet fake.globals fake.dcZoneA =
      [("app.kubernetes.io/name", "habana-ai-operator"),
        ("app.kubernetes.io/component", "node-metrics")] ∧
    metrics.labelsForNodeMetricsDaemonSet fake.globals fake.dcZoneB =
      [("app.kubernetes.io/name", "habana-ai-operator"),
        ("app.kubernetes.io/component", "node-metrics")] := by
  have hmatchM : fake.Matches (metrics.labelsForNodeMetricsDaemonSet g cr1)
      (metrics.labelsForNodeMetricsDaemonSet g cr2) = true := by
    simp [fake.Matches, metrics.labelsForNodeMetricsDaemonSet, List.lookup]
  have hmatchL : fake.Matches (labeler.labelsForNodeLabelerDaemonSet g cr1)
      (labeler.labelsForNodeLabelerDaemonSet g cr2) = true := by
    simp [fake.Matches, labeler.labelsForNodeLabelerDaemonSet, List.lookup]
  obtain ⟨m1, hm1, hsel1, -, -⟩ := setDesiredNodeMetricsDaemonSet_spec r g ds1 cr1
  obtain ⟨m2, hm2, -, hpods2, -⟩ := setDesiredNodeMetricsDaemonSet_spec r g ds2 cr2
  obtain ⟨l1, hl1, hlsel1, -, -⟩ := setDesiredNodeLabelerDaemonSet_spec rl g ds1 cr1
  obtain ⟨l2, hl2, -, hlpods2, -⟩ := setDesiredNodeLabelerDaemonSet_spec rl g ds2 cr2
  obtain ⟨sv, hsv, -, -, hsvspec⟩ := setDesiredNodeMetricsService_spec r g s1 cr1
  refine ⟨rfl, rfl, ⟨m1, m2, _, _, hm1, hm2, hsel1, hpods2, rfl, hmatchM⟩,
    ⟨l1, l2, _, _, hl1, hl2, hlsel1, hlpods2, rfl, hmatchL⟩,
    ⟨sv, m2, metrics.labelsForNodeMetricsDaemonSet g cr1,
      metrics.labelsForNodeMetricsDaemonSet g cr2, hsv, hm2, by rw [hsvspec], hpods2, rfl,
      hmatchM⟩, by decide, by decide⟩

/-! ## Theorems: the symmetric verdict and the effective selectors -/

/-- The selector that the validator lists with is the effective selector of
the instance unless the node selector of the instance is a present map with
zero entries. -/
theorem listed_selector_eq_effective (dc : DeviceConfig) (h : dc.Spec.NodeSelector ≠ some []) :
    (match dc.Spec.NodeSelector with
      | none => dc.GetNodeSelector
      | some m => m) = dc.GetNodeSelector := by
  cases hns : dc.Spec.NodeSelector with
  | none => rfl
  | some m =>
    cases m with
    | nil => exact absurd hns h
    | cons kv rest => simp [DeviceConfig.GetNodeSelector, hns]

/-- C3, as the code behaves. The in-memory cluster `mixed` holds exactly the
two instances "empty", whose node selector is a present map with zero entries,
and "zone-c". The effective selector of "empty" is the default
device-presence label, which matches node-1 alone; that of "zone-c" matches
node-3 alone; the two node sets are disjoint. Yet the check returns the
conflict error for both candidates, since the validator lists "empty" with the
selector of its empty map, which matches every node. For two instances A and B
whose node selector is not such an empty map the claim holds: when the node
lists of their effective selectors share a node the check returns an error
for both candidates, and when they are disjoint sets it returns nil for
both. -/
theorem C3_empty_selector_breaks_symmetric_verdict {σ : Type} (c : controllers.ListClient σ)
    (A B : DeviceConfig) (w w1 w2 w3 : σ) (nodesA nodesB : List Node) :
    (fake.listClient.ListDeviceConfigs fake.mixed).1.toOption =
      some [fake.dcEmptySelector, fake.dcZoneC] ∧
    fake.dcEmptySelector.GetNodeSelector = [(DefaultNodeSelectorKey, "true")] ∧
    (fake.listClient.ListNodes fake.dcEmptySelector.GetNodeSelector fake.mixed).1.toOption =
      some [fake.node1] ∧
    (fake.listClient.ListNodes fake.dcZoneC.GetNodeSelector fake.mixed).1.toOption =
      some [fake.node3] ∧
    (∀ n ∈ [fake.node1], ∀ m ∈ [fake.node3], n.Name ≠ m.Name) ∧
    ((controllers.nodeSelectorValidator.mk
        fake.listClient).CheckDeviceConfigForConflictingNodeSelector
      fake.dcEmptySelector fake.mixed).1 =
      some (.base "conflicting DeviceConfig NodeSelectors found for resource: empty" false) ∧
    ((controllers.nodeSelectorValidator.mk
        fake.listClient).CheckDeviceConfigForConflictingNodeSelector
      fake.dcZoneC fake.mixed).1 =
      some (.base "conflicting DeviceConfig NodeSelectors found for resource: zone-c" false) ∧
    (A.Spec.NodeSelector ≠ some [] → B.Spec.NodeSelector ≠ some [] →
      c.ListDeviceConfigs w = (.ok [A, B], w1) →
      c.ListNodes A.GetNodeSelector w1 = (.ok nodesA, w2) →
      c.ListNodes B.GetNodeSelector w2 = (.ok nodesB, w3) →
      ((∃ n ∈ nodesA, ∃ m ∈ nodesB, n.Name = m.Name) →
        ((controllers.nodeSelectorValidator.mk c).CheckDeviceConfigForConflictingNodeSelector
            A w).1.isSome = true ∧
        ((controllers.nodeSelectorValidator.mk c).CheckDeviceConfigForConflictingNodeSelector
            B w).1.isSome = true) ∧
      ((nodesA.map (fun n => n.Name)).Nodup → (nodesB.map (fun n => n.Name)).Nodup →
        (∀ n ∈ nodesA, ∀ m ∈ nodesB, n.Name ≠ m.Name) →
        ((controllers.nodeSelectorValidator.mk c).CheckDeviceConfigForConflictingNodeSelector
            A w).1 = none ∧
        ((controllers.nodeSelectorValidator.mk c).CheckDeviceConfigForConflictingNodeSelector
            B w).1 = none)) := by
  refine ⟨by decide, by decide, by decide, by decide, by decide, by decide, by decide, ?_⟩
  intro hA hB hdcs hlistA hlistB
  have hret : controllers.NodeListsReturned c [A, B] w1 [nodesA, nodesB] w3 :=
    .cons A [B] w1 w2 w3 nodesA [nodesB]
      (by rw [listed_selector_eq_effective A hA]; exact hlistA)
      (.cons B [] w2 w3 w3 nodesB []
        (by rw [listed_selector_eq_effective B hB]; exact hlistB) (.nil _))
  exact conflict_symmetric_of_returned c A B w w1 w3 nodesA nodesB hdcs hret

end HabanaOperator
